import Mathlib

/-!
The cpp-property library: accessor core, strategies and operator surface.

A shallow embedding of `include/cpp_property.hpp`.

* C++ types that matter to the library's constraints are described by `CppType`
  (a base type identifier, the `const` qualifier and the reference kind, or `void`).
* Program state is a `World`: a memory of cells holding entity values, addressed by
  `Loc`, together with an environment `env` standing for everything else the
  user-supplied closures capture.
* An expression result is a `Res`: either a prvalue carrying a value or an lvalue
  naming a cell (a C++ reference).  Reading through a reference is `Res.load`.
* A call that may throw returns an `Except (Fault ε) _` together with the state it
  leaves behind: what a callable wrote before throwing stays written.
* The class templates `property<...>` become structures holding the same members as
  the source; `get` / `set` are translated member by member.
* The CRTP base `detail::property_base` reaches the derived class only through
  `derived().get()` and `derived().set(v)`; its operators are therefore functions of
  those two members.
* Operators of the wrapped entity type (`+`, `*`, `<`, `~`, ...) are parameters: their
  meaning belongs to the wrapped type, not to the library.  So is the type of their
  result: `v + 1` and `v op k` yield a value of a type `π` that need not be the entity
  type, and the conversion of that type to the entity type is a parameter too.
-/

namespace cpp_property

/-! ## Types and type traits -/

/-- Reference kind of a C++ type: not a reference, `T&` or `T&&`. -/
inductive RefKind
  | none
  | lvalue
  | rvalue
  deriving DecidableEq, Repr

/-- Descriptor of a C++ type as far as the library inspects it: `void`, or a base type
with a `const` qualifier (on the referred-to type for references) and a reference kind. -/
inductive CppType
  | void
  | obj (base : Nat) (is_const : Bool) (ref : RefKind)
  deriving DecidableEq, Repr

namespace std

/-- Trait `std::is_lvalue_reference_v<T>`. -/
def is_lvalue_reference_v : CppType → Bool
  | .obj _ _ .lvalue => true
  | _ => false

/-- Trait `std::is_rvalue_reference_v<T>`. -/
def is_rvalue_reference_v : CppType → Bool
  | .obj _ _ .rvalue => true
  | _ => false

/-- Trait `std::is_reference_v<T>`. -/
def is_reference_v (T : CppType) : Bool :=
  is_lvalue_reference_v T || is_rvalue_reference_v T

/-- Trait `std::is_const_v<T>`: top-level const only, so false for every reference. -/
def is_const_v : CppType → Bool
  | .obj _ c .none => c
  | _ => false

/-- Trait `std::remove_reference_t<T>`. -/
def remove_reference_t : CppType → CppType
  | .obj b c _ => .obj b c .none
  | .void => .void

/-- Trait `std::remove_cvref_t<T>`. -/
def remove_cvref_t : CppType → CppType
  | .obj b _ _ => .obj b false .none
  | .void => .void

/-- Concept `std::same_as<A, B>`. -/
def same_as (A B : CppType) : Bool := decide (A = B)

/-- Base types are numbered.  The numbers below 16 stand for the arithmetic types
(`double`, `int`, `unsigned char`, ...); the others stand for class types that have no
converting constructor and no conversion function. -/
def is_arithmetic_base (b : Nat) : Bool := decide (b < 16)

/-- Implicit convertibility of a value of the base type `source` to the base type
`target`: every type converts to itself, and the arithmetic types convert to one another
(narrowing included). -/
def is_convertible_base (source target : Nat) : Bool :=
  decide (source = target) || (is_arithmetic_base source && is_arithmetic_base target)

/-- Validity of `std::function<R()>{g}` for a callable `g` whose call expression has
type `G`: the result must convert implicitly to `R`.  With equal base types a non-const
lvalue reference binds only to a non-const lvalue, an rvalue reference only to a
non-lvalue, and a const lvalue reference or a value accepts every category.  With
different base types the result is converted, which yields a temporary: a value, a const
lvalue reference and an rvalue reference accept it (C++20, the standard the library is
written for, lets `std::function` bind a reference result to a temporary), a non-const
lvalue reference does not. -/
def function_from_getter (R G : CppType) : Bool :=
  match R, G with
  | .void, _ => true
  | .obj _ _ _, .void => false
  | .obj rb rc rr, .obj gb gc gr =>
    if rb = gb then
      match rr with
      | .none => true
      | .lvalue => rc || (decide (gr = .lvalue) && !gc)
      | .rvalue => decide (gr ≠ .lvalue) && (rc || !gc)
    else
      is_convertible_base gb rb &&
        (match rr with
         | .none => true
         | .lvalue => rc
         | .rvalue => true)

/-- Validity of `std::function<void(A)>{s}` for a callable `s` with one parameter of type
`P`: an argument of type `A` (forwarded as `A&&`) must convert implicitly to `P`, by the
rules of `function_from_getter`. -/
def function_from_setter (A P : CppType) : Bool :=
  match A, P with
  | .void, _ => false
  | .obj _ _ _, .void => false
  | .obj ab ac ar, .obj pb pc pr =>
    if ab = pb then
      match pr with
      | .none => true
      | .lvalue => pc || (decide (ar = .lvalue) && !ac)
      | .rvalue => decide (ar ≠ .lvalue) && (pc || !ac)
    else
      is_convertible_base ab pb &&
        (match pr with
         | .none => true
         | .lvalue => pc
         | .rvalue => true)

end std

namespace detail

/-- Variable template `detail::is_dangling_reference<OuterReturnType, InnerReturnType>`. -/
def is_dangling_reference (OuterReturnType InnerReturnType : CppType) : Bool :=
  std.is_reference_v OuterReturnType && !std.is_reference_v InnerReturnType

end detail

/-- Variable template `is_const_lvalue_reference_v<T>`. -/
def is_const_lvalue_reference_v (T : CppType) : Bool :=
  std.is_const_v (std.remove_reference_t T) && std.is_lvalue_reference_v T

/-! ## State, references and failures -/

/-- Address of a storage cell. -/
abbrev Loc := Nat

/-- Program state: cells of the entity type, and the environment captured by closures. -/
structure World (α κ : Type) where
  mem : Loc → α
  env : κ

/-- Assignment `*l = v` into one cell. -/
def World.store {α κ : Type} (w : World α κ) (l : Loc) (v : α) : World α κ :=
  { w with mem := fun k => if k = l then v else w.mem k }

/-- Result of an expression of entity type, with its value category: a prvalue holding
the value, or an lvalue referring to a cell. -/
inductive Res (α : Type)
  | prvalue (v : α)
  | lvalue (l : Loc)

/-- Lvalue-to-rvalue conversion: the value an expression result denotes in state `w`. -/
def Res.load {α κ : Type} (w : World α κ) : Res α → α
  | .prvalue v => v
  | .lvalue l => w.mem l

/-- Ways a call can fail: an exception thrown by a user callable, the
`std::bad_function_call` thrown by an empty `std::function`, or the dereference of a null
`entity_` pointer (undefined behaviour in C++, kept as an explicit failure). -/
inductive Fault (ε : Type)
  | thrown (e : ε)
  | bad_function_call
  | null_dereference

/-- Computation that reads and may change the state and either returns a `ρ` or fails;
the state reached is returned in both cases. -/
abbrev Eff (ε α κ ρ : Type) := World α κ → Except (Fault ε) ρ × World α κ

/-- Computation run for its effect on the state only. -/
abbrev Act (ε α κ : Type) := Eff ε α κ Unit

/-! ## Strategy layer -/

/-- User-supplied zero-argument callable (concept `getter_function`): `return_type` is
`decltype(g())`, `call` its body. -/
structure Getter (ε α κ : Type) where
  return_type : CppType
  call : Eff ε α κ (Res α)

/-- User-supplied one-argument callable returning nothing (concept `setter_function`):
`argument_type` is its parameter type, `call` its body applied to the argument value. -/
structure Setter (ε α κ : Type) where
  argument_type : CppType
  call : α → Act ε α κ

/-- Class `get_auto<T>`: a possibly null pointer to a cell of type `T`. -/
structure get_auto where
  T : CppType
  entity_ : Option Loc

/-- Class `set_auto<T>`: a possibly null pointer to a mutable cell of type `T`. -/
structure set_auto where
  T : CppType
  entity_ : Option Loc

/-- Member `get_auto<T>::get`: `return *entity_;`, a const reference to the cell. -/
def get_auto.get {ε α κ : Type} (g : get_auto) : Eff ε α κ (Res α) := fun w =>
  match g.entity_ with
  | some l => (.ok (.lvalue l), w)
  | none => (.error .null_dereference, w)

/-- Member `set_auto<T>::set`: `*entity_ = std::forward<V>(value);`. -/
def set_auto.set {ε α κ : Type} (s : set_auto) (value : Res α) : Act ε α κ := fun w =>
  match s.entity_ with
  | some l => (.ok (), w.store l (value.load w))
  | none => (.error .null_dereference, w)

namespace std

/-- Invocation of a `std::function<ReturnType()>` member: empty throws
`std::bad_function_call`. -/
def function_call {ε α κ ρ : Type} (f : Option (Eff ε α κ ρ)) : Eff ε α κ ρ := fun w =>
  match f with
  | some g => g w
  | none => (.error .bad_function_call, w)

/-- Wrapper `std::function<ReturnType()>{g}`: calls `g` and converts its result to
`ReturnType`; a non-reference `ReturnType` copies the value out of a returned reference. -/
def function_of_getter {ε α κ : Type} (ReturnType : CppType) (g : Getter ε α κ) :
    Eff ε α κ (Res α) := fun w =>
  match g.call w with
  | (.error f, w1) => (.error f, w1)
  | (.ok r, w1) =>
    if is_reference_v ReturnType then (.ok r, w1) else (.ok (.prvalue (r.load w1)), w1)

end std

/-! ## Accessor classes -/

/-- Class templates `property<ReturnType>` and `property<ReturnType, ArgumentType>`: the
two specialisations have the same members and member functions, the first with
`ArgumentType = std::remove_cvref_t<ReturnType>`.  An empty `std::function` or a null
`entity_` is `none`. -/
structure property (ε α κ : Type) where
  ReturnType : CppType
  ArgumentType : CppType
  getter_ : Option (Eff ε α κ (Res α))
  auto_getter_ : get_auto
  setter_ : Option (α → Act ε α κ)
  auto_setter_ : set_auto

/-- Class template `property<ReturnType, get_only>`. -/
structure property_get_only (ε α κ : Type) where
  ReturnType : CppType
  getter_ : Option (Eff ε α κ (Res α))
  auto_getter_ : get_auto

/-- Class template `property<ArgumentType, set_only>`. -/
structure property_set_only (ε α κ : Type) where
  ArgumentType : CppType
  setter_ : Option (α → Act ε α κ)
  auto_setter_ : set_auto

/-- Getter argument of a constructor: a callable or a `get_auto`. -/
inductive GetterArg (ε α κ : Type)
  | fn (g : Getter ε α κ)
  | auto (g : get_auto)

/-- Setter argument of a constructor: a callable or a `set_auto`. -/
inductive SetterArg (ε α κ : Type)
  | fn (s : Setter ε α κ)
  | auto (s : set_auto)

section classes

variable {ε α κ : Type}

/-- Constructors of `property<ReturnType, ArgumentType>`, selected by the shapes of the
two arguments.  `none` means that the `requires` clause (or the parameter type) of the
matching constructor rejects the arguments; otherwise the member initialiser list is
applied and the members not named in it keep their defaults (empty function, null
pointer). -/
def property.construct (ReturnType ArgumentType : CppType) :
    GetterArg ε α κ → SetterArg ε α κ → Option (property ε α κ)
  | .fn get_f, .fn set_f =>
    if std.function_from_getter ReturnType get_f.return_type
        && std.function_from_setter ArgumentType set_f.argument_type
        && !detail.is_dangling_reference ReturnType get_f.return_type then
      some { ReturnType := ReturnType, ArgumentType := ArgumentType
             getter_ := some (std.function_of_getter ReturnType get_f)
             auto_getter_ := ⟨std.remove_cvref_t ReturnType, none⟩
             setter_ := some set_f.call
             auto_setter_ := ⟨std.remove_cvref_t ReturnType, none⟩ }
    else none
  | .auto get_f, .auto set_f =>
    if decide (get_f.T = std.remove_cvref_t ReturnType)
        && decide (set_f.T = std.remove_cvref_t ReturnType)
        && is_const_lvalue_reference_v ReturnType then
      some { ReturnType := ReturnType, ArgumentType := ArgumentType
             getter_ := none
             auto_getter_ := get_f
             setter_ := none
             auto_setter_ := set_f }
    else none
  | .auto get_f, .fn set_f =>
    if decide (get_f.T = std.remove_cvref_t ReturnType)
        && is_const_lvalue_reference_v ReturnType
        && std.function_from_setter ArgumentType set_f.argument_type then
      some { ReturnType := ReturnType, ArgumentType := ArgumentType
             getter_ := none
             auto_getter_ := get_f
             setter_ := some set_f.call
             auto_setter_ := ⟨std.remove_cvref_t ReturnType, none⟩ }
    else none
  | .fn get_f, .auto set_f =>
    if decide (set_f.T = std.remove_cvref_t ReturnType)
        && std.function_from_getter ReturnType get_f.return_type
        && !detail.is_dangling_reference ReturnType get_f.return_type then
      some { ReturnType := ReturnType, ArgumentType := ArgumentType
             getter_ := some (std.function_of_getter ReturnType get_f)
             auto_getter_ := ⟨std.remove_cvref_t ReturnType, none⟩
             setter_ := none
             auto_setter_ := set_f }
    else none

/-- Constructors of the one-parameter specialisation `property<ReturnType>`. -/
def property.construct_same (ReturnType : CppType) (get_f : GetterArg ε α κ)
    (set_f : SetterArg ε α κ) : Option (property ε α κ) :=
  property.construct ReturnType (std.remove_cvref_t ReturnType) get_f set_f

/-- Constructors of `property<ReturnType, get_only>`. -/
def property_get_only.construct (ReturnType : CppType) :
    GetterArg ε α κ → Option (property_get_only ε α κ)
  | .fn get_f =>
    if std.function_from_getter ReturnType get_f.return_type
        && !detail.is_dangling_reference ReturnType get_f.return_type then
      some { ReturnType := ReturnType
             getter_ := some (std.function_of_getter ReturnType get_f)
             auto_getter_ := ⟨std.remove_cvref_t ReturnType, none⟩ }
    else none
  | .auto get_f =>
    if decide (get_f.T = std.remove_cvref_t ReturnType)
        && is_const_lvalue_reference_v ReturnType then
      some { ReturnType := ReturnType
             getter_ := none
             auto_getter_ := get_f }
    else none

/-- Constructors of `property<ArgumentType, set_only>`. -/
def property_set_only.construct (ArgumentType : CppType) :
    SetterArg ε α κ → Option (property_set_only ε α κ)
  | .fn set_f =>
    if std.function_from_setter ArgumentType set_f.argument_type then
      some { ArgumentType := ArgumentType
             setter_ := some set_f.call
             auto_setter_ := ⟨std.remove_cvref_t ArgumentType, none⟩ }
    else none
  | .auto set_f =>
    if decide (set_f.T = std.remove_cvref_t ArgumentType) then
      some { ArgumentType := ArgumentType
             setter_ := none
             auto_setter_ := set_f }
    else none

/-- Member `property<ReturnType, ArgumentType>::get`. -/
def property.get (p : property ε α κ) : Eff ε α κ (Res α) := fun w =>
  if is_const_lvalue_reference_v p.ReturnType then
    match p.getter_ with
    | some getter => getter w
    | none => p.auto_getter_.get w
  else
    std.function_call p.getter_ w

/-- Member `property<ReturnType, ArgumentType>::set`: the function setter receives the
argument converted to `ArgumentType`, that is its value at the call. -/
def property.set (p : property ε α κ) (value : Res α) : Act ε α κ := fun w =>
  match p.setter_ with
  | some setter => setter (value.load w) w
  | none => p.auto_setter_.set value w

/-- Member `property<ReturnType, get_only>::get`. -/
def property_get_only.get (p : property_get_only ε α κ) : Eff ε α κ (Res α) := fun w =>
  if is_const_lvalue_reference_v p.ReturnType then
    match p.getter_ with
    | some getter => getter w
    | none => p.auto_getter_.get w
  else
    std.function_call p.getter_ w

/-- Member `property<ArgumentType, set_only>::set`. -/
def property_set_only.set (p : property_set_only ε α κ) (value : Res α) : Act ε α κ :=
  fun w =>
  match p.setter_ with
  | some setter => setter (value.load w) w
  | none => p.auto_setter_.set value w

end classes

/-! ## Operators of the wrapped entity type -/

/-- Binary operator tokens forwarded to the wrapped value with both operands evaluated
(`&&` and `||` are treated apart because the built-in ones short-circuit). -/
inductive BinOp
  | mul | div | mod | add | sub | shl | shr
  | lt | gt | le | ge | eq | ne
  | bit_and | bit_xor | bit_or
  deriving DecidableEq, Repr

/-- Unary operator tokens `~ ! - +`. -/
inductive UnaryOp
  | bit_not | logical_not | minus | plus
  deriving DecidableEq, Repr

/-- Compound assignment operators `*= /= %= += -= <<= >>= &= |= ^=`. -/
inductive CompoundOp
  | mul_assign | div_assign | mod_assign | add_assign | sub_assign
  | shl_assign | shr_assign | and_assign | or_assign | xor_assign
  deriving DecidableEq, Repr

/-- Binary operator that the body of a compound assignment applies. -/
def CompoundOp.applied : CompoundOp → BinOp
  | .mul_assign => .mul
  | .div_assign => .div
  | .mod_assign => .mod
  | .add_assign => .add
  | .sub_assign => .sub
  | .shl_assign => .shl
  | .shr_assign => .shr
  | .and_assign => .bit_and
  | .or_assign => .bit_or
  | .xor_assign => .bit_xor

/-- Binary operator named in the `requires` clause of a compound assignment
(`operator>>=` is constrained on `v + r`). -/
def CompoundOp.constrained : CompoundOp → BinOp
  | .mul_assign => .mul
  | .div_assign => .div
  | .mod_assign => .mod
  | .add_assign => .add
  | .sub_assign => .sub
  | .shl_assign => .shl
  | .shr_assign => .add
  | .and_assign => .bit_and
  | .or_assign => .bit_or
  | .xor_assign => .bit_xor

/-! ## The CRTP base `detail::property_base` -/

namespace detail

namespace property_base

variable {ε α κ β δ ι π : Type}

/-- Flag `has_getter = !std::same_as<void, ReturnType>`. -/
def has_getter (ReturnType : CppType) : Bool := !std.same_as .void ReturnType

/-- Flag `has_setter = !std::same_as<void, ArgumentType>`. -/
def has_setter (ArgumentType : CppType) : Bool := !std.same_as .void ArgumentType

/-- Explicit cast `operator()()`: `return derived().get();`. -/
def operator_call (get : Eff ε α κ (Res α)) : Eff ε α κ (Res α) := fun w => get w

/-- Implicit cast `operator ReturnType()`: `return derived().get();`. -/
def operator_ReturnType (get : Eff ε α κ (Res α)) : Eff ε α κ (Res α) := fun w => get w

/-- Assignment `operator=(U&& value)`: `U right = value;
derived().set(std::forward<U>(value)); return right;`.  For an lvalue argument `U` is a
reference type, so `right` and the returned result refer to the argument's cell; for a
prvalue they hold a copy. -/
def operator_assign (set : Res α → Act ε α κ) (value : Res α) : Eff ε α κ (Res α) :=
  fun w =>
  let right := value
  match set value w with
  | (.error f, w1) => (.error f, w1)
  | (.ok _, w1) => (.ok right, w1)

/-- Assignment `operator=(U&& value)` for a prvalue of a type `U` that need not be the
entity type, such as the `int` that `v + 1` yields for an `unsigned char` entity:
`U right = value; derived().set(std::forward<U>(value)); return right;`.  The result
`right` keeps the type `U`.  `set` hands the value to a `std::function<void(ArgumentType)>`
or assigns it to `*entity_`, which converts it: `convert` is that implicit conversion,
and `set` is given the converted prvalue. -/
def operator_assign_converted (convert : π → α) (set : Res α → Act ε α κ) (value : π) :
    Eff ε α κ π := fun w =>
  let right := value
  match set (.prvalue (convert value)) w with
  | (.error f, w1) => (.error f, w1)
  | (.ok _, w1) => (.ok right, w1)

/-- Postfix `operator++(int)`: `const auto prev = derived()(); operator=(prev + 1);
return prev;`, with `plus_one` the wrapped type's `v + 1`, whose type `π` is that of the
expression (the promoted type for a narrow integer), and `convert` the conversion of that
type to the entity type. -/
def operator_post_inc (plus_one : α → π) (convert : π → α) (get : Eff ε α κ (Res α))
    (set : Res α → Act ε α κ) : Eff ε α κ α := fun w =>
  match operator_call get w with
  | (.error f, w1) => (.error f, w1)
  | (.ok r, w1) =>
    let prev := r.load w1
    match operator_assign_converted convert set (plus_one prev) w1 with
    | (.error f, w2) => (.error f, w2)
    | (.ok _, w2) => (.ok prev, w2)

/-- Postfix `operator--(int)`: `const auto prev = derived()(); operator=(prev - 1);
return prev;`, with `minus_one` the wrapped type's `v - 1`. -/
def operator_post_dec (minus_one : α → π) (convert : π → α) (get : Eff ε α κ (Res α))
    (set : Res α → Act ε α κ) : Eff ε α κ α := fun w =>
  match operator_call get w with
  | (.error f, w1) => (.error f, w1)
  | (.ok r, w1) =>
    let prev := r.load w1
    match operator_assign_converted convert set (minus_one prev) w1 with
    | (.error f, w2) => (.error f, w2)
    | (.ok _, w2) => (.ok prev, w2)

/-- Prefix `operator++()`: `return operator=(derived()() + 1);`. -/
def operator_pre_inc (plus_one : α → π) (convert : π → α) (get : Eff ε α κ (Res α))
    (set : Res α → Act ε α κ) : Eff ε α κ π := fun w =>
  match operator_call get w with
  | (.error f, w1) => (.error f, w1)
  | (.ok r, w1) => operator_assign_converted convert set (plus_one (r.load w1)) w1

/-- Prefix `operator--()`: `return operator=(derived()() - 1);`. -/
def operator_pre_dec (minus_one : α → π) (convert : π → α) (get : Eff ε α κ (Res α))
    (set : Res α → Act ε α κ) : Eff ε α κ π := fun w =>
  match operator_call get w with
  | (.error f, w1) => (.error f, w1)
  | (.ok r, w1) => operator_assign_converted convert set (minus_one (r.load w1)) w1

/-- Compound assignment `operator*=(const U& right)` and its nine siblings, for a right
operand that is not an accessor: `return operator=(derived()() * right);`, with `plain o`
the wrapped type's own binary operator, whose result has the type `π` of the expression,
and `convert` the conversion of that type to the entity type. -/
def operator_compound (plain : BinOp → α → β → π) (convert : π → α) (c : CompoundOp)
    (get : Eff ε α κ (Res α)) (set : Res α → Act ε α κ) (right : β) :
    Eff ε α κ π := fun w =>
  match operator_call get w with
  | (.error f, w1) => (.error f, w1)
  | (.ok r, w1) =>
    operator_assign_converted convert set (plain c.applied (r.load w1) right) w1

end property_base

/-! ## Global operators

An accessor operand is given by its `operator()`.  An operand is evaluated completely
before the next one: the value of a reference returned by a call is fetched right after
that call. -/

section global_operators

variable {ε α κ β γ : Type}

/-- Global `operator*(const V& t1, U&& t2)` and its fifteen siblings (property / not
property): `return t1() * std::forward<U>(t2);`. -/
def operator_binary_pv (plain : BinOp → α → β → γ) (o : BinOp)
    (t1 : Eff ε α κ (Res α)) (t2 : β) : Eff ε α κ γ := fun w =>
  match property_base.operator_call t1 w with
  | (.error f, w1) => (.error f, w1)
  | (.ok r, w1) => (.ok (plain o (r.load w1) t2), w1)

/-- Global `operator*(U&& t1, const V& t2)` and its fifteen siblings (not property /
property): `return std::forward<U>(t1) * t2();`. -/
def operator_binary_vp (plain : BinOp → β → α → γ) (o : BinOp)
    (t1 : β) (t2 : Eff ε α κ (Res α)) : Eff ε α κ γ := fun w =>
  match property_base.operator_call t2 w with
  | (.error f, w1) => (.error f, w1)
  | (.ok r, w1) => (.ok (plain o t1 (r.load w1)), w1)

/-- Order in which the two calls of `t1() op t2()` are evaluated.  C++ sequences the left
operand first for `<<` and `>>` and leaves the order unspecified for the other
operators, where it is the parameter `t1_first`. -/
def evaluates_left_first (o : BinOp) (t1_first : Bool) : Bool :=
  t1_first || decide (o = .shl) || decide (o = .shr)

/-- Global `operator*(const U& t1, const V& t2)` and its fifteen siblings (property /
property): `return t1() * t2();`.  The two operands are evaluated in the order given by
`evaluates_left_first`; the value of the operand evaluated first is fetched from the
reference its call returned before the other call is made, and the operator is applied
after both. -/
def operator_binary_pp (plain : BinOp → α → α → γ) (o : BinOp) (t1_first : Bool)
    (t1 t2 : Eff ε α κ (Res α)) : Eff ε α κ γ := fun w =>
  if evaluates_left_first o t1_first then
    match property_base.operator_call t1 w with
    | (.error f, w1) => (.error f, w1)
    | (.ok r1, w1) =>
      let v1 := r1.load w1
      match property_base.operator_call t2 w1 with
      | (.error f, w2) => (.error f, w2)
      | (.ok r2, w2) => (.ok (plain o v1 (r2.load w2)), w2)
  else
    match property_base.operator_call t2 w with
    | (.error f, w1) => (.error f, w1)
    | (.ok r2, w1) =>
      let v2 := r2.load w1
      match property_base.operator_call t1 w1 with
      | (.error f, w2) => (.error f, w2)
      | (.ok r1, w2) => (.ok (plain o (r1.load w2) v2), w2)

/-- Global `operator&&(const V& t1, U&& t2)`: `return t1() && std::forward<U>(t2);`, the
built-in `&&` on operands converted to `bool` by `truth` and `truth2`. -/
def operator_and_pv (truth : α → Bool) (truth2 : β → Bool)
    (t1 : Eff ε α κ (Res α)) (t2 : β) : Eff ε α κ Bool := fun w =>
  match property_base.operator_call t1 w with
  | (.error f, w1) => (.error f, w1)
  | (.ok r, w1) => (.ok (truth (r.load w1) && truth2 t2), w1)

/-- Global `operator||(const V& t1, U&& t2)`: `return t1() || std::forward<U>(t2);`. -/
def operator_or_pv (truth : α → Bool) (truth2 : β → Bool)
    (t1 : Eff ε α κ (Res α)) (t2 : β) : Eff ε α κ Bool := fun w =>
  match property_base.operator_call t1 w with
  | (.error f, w1) => (.error f, w1)
  | (.ok r, w1) => (.ok (truth (r.load w1) || truth2 t2), w1)

/-- Global `operator&&(U&& t1, const V& t2)`: `return std::forward<U>(t1) && t2();`; the
built-in `&&` does not evaluate `t2()` when the left operand is false. -/
def operator_and_vp (truth2 : β → Bool) (truth : α → Bool)
    (t1 : β) (t2 : Eff ε α κ (Res α)) : Eff ε α κ Bool := fun w =>
  if truth2 t1 then
    match property_base.operator_call t2 w with
    | (.error f, w1) => (.error f, w1)
    | (.ok r, w1) => (.ok (truth (r.load w1)), w1)
  else (.ok false, w)

/-- Global `operator||(U&& t1, const V& t2)`: `return std::forward<U>(t1) || t2();`; the
built-in `||` does not evaluate `t2()` when the left operand is true. -/
def operator_or_vp (truth2 : β → Bool) (truth : α → Bool)
    (t1 : β) (t2 : Eff ε α κ (Res α)) : Eff ε α κ Bool := fun w =>
  if truth2 t1 then (.ok true, w)
  else
    match property_base.operator_call t2 w with
    | (.error f, w1) => (.error f, w1)
    | (.ok r, w1) => (.ok (truth (r.load w1)), w1)

/-- Global `operator&&(const U& t1, const V& t2)`: `return t1() && t2();`. -/
def operator_and_pp (truth : α → Bool)
    (t1 t2 : Eff ε α κ (Res α)) : Eff ε α κ Bool := fun w =>
  match property_base.operator_call t1 w with
  | (.error f, w1) => (.error f, w1)
  | (.ok r1, w1) =>
    if truth (r1.load w1) then
      match property_base.operator_call t2 w1 with
      | (.error f, w2) => (.error f, w2)
      | (.ok r2, w2) => (.ok (truth (r2.load w2)), w2)
    else (.ok false, w1)

/-- Global `operator||(const U& t1, const V& t2)`: `return t1() || t2();`. -/
def operator_or_pp (truth : α → Bool)
    (t1 t2 : Eff ε α κ (Res α)) : Eff ε α κ Bool := fun w =>
  match property_base.operator_call t1 w with
  | (.error f, w1) => (.error f, w1)
  | (.ok r1, w1) =>
    if truth (r1.load w1) then (.ok true, w1)
    else
      match property_base.operator_call t2 w1 with
      | (.error f, w2) => (.error f, w2)
      | (.ok r2, w2) => (.ok (truth (r2.load w2)), w2)

/-- Global `operator*(U&& t1, const V& t2)` and its siblings (not property / property)
when the left operand is the result of an accessor's call, which may be a reference:
`return std::forward<U>(t1) * t2();`.  The left operand is fetched before `t2()` is
called when it is evaluated first, and after that call otherwise. -/
def operator_binary_rp (plain : BinOp → α → α → γ) (o : BinOp) (t1_first : Bool)
    (t1 : Res α) (t2 : Eff ε α κ (Res α)) : Eff ε α κ γ := fun w =>
  if evaluates_left_first o t1_first then
    let v1 := t1.load w
    match property_base.operator_call t2 w with
    | (.error f, w1) => (.error f, w1)
    | (.ok r2, w1) => (.ok (plain o v1 (r2.load w1)), w1)
  else
    match property_base.operator_call t2 w with
    | (.error f, w1) => (.error f, w1)
    | (.ok r2, w1) => (.ok (plain o (t1.load w1) (r2.load w1)), w1)

/-- Compound assignment `operator*=(const U& right)` and its nine siblings, for a right
operand that is an accessor: in `return operator=(derived()() * right);` the expression
`derived()() * right` is the global operator (not property / property), which calls
`right()`. -/
def property_base.operator_compound_property {π : Type} (plain : BinOp → α → α → π)
    (convert : π → α) (c : CompoundOp) (t1_first : Bool)
    (get : Eff ε α κ (Res α)) (set : Res α → Act ε α κ) (right : Eff ε α κ (Res α)) :
    Eff ε α κ π := fun w =>
  match property_base.operator_call get w with
  | (.error f, w1) => (.error f, w1)
  | (.ok r, w1) =>
    match operator_binary_rp plain c.applied t1_first r right w1 with
    | (.error f, w2) => (.error f, w2)
    | (.ok v, w2) => property_base.operator_assign_converted convert set v w2

end global_operators

end detail

/-! ## Assignment operators of the derived classes -/

section derived_assign

variable {ε α κ : Type}

/-- Member `property::operator=(U&& value) const` for a value that is not an accessor:
`return Base::operator=(std::forward<U>(value));`. -/
def property.operator_assign (p : property ε α κ) (value : Res α) : Eff ε α κ (Res α) :=
  detail.property_base.operator_assign p.set value

/-- Members `property::operator=(const property& right) const` and
`property::operator=(const PropertyType& prop) const`: `return Base::operator=(prop());`,
with `prop` the right-hand accessor's `operator()`. -/
def property.operator_assign_property (p : property ε α κ) (prop : Eff ε α κ (Res α)) :
    Eff ε α κ (Res α) := fun w =>
  match detail.property_base.operator_call prop w with
  | (.error f, w1) => (.error f, w1)
  | (.ok r, w1) => detail.property_base.operator_assign p.set r w1

/-- Member `property<ArgumentType, set_only>::operator=(U&& value) const`. -/
def property_set_only.operator_assign (p : property_set_only ε α κ) (value : Res α) :
    Eff ε α κ (Res α) :=
  detail.property_base.operator_assign p.set value

/-- Member `property<ArgumentType, set_only>::operator=(const PropertyType& prop) const`:
`return Base::operator=(prop());`. -/
def property_set_only.operator_assign_property (p : property_set_only ε α κ)
    (prop : Eff ε α κ (Res α)) : Eff ε α κ (Res α) := fun w =>
  match detail.property_base.operator_call prop w with
  | (.error f, w1) => (.error f, w1)
  | (.ok r, w1) => detail.property_base.operator_assign p.set r w1

end derived_assign

/-! ## Plain storage -/

section plain_storage

variable {ε α κ : Type}

/-- Getter strategy that performs plain storage on cell `l`: a callable that returns the
content of `l` (by value or by reference) and changes nothing, or a `get_auto` bound to
`l`. -/
def GetterArg.plain_on (l : Loc) : GetterArg ε α κ → Prop
  | .fn g => ∀ w, ∃ r, g.call w = (.ok r, w) ∧ r.load w = w.mem l
  | .auto g => g.entity_ = some l

/-- Setter strategy that performs plain storage on cell `l`: a callable that assigns its
argument to `l` and does nothing else, or a `set_auto` bound to `l`. -/
def SetterArg.plain_on (l : Loc) : SetterArg ε α κ → Prop
  | .fn s => ∀ v w, s.call v w = (.ok (), w.store l v)
  | .auto s => s.entity_ = some l

end plain_storage

/-! ## Constraints: which operations a class offers

The `requires` clauses are evaluated at compile time.  Validity of an expression on the
wrapped value (`*v`, `v + 1`, `v * r`, ...) depends on the wrapped type and is given by
an oracle `valid`. -/

/-- Expressions on the wrapped value that `requires` clauses test. -/
inductive ValueExpr
  | star
  | subscript
  | plus_one
  | minus_one
  | unary (u : UnaryOp)
  | binary (o : BinOp)
  | logical_and
  | logical_or
  deriving DecidableEq, Repr

/-- Member operators declared by `detail::property_base`. -/
inductive MemberOp
  | call
  | conversion
  | arrow
  | star
  | assign
  | subscript
  | post_inc
  | post_dec
  | pre_inc
  | pre_dec
  | unary (u : UnaryOp)
  | compound (c : CompoundOp)
  deriving DecidableEq, Repr

/-- The `requires` clause of each member operator of
`property_base<DerivedType, ReturnType, ArgumentType>`. -/
def detail.property_base.requires_clause (ReturnType ArgumentType : CppType)
    (valid : ValueExpr → Bool) : MemberOp → Bool
  | .call => has_getter ReturnType
  | .conversion => has_getter ReturnType
  | .arrow => has_getter ReturnType
  | .star => has_getter ReturnType && valid .star
  | .assign => has_setter ArgumentType
  | .subscript => has_getter ReturnType && valid .subscript
  | .post_inc => has_getter ReturnType && has_setter ArgumentType && valid .plus_one
  | .post_dec => has_getter ReturnType && has_setter ArgumentType && valid .minus_one
  | .pre_inc => has_getter ReturnType && has_setter ArgumentType && valid .plus_one
  | .pre_dec => has_getter ReturnType && has_setter ArgumentType && valid .minus_one
  | .unary u => has_getter ReturnType && valid (.unary u)
  | .compound c =>
    has_getter ReturnType && has_setter ArgumentType && valid (.binary c.constrained)

/-- Operand of a global binary operator: a plain value, or an accessor whose base class
is `property_base<_, ReturnType, _>`. -/
inductive Operand
  | value
  | accessor (ReturnType : CppType)
  deriving DecidableEq, Repr

/-- The `requires` clause of the global operator chosen for an operand pair: the
expression `t1() op t2`, `t1 op t2()` or `t1() op t2()` must be valid, which needs
`operator()` (hence `has_getter`) on each accessor operand and the wrapped operator
`e`.  No global operator is declared for two plain values. -/
def detail.global_requires_clause (valid : ValueExpr → Bool) (e : ValueExpr) :
    Operand → Operand → Bool
  | .accessor R, .value => property_base.has_getter R && valid e
  | .value, .accessor R => property_base.has_getter R && valid e
  | .accessor R1, .accessor R2 =>
    property_base.has_getter R1 && property_base.has_getter R2 && valid e
  | .value, .value => false

/-- The three kinds of `property` specialisation. -/
inductive Variant
  | read_write
  | get_only
  | set_only
  deriving DecidableEq, Repr

/-- Second template argument that each specialisation passes to `property_base`
(`void` for `property<ArgumentType, set_only>`). -/
def Variant.base_ReturnType (ReturnType : CppType) : Variant → CppType
  | .read_write => ReturnType
  | .get_only => ReturnType
  | .set_only => .void

/-- Third template argument that each specialisation passes to `property_base`
(`void` for `property<ReturnType, get_only>`). -/
def Variant.base_ArgumentType (ArgumentType : CppType) : Variant → CppType
  | .read_write => ArgumentType
  | .get_only => .void
  | .set_only => ArgumentType

/-- Overloads of `operator=` visible in a `property` specialisation. -/
inductive AssignOverload
  | copy (deleted : Bool)
  | from_property
  | from_value
  deriving DecidableEq, Repr

/-- The `operator=` overload set of each specialisation, most preferred first (a
non-template beats a template on an exact match).  Read-write declares a const copy
assignment and the two templates; set-only deletes the copy assignment and declares the
two templates; get-only declares none, so only its implicit copy assignment is found,
deleted because the base deletes its own, and it hides the templates of the base. -/
def Variant.assign_overloads : Variant → List AssignOverload
  | .read_write => [.copy false, .from_property, .from_value]
  | .get_only => [.copy true]
  | .set_only => [.copy true, .from_property, .from_value]

/-- Whether an overload is deleted. -/
def AssignOverload.is_deleted : AssignOverload → Bool
  | .copy deleted => deleted
  | _ => false

/-- Right-hand operand of an assignment: an object of the left operand's own class, an
accessor of another class with base `property_base<_, ReturnType, _>`, or a plain value. -/
inductive AssignRhs
  | same_class
  | accessor (ReturnType : CppType)
  | value
  deriving DecidableEq, Repr

/-- Viability of an overload.  `own_ReturnType` is the base `ReturnType` of the left
class; `compatible` says that the setter accepts the right-hand value's type (the
`s(p())`, `s.set(p())`, `s(v)`, `s.set(v)` requirements as far as the entity types go).
The copy assignment takes the class itself; the accessor template needs `p()`, that is
`has_getter` on the right; the value template needs a plain value.  A right operand
converted to the left class by a converting constructor can only reach the copy
assignment, which either loses to a viable template or is deleted, so it is left out. -/
def AssignOverload.viable (own_ReturnType : CppType) (compatible : Bool)
    (rhs : AssignRhs) : AssignOverload → Bool
  | .copy _ =>
    match rhs with
    | .same_class => true
    | _ => false
  | .from_property =>
    match rhs with
    | .same_class => detail.property_base.has_getter own_ReturnType && compatible
    | .accessor R => detail.property_base.has_getter R && compatible
    | .value => false
  | .from_value =>
    match rhs with
    | .value => compatible
    | _ => false

/-- Trait `std::is_assignable_v<Left, Right>` for a left operand of kind `lhs` declared
with `ReturnType`: overload resolution picks the first viable overload, and the
expression is well-formed when there is one and it is not deleted. -/
def is_assignable (lhs : Variant) (ReturnType : CppType) (compatible : Bool)
    (rhs : AssignRhs) : Bool :=
  match lhs.assign_overloads.filter
      (AssignOverload.viable (lhs.base_ReturnType ReturnType) compatible rhs) with
  | [] => false
  | best :: _ => !best.is_deleted

/-- Member operators that write through the accessor: `++`, `--` (both forms) and the
compound assignments. -/
def MemberOp.is_mutating : MemberOp → Bool
  | .post_inc => true
  | .post_dec => true
  | .pre_inc => true
  | .pre_dec => true
  | .compound _ => true
  | _ => false

/-- Member operators that read through the accessor: every one except plain assignment. -/
def MemberOp.is_reading : MemberOp → Bool
  | .assign => false
  | _ => true

/-- Accessor operands among the two operands of a global operator. -/
def Operand.accessors : Operand → Operand → List CppType
  | .accessor R1, .accessor R2 => [R1, R2]
  | .accessor R, .value => [R]
  | .value, .accessor R => [R]
  | .value, .value => []

/-! ## The test class `A` -/

namespace test

/-- Exceptions thrown by the callables of the tests. -/
inductive Exception
  | invalid_argument (what : String)

/-- Base type identifier used for `double`. -/
def double_id : Nat := 0

/-- Type `double`. -/
def double : CppType := .obj double_id false .none

/-- Type `const double&`. -/
def const_double_ref : CppType := .obj double_id true .lvalue

/-- An object of the test class `A`, given by the address of its member `num_`. -/
structure A where
  num_ : Loc

section class_A

variable {α κ : Type} [LT α] [Zero α] [∀ a b : α, Decidable (a < b)]

/-- Getter of `A::num`: `get_cref { return num_; }`. -/
def A.num_getter (a : A) : Getter Exception α κ :=
  { return_type := const_double_ref
    call := fun w => (.ok (.lvalue a.num_), w) }

/-- Setter of `A::num`: `set_val { if (value < 0) throw
std::invalid_argument("value must be >= 0"); num_ = std::move(value); }`. -/
def A.num_setter (a : A) : Setter Exception α κ :=
  { argument_type := double
    call := fun value w =>
      if value < 0 then (.error (.thrown (.invalid_argument "value must be >= 0")), w)
      else (.ok (), w.store a.num_ value) }

/-- Member `property<const double&> num` of class `A`. -/
def A.num (a : A) : Option (property Exception α κ) :=
  property.construct_same const_double_ref (.fn a.num_getter) (.fn a.num_setter)

end class_A

end test

/-- Arithmetic of the numbers used in `TEST(CppProperty, Operators)`, on integers:
`+ - * /`; the other operator tokens are not exercised there and are given the value of
the left operand. -/
def test.arithmetic (o : BinOp) (x k : Int) : Int :=
  match o with
  | .add => x + k
  | .sub => x - k
  | .mul => x * k
  | .div => x / k
  | _ => x

/-! ## The benchmark class `A` -/

namespace bench

/-- An object of the benchmark class `A`, given by the address of its member `num_`. -/
structure A where
  num_ : Loc

section class_A

variable {ε α κ : Type}

/-- Getter `get_cref { return num_; }`. -/
def A.get_cref (a : A) : Getter ε α κ :=
  { return_type := test.const_double_ref
    call := fun w => (.ok (.lvalue a.num_), w) }

/-- Setter `set_val { num_ = value; }`. -/
def A.set_val (a : A) : Setter ε α κ :=
  { argument_type := test.double
    call := fun value w => (.ok (), w.store a.num_ value) }

/-- Direct getter `get_auto {num_}`. -/
def A.get_auto_num (a : A) : get_auto := ⟨test.double, some a.num_⟩

/-- Direct setter `set_auto {num_}`. -/
def A.set_auto_num (a : A) : set_auto := ⟨test.double, some a.num_⟩

/-- Member `property<const double&> p_fn_fn`. -/
def A.p_fn_fn (a : A) : Option (property ε α κ) :=
  property.construct_same test.const_double_ref (.fn a.get_cref) (.fn a.set_val)

/-- Member `property<const double&> p_auto_fn`. -/
def A.p_auto_fn (a : A) : Option (property ε α κ) :=
  property.construct_same test.const_double_ref (.auto a.get_auto_num) (.fn a.set_val)

/-- Member `property<const double&> p_fn_auto`. -/
def A.p_fn_auto (a : A) : Option (property ε α κ) :=
  property.construct_same test.const_double_ref (.fn a.get_cref) (.auto a.set_auto_num)

/-- Member `property<const double&> p_auto_auto`. -/
def A.p_auto_auto (a : A) : Option (property ε α κ) :=
  property.construct_same test.const_double_ref (.auto a.get_auto_num) (.auto a.set_auto_num)

end class_A

end bench

/-! ## An accessor with a transforming setter -/

namespace sample

section doubling

variable {ε κ : Type}

/-- Setter `[&num](double value) { num = value + value; }`: stores twice its argument in
the cell `num`. -/
def doubling_setter (num : Loc) : Setter ε Int κ :=
  { argument_type := test.double
    call := fun value w => (.ok (), w.store num (value + value)) }

/-- Accessor `property<const double&>{[&num]() -> const double& { return num; },
[&num](double value) { num = value + value; }}` on the cell `num`. -/
def doubling (num : Loc) : Option (property ε Int κ) :=
  property.construct_same test.const_double_ref (.fn (bench.A.get_cref ⟨num⟩))
    (.fn (doubling_setter num))

end doubling

end sample

/-! ## Language-level uses of an operator's result -/

section language

variable {ε α κ δ : Type}

end language

/-! ## The accessors of `TEST(CppProperty, Cast)` -/

namespace test

/-- Type `double&`. -/
def double_ref : CppType := .obj double_id false .lvalue

section cast

variable {ε α κ : Type}

end cast

end test

/-! ## Entity types of the strategies -/

section entity_types

variable {ε α κ : Type}

/-- Entity type of a getter strategy: the return type of a callable stripped of
reference and const, or the type a `get_auto` is bound to. -/
def GetterArg.entity_type : GetterArg ε α κ → CppType
  | .fn g => std.remove_cvref_t g.return_type
  | .auto g => g.T

/-- Entity type of a setter strategy: the argument type of a callable stripped of
reference and const, or the type a `set_auto` is bound to. -/
def SetterArg.entity_type : SetterArg ε α κ → CppType
  | .fn s => std.remove_cvref_t s.argument_type
  | .auto s => s.T

end entity_types

namespace test

/-- Base type identifier used for `int`. -/
def int_id : Nat := 1

/-- Type `int`. -/
def int : CppType := .obj int_id false .none

end test

/-! ## Class template argument deduction for `property{...}` -/

/-- A specialisation of `property` named by its template arguments: `property<R>`,
`property<R, A>`, `property<R, get_only>`, `property<A, set_only>`. -/
inductive PropertyType
  | one (ReturnType : CppType)
  | two (ReturnType ArgumentType : CppType)
  | get_only (ReturnType : CppType)
  | set_only (ArgumentType : CppType)
  deriving DecidableEq, Repr

/-- Signature `R(As...)` of a callable for which `std::function{f}` can be deduced
(concept `function_castable`), as `function_traits` exposes it. -/
structure Signature where
  return_type : CppType
  argument_types : List CppType
  deriving DecidableEq, Repr

namespace detail

/-- Concept `getter_function`: non-void result and no argument. -/
def getter_function (f : Signature) : Bool :=
  !std.same_as .void f.return_type && decide (f.argument_types.length = 0)

/-- Concept `setter_function`: void result and exactly one argument. -/
def setter_function (f : Signature) : Bool :=
  std.same_as .void f.return_type && decide (f.argument_types.length = 1)

/-- Alias `getter_return_type<Func>`, constrained by `getter_function`; `none` is a
substitution failure. -/
def getter_return_type (f : Signature) : Option CppType :=
  if getter_function f then some f.return_type else none

/-- Alias `setter_argument_type<Func>`, constrained by `setter_function`: element 0 of
the argument tuple; `none` is a substitution failure. -/
def setter_argument_type (f : Signature) : Option CppType :=
  if setter_function f then f.argument_types.head? else none

end detail

/-- Type `const EntityType&` formed by a deduction guide; `none` for `void`, and
reference collapsing for an `EntityType` that is itself a reference. -/
def const_lvalue_reference_to : CppType → Option CppType
  | .void => none
  | .obj b _ .none => some (.obj b true .lvalue)
  | .obj b c _ => some (.obj b c .lvalue)

/-- An initialiser of `property{...}` as the deduction guides see it: a callable with the
signature `std::function{f}` deduces (`none` when it is not `function_castable`, as for a
generic lambda), or a `get_auto<T>` / `set_auto<T>` object with its value category. -/
inductive Initializer
  | callable (f : Option Signature)
  | get_auto (T : CppType) (is_rvalue : Bool)
  | set_auto (T : CppType) (is_rvalue : Bool)
  deriving DecidableEq, Repr

/-- The eight deduction guides of `property`, in the order of the source. -/
inductive Guide
  | getter_setter
  | get_auto_set_auto
  | getter_set_auto
  | get_auto_setter
  | getter
  | get_auto
  | setter
  | set_auto
  deriving DecidableEq, Repr

/-- Result of one deduction guide on a list of initialisers; `none` when the guide does
not apply.  A parameter `Getter&&` or `Setter&&` is a forwarding reference and takes any
callable; a parameter `get_auto<EntityType>&&` or `set_auto<EntityType>&&` binds only to
an rvalue. -/
def Guide.deduce : Guide → List Initializer → Option PropertyType
  | .getter_setter, [.callable (some g), .callable (some s)] =>
    match detail.getter_return_type g, detail.setter_argument_type s with
    | some R, some A => some (.two R A)
    | _, _ => none
  | .get_auto_set_auto, [.get_auto E true, .set_auto E2 true] =>
    if E = E2 then (const_lvalue_reference_to E).map .one else none
  | .getter_set_auto, [.callable (some g), .set_auto E true] =>
    (detail.getter_return_type g).map (fun R => .two R E)
  | .get_auto_setter, [.get_auto E true, .callable (some s)] =>
    match const_lvalue_reference_to E, detail.setter_argument_type s with
    | some R, some A => some (.two R A)
    | _, _ => none
  | .getter, [.callable (some g)] => (detail.getter_return_type g).map .get_only
  | .get_auto, [.get_auto E true] => (const_lvalue_reference_to E).map .get_only
  | .setter, [.callable (some s)] => (detail.setter_argument_type s).map .set_only
  | .set_auto, [.set_auto E true] => some (.set_only E)
  | _, _ => none

/-- All deduction guides. -/
def Guide.all : List Guide :=
  [.getter_setter, .get_auto_set_auto, .getter_set_auto, .get_auto_setter,
   .getter, .get_auto, .setter, .set_auto]

/-- Candidate types for `property{inits...}`: the results of the guides that apply. -/
def deduction_candidates (inits : List Initializer) : List PropertyType :=
  Guide.all.filterMap (fun guide => guide.deduce inits)

/-- Type deduced for `property{inits...}`: the result of the single applicable guide;
`none` when no guide applies or the candidates disagree. -/
def deduce_property (inits : List Initializer) : Option PropertyType :=
  match (deduction_candidates inits).dedup with
  | [T] => some T
  | _ => none

/-- A callable `() -> R`. -/
def Initializer.getter (R : CppType) : Initializer := .callable (some ⟨R, []⟩)

/-- A callable `(A) -> void`. -/
def Initializer.setter (A : CppType) : Initializer := .callable (some ⟨.void, [A]⟩)

/-! ## The self-storage accessor `auto_property<EntityType>` -/

/-- Whether an expression result is an rvalue, so that a forwarding reference `V&&` bound
to it is an rvalue reference. -/
def Res.is_rvalue {α : Type} : Res α → Bool
  | .prvalue _ => true
  | .lvalue _ => false

/-- Class template `auto_property<EntityType>`: its only data member is
`EntityType entity_`.  Here `entity_` is the cell the member occupies inside the object
or, when `EntityType` is an lvalue reference, the cell the member is bound to. -/
structure auto_property where
  EntityType : CppType
  entity_ : Loc

section self_storage

variable {ε α κ : Type}

/-- The `requires` clause shared by the constructors taking `V&& init` and by
`operator=(U&& value)`: `!std::is_reference_v<EntityType> ||
!std::is_rvalue_reference_v<V&&>`. -/
def auto_property.forward_requires (EntityType : CppType) (is_rvalue : Bool) : Bool :=
  !std.is_reference_v EntityType || !is_rvalue

/-- Constructors `explicit auto_property(V&& init)` and
`auto_property(get_auto<void>, set_auto<void>, V&& init)` for an object placed at address
`self`: `entity_(std::forward<V>(init))`.  `none` when the class constraint
`!std::is_rvalue_reference_v<EntityType>` or the constructor's `requires` clause fails
(or `EntityType` is `void`).  A reference member is bound to the cell of `init`; a value
member is initialised in the object's own cell. -/
def auto_property.construct (EntityType : CppType) (self : Loc) (init : Res α)
    (w : World α κ) : Option (auto_property × World α κ) :=
  if std.is_rvalue_reference_v EntityType || std.same_as .void EntityType then none
  else if !auto_property.forward_requires EntityType init.is_rvalue then none
  else if std.is_reference_v EntityType then
    match init with
    | .lvalue l => some (⟨EntityType, l⟩, w)
    | .prvalue _ => none
  else some (⟨EntityType, self⟩, w.store self (init.load w))

/-- Member `auto_property<EntityType>::get`: `return entity_;`. -/
def auto_property.get (a : auto_property) : Eff ε α κ (Res α) := fun w =>
  (.ok (.lvalue a.entity_), w)

/-- Member `auto_property<EntityType>::set`: `entity_ = std::forward<U>(value);`. -/
def auto_property.set (a : auto_property) (value : Res α) : Act ε α κ := fun w =>
  (.ok (), w.store a.entity_ (value.load w))

/-- The `requires` clause of `auto_property<EntityType>::operator=(U&& value)` for a
value of the entity's base type: `e = std::forward<U>(v)` with `EntityType& e` needs a
referred-to type that is not `const`, and the second conjunct is the one shared with the
constructors. -/
def auto_property.assign_requires (a : auto_property) (value : Res α) : Bool :=
  !std.is_const_v (std.remove_reference_t a.EntityType)
    && auto_property.forward_requires a.EntityType value.is_rvalue

/-- Member `auto_property<EntityType>::operator=(U&& value)` for a value that is not an
accessor: `return Base::operator=(std::forward<U>(value));`. -/
def auto_property.operator_assign (a : auto_property) (value : Res α) :
    Eff ε α κ (Res α) :=
  detail.property_base.operator_assign a.set value

/-- Member `auto_property<EntityType>::operator=(const PropertyType& prop)`:
`return Base::operator=(prop());`. -/
def auto_property.operator_assign_property (a : auto_property)
    (prop : Eff ε α κ (Res α)) : Eff ε α κ (Res α) := fun w =>
  match detail.property_base.operator_call prop w with
  | (.error f, w1) => (.error f, w1)
  | (.ok r, w1) => detail.property_base.operator_assign a.set r w1

end self_storage

/-! ## Instantiating the members of `property_base` for a derived class

A `requires` clause decides whether an operator takes part in overload resolution; the
body of the chosen operator must then compile for the derived class.  Every operator of
`property_base` is a `const` member function, except the second overload of
`operator=(U&&)`; inside a `const` member function `derived()` is a
`const DerivedType&`, on which only `const` member functions can be called. -/

/-- A member function that `property_base` calls on the derived class: not declared,
declared `const`, or declared without `const`. -/
inductive MemberFunction
  | absent
  | const_qualified
  | not_const
  deriving DecidableEq, Repr

/-- Whether the member can be called on a `const` object. -/
def MemberFunction.callable_on_const : MemberFunction → Bool
  | .const_qualified => true
  | _ => false

/-- Whether the member can be called on a non-const object. -/
def MemberFunction.callable_on_mutable : MemberFunction → Bool
  | .absent => false
  | _ => true

/-- The six class templates derived from `property_base`: the read-write, get-only and
set-only `property`, and the read-write, get-only and set-only `auto_property`. -/
inductive DerivedClass
  | property
  | property_get_only
  | property_set_only
  | auto_property
  | auto_property_get_only
  | auto_property_set_only
  deriving DecidableEq, Repr

/-- Member `get` of each derived class: `ReturnType get() const` where declared. -/
def DerivedClass.get_member : DerivedClass → MemberFunction
  | .property => .const_qualified
  | .property_get_only => .const_qualified
  | .property_set_only => .absent
  | .auto_property => .const_qualified
  | .auto_property_get_only => .const_qualified
  | .auto_property_set_only => .absent

/-- Member `set` of each derived class: `void set(U&& value) const` in `property`,
`void set(U&& value)` in `auto_property`. -/
def DerivedClass.set_member : DerivedClass → MemberFunction
  | .property => .const_qualified
  | .property_get_only => .absent
  | .property_set_only => .const_qualified
  | .auto_property => .not_const
  | .auto_property_get_only => .absent
  | .auto_property_set_only => .not_const

/-- Whether the body of a member operator of `property_base` compiles for a derived
class with the given `get` and `set` members.  The reading operators call
`derived().get()` (directly or through `derived()()`); `.assign` is the overload
`operator=(U&&) const`, which calls `derived().set(...)`; the mutating operators are
`const&` members that call `derived()()` and then `operator=(...)`, which on a `const`
object is the `const` overload. -/
def detail.property_base.body_well_formed (get set : MemberFunction) : MemberOp → Bool
  | .call => get.callable_on_const
  | .conversion => get.callable_on_const
  | .arrow => get.callable_on_const
  | .star => get.callable_on_const
  | .subscript => get.callable_on_const
  | .unary _ => get.callable_on_const
  | .assign => set.callable_on_const
  | .post_inc => get.callable_on_const && set.callable_on_const
  | .post_dec => get.callable_on_const && set.callable_on_const
  | .pre_inc => get.callable_on_const && set.callable_on_const
  | .pre_dec => get.callable_on_const && set.callable_on_const
  | .compound _ => get.callable_on_const && set.callable_on_const

/-- Whether the body of the non-const overload `operator=(U&&)` compiles: it calls
`derived().set(...)` on a non-const object. -/
def detail.property_base.mutable_assign_well_formed (set : MemberFunction) : Bool :=
  set.callable_on_mutable

/-- Expression on the wrapped value that the `requires` clause of a member operator
tests, if any. -/
def MemberOp.tested_expression : MemberOp → Option ValueExpr
  | .star => some .star
  | .subscript => some .subscript
  | .post_inc => some .plus_one
  | .post_dec => some .minus_one
  | .pre_inc => some .plus_one
  | .pre_dec => some .minus_one
  | .unary u => some (.unary u)
  | .compound c => some (.binary c.constrained)
  | _ => none

/-! ## Base classes of the self-storage accessors -/

/-- Type `const T&` for a base-class argument, `void` standing in when `T` is `void`
(for which no such type, and no such class, exists). -/
def const_lvalue_reference (T : CppType) : CppType :=
  (const_lvalue_reference_to T).getD .void

/-- The three `auto_property` class templates: `auto_property<EntityType>`,
`auto_property<EntityType, get_only>`, `auto_property<EntityType, set_only>`. -/
inductive SelfStorage
  | read_write
  | get_only
  | set_only
  deriving DecidableEq, Repr

/-- Second template argument each `auto_property` class passes to `property_base`:
`const std::remove_cvref_t<EntityType>&` in all three. -/
def SelfStorage.base_ReturnType (EntityType : CppType) : SelfStorage → CppType
  | .read_write => const_lvalue_reference (std.remove_cvref_t EntityType)
  | .get_only => const_lvalue_reference (std.remove_cvref_t EntityType)
  | .set_only => const_lvalue_reference (std.remove_cvref_t EntityType)

/-- Third template argument each `auto_property` class passes to `property_base`:
`std::remove_cvref_t<EntityType>` in all three. -/
def SelfStorage.base_ArgumentType (EntityType : CppType) : SelfStorage → CppType
  | .read_write => std.remove_cvref_t EntityType
  | .get_only => std.remove_cvref_t EntityType
  | .set_only => std.remove_cvref_t EntityType

/-- The derived class of each kind of self-storage accessor. -/
def SelfStorage.derived : SelfStorage → DerivedClass
  | .read_write => .auto_property
  | .get_only => .auto_property_get_only
  | .set_only => .auto_property_set_only

/-- The derived class of each kind of `property`. -/
def Variant.derived : Variant → DerivedClass
  | .read_write => .property
  | .get_only => .property_get_only
  | .set_only => .property_set_only

/-! ## Copying a self-storage accessor -/

section self_storage_copy

variable {ε α κ : Type}

/-- Form of the initialisation of a new object `y` from an existing object `x`:
direct-initialisation `T y(x);` / `T(x)`, or copy-initialisation `T y = x;`. -/
inductive Initialization
  | direct
  | copy
  deriving DecidableEq, Repr

/-- Constructors of `auto_property<EntityType>` that accept one lvalue of the same class:
the copy constructor `auto_property(const auto_property&) = default;`, which is defined
as deleted because `property_base` deletes its own copy constructor, and the template
`explicit auto_property(V&& init)`. -/
inductive CopyCandidate
  | deleted_copy_constructor
  | forwarding_constructor
  deriving DecidableEq, Repr

/-- Overload resolution for the initialisation of an `auto_property<EntityType>` from an
lvalue of the same class.  A deleted function takes part in overload resolution.  The
template is `explicit`, so copy-initialisation does not consider it.  In
direct-initialisation from a non-const lvalue the template, with `V = auto_property&`,
binds a less qualified reference than `const auto_property&` and is the better match;
from a const lvalue both bind `const auto_property&` and the non-template copy
constructor is preferred. -/
def auto_property.copy_candidate (form : Initialization) (source_is_const : Bool) :
    CopyCandidate :=
  match form, source_is_const with
  | .direct, false => .forwarding_constructor
  | .direct, true => .deleted_copy_constructor
  | .copy, _ => .deleted_copy_constructor

/-- Initialisation of an `auto_property<EntityType>` at address `self` from an lvalue
`right` of the same class, as in `auto y = auto_property<double>(x);`.  `none` when the
program is ill-formed: the selected constructor is the deleted copy constructor, or the
member initialiser of the template does not compile.  The template's initialiser
`entity_(std::forward<V>(init))` converts `right` through `operator ReturnType()`; a
reference member of type `T&` cannot bind to the `const T&` the conversion returns. -/
def auto_property.copy_construct (form : Initialization) (source_is_const : Bool)
    (self : Loc) (right : auto_property) (w : World α κ) :
    Option (auto_property × World α κ) :=
  match auto_property.copy_candidate form source_is_const with
  | .deleted_copy_constructor => none
  | .forwarding_constructor =>
    match detail.property_base.operator_ReturnType
        (right.get : Eff Unit α κ (Res α)) w with
    | (.error _, _) => none
    | (.ok init, w1) =>
      if std.is_lvalue_reference_v right.EntityType
          && !is_const_lvalue_reference_v right.EntityType then none
      else auto_property.construct right.EntityType self init w1

/-- Member `auto_property& operator=(const auto_property& right)`:
`entity_ = right.entity_; return *this;`. -/
def auto_property.copy_assign (a right : auto_property) : Eff ε α κ auto_property :=
  fun w => (.ok a, w.store a.entity_ (w.mem right.entity_))

end self_storage_copy

/-! ## Recording the invocations of the user-supplied callables -/

/-- An invocation of a user-supplied callable: the function getter or the function
setter that was given the number `id`. -/
inductive Event
  | getter (id : Nat)
  | setter (id : Nat)
  deriving DecidableEq, Repr

section recording

variable {ε α κ ρ : Type}

/-- A computation that appends exactly `evs` to the log kept in the environment each time
it runs, whether it returns or fails; `log` reads the log out of the environment. -/
def Eff.records (log : κ → List Event) (evs : List Event) (e : Eff ε α κ ρ) : Prop :=
  ∀ w, log (e w).2.env = log w.env ++ evs

/-- A getter argument whose callable logs `getter id` once per invocation, as in
`[&] { calls.push_back(id); return num; }`.  A `get_auto` is not a callable. -/
def GetterArg.instrumented (log : κ → List Event) (id : Nat) : GetterArg ε α κ → Prop
  | .fn g => Eff.records log [.getter id] g.call
  | .auto _ => True

/-- A setter argument whose callable logs `setter id` once per invocation.  A `set_auto`
is not a callable. -/
def SetterArg.instrumented (log : κ → List Event) (id : Nat) : SetterArg ε α κ → Prop
  | .fn s => ∀ v, Eff.records log [.setter id] (s.call v)
  | .auto _ => True

/-- What one invocation of the getter strategy logs: one event for a callable, nothing
for a `get_auto`. -/
def GetterArg.invocation (id : Nat) : GetterArg ε α κ → List Event
  | .fn _ => [.getter id]
  | .auto _ => []

/-- What one invocation of the setter strategy logs: one event for a callable, nothing
for a `set_auto`. -/
def SetterArg.invocation (id : Nat) : SetterArg ε α κ → List Event
  | .fn _ => [.setter id]
  | .auto _ => []

end recording

namespace sample

/-- Getter `[&]() -> const double& { calls.push_back(getter id); return num; }` on the
cell `num`, with the log `calls` as the whole environment. -/
def logging_getter (id : Nat) (num : Loc) : Getter Unit Int (List Event) :=
  { return_type := test.const_double_ref
    call := fun w => (.ok (.lvalue num), { w with env := w.env ++ [.getter id] }) }

/-- Setter `[&](double value) { calls.push_back(setter id); num = value; }`. -/
def logging_setter (id : Nat) (num : Loc) : Setter Unit Int (List Event) :=
  { argument_type := test.double
    call := fun value w =>
      (.ok (), { w.store num value with env := w.env ++ [.setter id] }) }

/-- Accessor `property<const double&>` number `id` over the cell `num`, built from the
two logging callables. -/
def logging (id : Nat) (num : Loc) : Option (property Unit Int (List Event)) :=
  property.construct_same test.const_double_ref (.fn (logging_getter id num))
    (.fn (logging_setter id num))

end sample

/-! ## Built-in operators on `double` -/

/-- Validity of the expressions a `requires` clause tests when the wrapped value is a
`const double&` and the right operand, if any, is a `double`: the arithmetic, comparison
and logical operators are built in; `*v`, `v[i]`, `~v`, `%`, `<<`, `>>`, `&`, `^` and
`|` are not defined for floating-point operands. -/
def test.double_expression : ValueExpr → Bool
  | .star => false
  | .subscript => false
  | .plus_one => true
  | .minus_one => true
  | .unary .bit_not => false
  | .unary _ => true
  | .binary .mod => false
  | .binary .shl => false
  | .binary .shr => false
  | .binary .bit_and => false
  | .binary .bit_xor => false
  | .binary .bit_or => false
  | .binary _ => true
  | .logical_and => true
  | .logical_or => true

/-! ## The restricted self-storage accessors -/

/-- Class template `auto_property<EntityType, get_only>`: its only data member is
`EntityType entity_`, the cell the member occupies or, for a reference type, is bound
to. -/
structure auto_property_get_only where
  EntityType : CppType
  entity_ : Loc

/-- Class template `auto_property<EntityType, set_only>`: its only data member is the
reference `EntityType entity_`, given by the cell it is bound to. -/
structure auto_property_set_only where
  EntityType : CppType
  entity_ : Loc

section restricted_self_storage

variable {ε α κ : Type}

/-- Constructors `explicit auto_property(V&& init)` and
`auto_property(get_auto<void>, V&& init)` of `auto_property<EntityType, get_only>` for an
object placed at address `self`: `entity_(std::forward<V>(init))`, under the class
constraint `!std::is_rvalue_reference_v<EntityType>` and the constructor's `requires`
clause. -/
def auto_property_get_only.construct (EntityType : CppType) (self : Loc) (init : Res α)
    (w : World α κ) : Option (auto_property_get_only × World α κ) :=
  if std.is_rvalue_reference_v EntityType || std.same_as .void EntityType then none
  else if !auto_property.forward_requires EntityType init.is_rvalue then none
  else if std.is_reference_v EntityType then
    match init with
    | .lvalue l => some (⟨EntityType, l⟩, w)
    | .prvalue _ => none
  else some (⟨EntityType, self⟩, w.store self (init.load w))

/-- Member `auto_property<EntityType, get_only>::get`: `return entity_;`. -/
def auto_property_get_only.get (a : auto_property_get_only) : Eff ε α κ (Res α) :=
  fun w => (.ok (.lvalue a.entity_), w)

/-- Constructors `explicit auto_property(V& init)` and
`auto_property(set_auto<void>, V& init)` of `auto_property<EntityType, set_only>`:
`entity_(init)`.  The class requires `std::is_lvalue_reference_v<EntityType>`, and the
parameter `V&` accepts an lvalue only; the reference member is bound to its cell and
nothing is stored. -/
def auto_property_set_only.construct (EntityType : CppType) (init : Res α) :
    Option auto_property_set_only :=
  if std.is_lvalue_reference_v EntityType then
    match init with
    | .lvalue l => some ⟨EntityType, l⟩
    | .prvalue _ => none
  else none

/-- Member `auto_property<EntityType, set_only>::set`:
`entity_ = std::forward<U>(value);`. -/
def auto_property_set_only.set (a : auto_property_set_only) (value : Res α) :
    Act ε α κ := fun w =>
  (.ok (), w.store a.entity_ (value.load w))

/-- The `requires` clause of `auto_property<EntityType, set_only>::operator=(U&& value)`
for a value of the entity's base type: `e = std::forward<U>(v)` with `EntityType& e`
needs a referred-to type that is not `const`. -/
def auto_property_set_only.assign_requires (a : auto_property_set_only) : Bool :=
  !std.is_const_v (std.remove_reference_t a.EntityType)

/-- Member `auto_property<EntityType, set_only>::operator=(U&& value)`:
`return Base::operator=(std::forward<U>(value));`. -/
def auto_property_set_only.operator_assign (a : auto_property_set_only)
    (value : Res α) : Eff ε α κ (Res α) :=
  detail.property_base.operator_assign a.set value

end restricted_self_storage

/-! ## An accessor on an `unsigned char` -/

namespace sample

/-- Base type identifier used for `unsigned char`. -/
def unsigned_char_id : Nat := 2

/-- Type `unsigned char`. -/
def unsigned_char : CppType := .obj unsigned_char_id false .none

/-- Type `const unsigned char&`. -/
def const_unsigned_char_ref : CppType := .obj unsigned_char_id true .lvalue

/-- Integral promotion of an `unsigned char` (eight bits) to `int`. -/
def promote (x : Fin 256) : Int := x.val

/-- Conversion of an `int` to `unsigned char`: the value modulo 256. -/
def to_unsigned_char (v : Int) : Fin 256 := Fin.ofNat (v % 256).toNat

/-- Expression `v + 1` for an `unsigned char` `v`: the operand is promoted, the result is
an `int`. -/
def plus_one (x : Fin 256) : Int := promote x + 1

/-- Expression `v - 1` for an `unsigned char` `v`, an `int`. -/
def minus_one (x : Fin 256) : Int := promote x - 1

/-- Expression `v op k` for an `unsigned char` `v` and an `int` `k`, an `int`. -/
def promoted_arithmetic (o : BinOp) (x : Fin 256) (k : Int) : Int :=
  test.arithmetic o (promote x) k

/-- Accessor `property<const unsigned char&>{get_auto{num}, set_auto{num}}` on the cell
`num`. -/
def byte (num : Loc) : Option (property Unit (Fin 256) Unit) :=
  property.construct_same const_unsigned_char_ref (.auto ⟨unsigned_char, some num⟩)
    (.auto ⟨unsigned_char, some num⟩)

end sample

/-! ## Accessor objects with their mutable members in the program state -/

/-- The data members of an accessor object that are declared `mutable`, which a `const`
member function is allowed to assign: `auto_getter_` and `auto_setter_` (a get-only
accessor has the first only, a set-only accessor the second only).  The members
`getter_` and `setter_` are `const` and keep the value the constructor gave them. -/
structure MutableMembers where
  auto_getter_ : get_auto
  auto_setter_ : set_auto

/-- Which of the four strategy slots of an accessor object hold a strategy: a non-empty
`std::function`, a non-null `entity_`. -/
structure Slots where
  getter_ : Bool
  auto_getter_ : Bool
  setter_ : Bool
  auto_setter_ : Bool
  deriving DecidableEq, Repr

section members_in_state

variable {ε α κ σ ρ : Type}

/-- A computation that leaves unchanged what `obs` reads out of the environment. -/
def Eff.preserves (obs : κ → σ) (e : Eff ε α κ ρ) : Prop :=
  ∀ w, obs (e w).2.env = obs w.env

/-- A getter argument whose callable leaves unchanged what `obs` reads out of the
environment, as every callable does for the private members of an accessor. -/
def GetterArg.preserves (obs : κ → σ) : GetterArg ε α κ → Prop
  | .fn g => Eff.preserves obs g.call
  | .auto _ => True

/-- A setter argument whose callable leaves unchanged what `obs` reads out of the
environment. -/
def SetterArg.preserves (obs : κ → σ) : SetterArg ε α κ → Prop
  | .fn s => ∀ v, Eff.preserves obs (s.call v)
  | .auto _ => True

/-- The mutable members of a read-write accessor as its constructor leaves them. -/
def property.mutable_members (p : property ε α κ) : MutableMembers :=
  ⟨p.auto_getter_, p.auto_setter_⟩

/-- The mutable members of a get-only accessor as its constructor leaves them (there is
no `auto_setter_`: the second component is a null `set_auto`). -/
def property_get_only.mutable_members (p : property_get_only ε α κ) : MutableMembers :=
  ⟨p.auto_getter_, ⟨std.remove_cvref_t p.ReturnType, none⟩⟩

/-- The mutable members of a set-only accessor as its constructor leaves them (there is
no `auto_getter_`: the first component is a null `get_auto`). -/
def property_set_only.mutable_members (p : property_set_only ε α κ) : MutableMembers :=
  ⟨⟨std.remove_cvref_t p.ArgumentType, none⟩, p.auto_setter_⟩

/-- The populated slots of a read-write accessor object whose mutable members are `m`. -/
def property.populated (p : property ε α κ) (m : MutableMembers) : Slots :=
  ⟨p.getter_.isSome, m.auto_getter_.entity_.isSome, p.setter_.isSome,
    m.auto_setter_.entity_.isSome⟩

/-- The populated slots of a get-only accessor object whose mutable members are `m`. -/
def property_get_only.populated (p : property_get_only ε α κ) (m : MutableMembers) :
    Slots :=
  ⟨p.getter_.isSome, m.auto_getter_.entity_.isSome, false, false⟩

/-- The populated slots of a set-only accessor object whose mutable members are `m`. -/
def property_set_only.populated (p : property_set_only ε α κ) (m : MutableMembers) :
    Slots :=
  ⟨false, false, p.setter_.isSome, m.auto_setter_.entity_.isSome⟩

/-- Member `property<ReturnType, ArgumentType>::get` of an object whose mutable members
are part of the program state, where `members` reads them out of the environment: the
`const` member `getter_` is taken from the object, `auto_getter_` from the state. -/
def property.get_in (members : κ → MutableMembers) (p : property ε α κ) :
    Eff ε α κ (Res α) := fun w =>
  if is_const_lvalue_reference_v p.ReturnType then
    match p.getter_ with
    | some getter => getter w
    | none => (members w.env).auto_getter_.get w
  else
    std.function_call p.getter_ w

/-- Member `property<ReturnType, ArgumentType>::set` of an object whose mutable members
are part of the program state. -/
def property.set_in (members : κ → MutableMembers) (p : property ε α κ)
    (value : Res α) : Act ε α κ := fun w =>
  match p.setter_ with
  | some setter => setter (value.load w) w
  | none => (members w.env).auto_setter_.set value w

/-- Member `property<ReturnType, get_only>::get` of an object whose mutable member is
part of the program state. -/
def property_get_only.get_in (members : κ → MutableMembers)
    (p : property_get_only ε α κ) : Eff ε α κ (Res α) := fun w =>
  if is_const_lvalue_reference_v p.ReturnType then
    match p.getter_ with
    | some getter => getter w
    | none => (members w.env).auto_getter_.get w
  else
    std.function_call p.getter_ w

/-- Member `property<ArgumentType, set_only>::set` of an object whose mutable member is
part of the program state. -/
def property_set_only.set_in (members : κ → MutableMembers)
    (p : property_set_only ε α κ) (value : Res α) : Act ε α κ := fun w =>
  match p.setter_ with
  | some setter => setter (value.load w) w
  | none => (members w.env).auto_setter_.set value w

/-- Members `operator=(const property& right) const` and
`operator=(const PropertyType& prop) const` of `property` and of
`property<ArgumentType, set_only>`, `return Base::operator=(prop());`, for an object
whose `set` is `set` (its mutable members being part of the program state). -/
def property.operator_assign_property_in (set : Res α → Act ε α κ)
    (prop : Eff ε α κ (Res α)) : Eff ε α κ (Res α) := fun w =>
  match detail.property_base.operator_call prop w with
  | (.error f, w1) => (.error f, w1)
  | (.ok r, w1) => detail.property_base.operator_assign set r w1

end members_in_state

/-! ## Theorems -/

section lemmas

variable {ε α κ : Type}

theorem World.store_mem_same (w : World α κ) (l : Loc) (v : α) :
    (w.store l v).mem l = v := by
  simp [World.store]

theorem World.store_mem_other (w : World α κ) (l k : Loc) (v : α) (h : k ≠ l) :
    (w.store l v).mem k = w.mem k := by
  simp [World.store, h]

theorem World.store_env (w : World α κ) (l : Loc) (v : α) :
    (w.store l v).env = w.env := rfl

theorem Res.load_prvalue (w : World α κ) (v : α) : (Res.prvalue v).load w = v := rfl

theorem Res.load_lvalue (w : World α κ) (l : Loc) :
    (Res.lvalue l : Res α).load w = w.mem l := rfl

/-- Storing into a cell the value an expression result denotes leaves that result's
value unchanged. -/
theorem Res.load_store_self (w : World α κ) (l : Loc) (value : Res α) :
    value.load (w.store l (value.load w)) = value.load w := by
  cases value with
  | prvalue v => rfl
  | lvalue m =>
    by_cases h : m = l
    · subst h; simp [Res.load, World.store]
    · simp [Res.load, World.store, h]

/-- A read-write accessor built from a plain-storage getter on `l` reads the content of
`l` and changes nothing. -/
theorem property.get_of_plain {ReturnType ArgumentType : CppType}
    {get_f : GetterArg ε α κ} {set_f : SetterArg ε α κ} {p : property ε α κ} {l : Loc}
    (hp : property.construct ReturnType ArgumentType get_f set_f = some p)
    (hg : get_f.plain_on l) (w : World α κ) :
    ∃ r, p.get w = (.ok r, w) ∧ r.load w = w.mem l := by
  cases get_f with
  | fn g =>
    obtain ⟨r, hr, hl⟩ := hg w
    cases set_f <;>
    · simp only [property.construct] at hp
      split at hp
      · cases hp
        by_cases hc : is_const_lvalue_reference_v ReturnType <;>
          by_cases hR : std.is_reference_v ReturnType <;>
          simp [property.get, std.function_call, std.function_of_getter, hr, hc, hR, hl,
            Res.load_prvalue]
      · cases hp
  | auto g =>
    have hg1 : g.entity_ = some l := hg
    cases set_f <;>
    · simp only [property.construct] at hp
      split at hp
      · rename_i hc
        cases hp
        simp only [Bool.and_eq_true] at hc
        simp [property.get, get_auto.get, hg1, hc, Res.load_lvalue]
      · cases hp

/-- A read-write accessor built from a plain-storage setter on `l` stores the value
of its argument into `l` and does nothing else. -/
theorem property.set_of_plain {ReturnType ArgumentType : CppType}
    {get_f : GetterArg ε α κ} {set_f : SetterArg ε α κ} {p : property ε α κ} {l : Loc}
    (hp : property.construct ReturnType ArgumentType get_f set_f = some p)
    (hs : set_f.plain_on l) (value : Res α) (w : World α κ) :
    p.set value w = (.ok (), w.store l (value.load w)) := by
  cases set_f with
  | fn s =>
    have hs1 : ∀ v w, s.call v w = (.ok (), w.store l v) := hs
    cases get_f <;>
    · simp only [property.construct] at hp
      split at hp
      · cases hp
        simp [property.set, hs1]
      · cases hp
  | auto s =>
    have hs1 : s.entity_ = some l := hs
    cases get_f <;>
    · simp only [property.construct] at hp
      split at hp
      · cases hp
        simp [property.set, set_auto.set, hs1]
      · cases hp

/-- Slots filled by the read-write constructors from a function getter. -/
theorem property.construct_fn_getter {ReturnType ArgumentType : CppType}
    {g : Getter ε α κ} {set_f : SetterArg ε α κ} {p : property ε α κ}
    (hp : property.construct ReturnType ArgumentType (.fn g) set_f = some p) :
    p.getter_ = some (std.function_of_getter ReturnType g) ∧ p.ReturnType = ReturnType := by
  cases set_f <;>
  · simp only [property.construct] at hp
    split at hp
    · cases hp; exact ⟨rfl, rfl⟩
    · cases hp

/-- Slots filled by the read-write constructors from a direct getter. -/
theorem property.construct_auto_getter {ReturnType ArgumentType : CppType}
    {g : get_auto} {set_f : SetterArg ε α κ} {p : property ε α κ}
    (hp : property.construct ReturnType ArgumentType (.auto g) set_f = some p) :
    p.getter_ = none ∧ p.auto_getter_ = g ∧ p.ReturnType = ReturnType ∧
      is_const_lvalue_reference_v ReturnType = true := by
  cases set_f <;>
  · simp only [property.construct] at hp
    split at hp
    · rename_i hc
      cases hp
      simp only [Bool.and_eq_true] at hc
      simp [hc]
    · cases hp

/-- Slots filled by the read-write constructors from a function setter. -/
theorem property.construct_fn_setter {ReturnType ArgumentType : CppType}
    {get_f : GetterArg ε α κ} {s : Setter ε α κ} {p : property ε α κ}
    (hp : property.construct ReturnType ArgumentType get_f (.fn s) = some p) :
    p.setter_ = some s.call := by
  cases get_f <;>
  · simp only [property.construct] at hp
    split at hp
    · cases hp; rfl
    · cases hp

/-- Slots filled by the read-write constructors from a direct setter. -/
theorem property.construct_auto_setter {ReturnType ArgumentType : CppType}
    {get_f : GetterArg ε α κ} {s : set_auto} {p : property ε α κ}
    (hp : property.construct ReturnType ArgumentType get_f (.auto s) = some p) :
    p.setter_ = none ∧ p.auto_setter_ = s := by
  cases get_f <;>
  · simp only [property.construct] at hp
    split at hp
    · cases hp; exact ⟨rfl, rfl⟩
    · cases hp

/-- Slots filled by the get-only constructor from a function getter. -/
theorem property_get_only.get_only_construct_fn_getter {ReturnType : CppType}
    {g : Getter ε α κ} {p : property_get_only ε α κ}
    (hp : property_get_only.construct ReturnType (.fn g) = some p) :
    p.getter_ = some (std.function_of_getter ReturnType g) ∧ p.ReturnType = ReturnType := by
  simp only [property_get_only.construct] at hp
  split at hp
  · cases hp; exact ⟨rfl, rfl⟩
  · cases hp

/-- Slots filled by the get-only constructor from a direct getter. -/
theorem property_get_only.get_only_construct_auto_getter {ReturnType : CppType}
    {g : get_auto} {p : property_get_only ε α κ}
    (hp : property_get_only.construct ReturnType (.auto g) = some p) :
    p.getter_ = none ∧ p.auto_getter_ = g ∧ p.ReturnType = ReturnType ∧
      is_const_lvalue_reference_v ReturnType = true := by
  simp only [property_get_only.construct] at hp
  split at hp
  · rename_i hc
    cases hp
    simp only [Bool.and_eq_true] at hc
    simp [hc]
  · cases hp

/-- Slots filled by the set-only constructor from a function setter. -/
theorem property_set_only.set_only_construct_fn_setter {ArgumentType : CppType}
    {s : Setter ε α κ} {p : property_set_only ε α κ}
    (hp : property_set_only.construct ArgumentType (.fn s) = some p) :
    p.setter_ = some s.call := by
  simp only [property_set_only.construct] at hp
  split at hp
  · cases hp; rfl
  · cases hp

/-- Slots filled by the set-only constructor from a direct setter. -/
theorem property_set_only.set_only_construct_auto_setter {ArgumentType : CppType}
    {s : set_auto} {p : property_set_only ε α κ}
    (hp : property_set_only.construct ArgumentType (.auto s) = some p) :
    p.setter_ = none ∧ p.auto_setter_ = s := by
  simp only [property_set_only.construct] at hp
  split at hp
  · cases hp; exact ⟨rfl, rfl⟩
  · cases hp

/-- A populated function getter decides the read, whatever the return type. -/
theorem property.get_of_getter (p : property ε α κ) (getter : Eff ε α κ (Res α))
    (h : p.getter_ = some getter) (w : World α κ) : p.get w = getter w := by
  by_cases hc : is_const_lvalue_reference_v p.ReturnType <;>
    simp [property.get, std.function_call, h, hc]

/-- A populated function getter decides the read of a get-only accessor. -/
theorem property_get_only.get_only_get_of_getter (p : property_get_only ε α κ)
    (getter : Eff ε α κ (Res α)) (h : p.getter_ = some getter) (w : World α κ) :
    p.get w = getter w := by
  by_cases hc : is_const_lvalue_reference_v p.ReturnType <;>
    simp [property_get_only.get, std.function_call, h, hc]

/-- A self-storage accessor with a value entity type owns the cell at its own address,
initialised with the value of the initialiser. -/
theorem auto_property.construct_value {EntityType : CppType} {self : Loc} {init : Res α}
    {w w1 : World α κ} {a : auto_property}
    (hE : std.is_reference_v EntityType = false)
    (h : auto_property.construct EntityType self init w = some (a, w1)) :
    a.entity_ = self ∧ a.EntityType = EntityType ∧ w1 = w.store self (init.load w) := by
  simp only [auto_property.construct] at h
  split at h
  · cases h
  · split at h
    · cases h
    · split at h
      · rename_i hr
        rw [hE] at hr
        cases hr
      · simp only [Option.some.injEq, Prod.mk.injEq] at h
        obtain ⟨rfl, rfl⟩ := h
        exact ⟨rfl, rfl, rfl⟩

/-- The `std::function` wrapper reaches the state its callable reaches. -/
theorem std.function_of_getter_state (ReturnType : CppType) (g : Getter ε α κ)
    (w : World α κ) : (std.function_of_getter ReturnType g w).2 = (g.call w).2 := by
  simp only [std.function_of_getter]
  rcases g.call w with ⟨_ | r, w1⟩
  · rfl
  · by_cases h : std.is_reference_v ReturnType <;> simp [h]

/-- The base assignment reaches the state the call of `set` reaches. -/
theorem detail.property_base.operator_assign_state (set : Res α → Act ε α κ)
    (value : Res α) (w : World α κ) :
    (detail.property_base.operator_assign set value w).2 = (set value w).2 := by
  simp only [detail.property_base.operator_assign]
  rcases set value w with ⟨_ | _, w1⟩ <;> rfl

/-- One read of a read-write accessor logs one invocation of its getter strategy. -/
theorem property.get_records {ReturnType ArgumentType : CppType}
    {g : GetterArg ε α κ} {s : SetterArg ε α κ} {p : property ε α κ}
    {log : κ → List Event} {i : Nat}
    (hp : property.construct ReturnType ArgumentType g s = some p)
    (hg : g.instrumented log i) : Eff.records log (g.invocation i) p.get := by
  intro w
  cases g with
  | fn f =>
    rw [property.get_of_getter p _ (property.construct_fn_getter hp).1,
      std.function_of_getter_state]
    exact hg w
  | auto d =>
    obtain ⟨h1, _, h3, h4⟩ := property.construct_auto_getter hp
    simp only [property.get, h3, h4, h1, if_true, get_auto.get, GetterArg.invocation,
      List.append_nil]
    split <;> rfl

/-- One write of a read-write accessor logs one invocation of its setter strategy. -/
theorem property.set_records {ReturnType ArgumentType : CppType}
    {g : GetterArg ε α κ} {s : SetterArg ε α κ} {p : property ε α κ}
    {log : κ → List Event} {j : Nat}
    (hp : property.construct ReturnType ArgumentType g s = some p)
    (hs : s.instrumented log j) (value : Res α) :
    Eff.records log (s.invocation j) (p.set value) := by
  intro w
  cases s with
  | fn f =>
    simp only [property.set, property.construct_fn_setter hp]
    exact hs _ w
  | auto d =>
    obtain ⟨h1, _⟩ := property.construct_auto_setter hp
    simp only [property.set, h1, set_auto.set, SetterArg.invocation, List.append_nil]
    split <;> rfl

/-- One read of a get-only accessor logs one invocation of its getter strategy. -/
theorem property_get_only.get_only_get_records {ReturnType : CppType}
    {g : GetterArg ε α κ} {p : property_get_only ε α κ}
    {log : κ → List Event} {i : Nat}
    (hp : property_get_only.construct ReturnType g = some p)
    (hg : g.instrumented log i) : Eff.records log (g.invocation i) p.get := by
  intro w
  cases g with
  | fn f =>
    rw [property_get_only.get_only_get_of_getter p _
      (property_get_only.get_only_construct_fn_getter hp).1, std.function_of_getter_state]
    exact hg w
  | auto d =>
    obtain ⟨h1, _, h3, h4⟩ := property_get_only.get_only_construct_auto_getter hp
    simp only [property_get_only.get, h3, h4, h1, if_true, get_auto.get,
      GetterArg.invocation, List.append_nil]
    split <;> rfl

/-- One write of a set-only accessor logs one invocation of its setter strategy. -/
theorem property_set_only.set_only_set_records {ArgumentType : CppType}
    {s : SetterArg ε α κ} {p : property_set_only ε α κ}
    {log : κ → List Event} {j : Nat}
    (hp : property_set_only.construct ArgumentType s = some p)
    (hs : s.instrumented log j) (value : Res α) :
    Eff.records log (s.invocation j) (p.set value) := by
  intro w
  cases s with
  | fn f =>
    simp only [property_set_only.set, property_set_only.set_only_construct_fn_setter hp]
    exact hs _ w
  | auto d =>
    obtain ⟨h1, _⟩ := property_set_only.set_only_construct_auto_setter hp
    simp only [property_set_only.set, h1, set_auto.set, SetterArg.invocation,
      List.append_nil]
    split <;> rfl

/-- A state reached by one call of `get` followed, when that call returned, by one call
of `set` carries the log of `get` and then, in that case only, the log of `set`. -/
theorem Eff.records_get_then_set {log : κ → List Event} {evg evs : List Event}
    {get : Eff ε α κ (Res α)} {set : Res α → Act ε α κ}
    (hg : Eff.records log evg get) (hs : ∀ v, Eff.records log evs (set v))
    (w w2 : World α κ)
    (h : match get w with
         | (.error _, w1) => w2 = w1
         | (.ok _, w1) => ∃ v, w2 = (set v w1).2) :
    log w2.env = log w.env ++ evg ++
      (match (get w).1 with
       | .ok _ => evs
       | .error _ => []) := by
  have hg1 := hg w
  rcases hgw : get w with ⟨_ | r, w1⟩
  · rw [hgw] at h hg1
    simp only at h
    subst h
    simpa using hg1
  · rw [hgw] at h hg1
    obtain ⟨v, rfl⟩ := h
    rw [hs v w1, hg1]

/-- A self-storage accessor with a value entity type that is not `const` accepts the
assignment of every value. -/
theorem auto_property.assign_requires_value {a : auto_property}
    (hE : std.is_reference_v a.EntityType = false)
    (hC : std.is_const_v a.EntityType = false) (value : Res α) :
    a.assign_requires value = true := by
  obtain ⟨ET, l⟩ := a
  cases ET with
  | void => simp [auto_property.assign_requires, auto_property.forward_requires,
      std.is_const_v, std.remove_reference_t, std.is_reference_v,
      std.is_lvalue_reference_v, std.is_rvalue_reference_v]
  | obj b c k =>
    cases k <;>
      simp_all [auto_property.assign_requires, auto_property.forward_requires,
        std.is_const_v, std.remove_reference_t, std.is_reference_v,
        std.is_lvalue_reference_v, std.is_rvalue_reference_v]

/-- The converting base assignment reaches the state the call of `set` reaches. -/
theorem detail.property_base.operator_assign_converted_state {π : Type}
    (convert : π → α) (set : Res α → Act ε α κ) (value : π) (w : World α κ) :
    (detail.property_base.operator_assign_converted convert set value w).2
      = (set (.prvalue (convert value)) w).2 := by
  simp only [detail.property_base.operator_assign_converted]
  rcases set (.prvalue (convert value)) w with ⟨_ | _, w1⟩ <;> rfl

/-- A computation whose final state is that of `e` when `e` fails, and that of `k r`
run after `e` when `e` returns `r`, preserves what `e` and every `k r` preserve. -/
theorem Eff.preserves_seq {σ ρ ρ1 ρ2 : Type} {obs : κ → σ} {e : Eff ε α κ ρ1}
    {k : ρ1 → Eff ε α κ ρ2} {op : Eff ε α κ ρ}
    (he : Eff.preserves obs e) (hk : ∀ r, Eff.preserves obs (k r))
    (h : ∀ w, (op w).2 = (match e w with
                          | (.error _, w1) => w1
                          | (.ok r, w1) => (k r w1).2)) :
    Eff.preserves obs op := by
  intro w
  rw [h w]
  have h1 := he w
  rcases hew : e w with ⟨_ | r, w1⟩
  · rw [hew] at h1
    exact h1
  · rw [hew] at h1
    exact (hk r w1).trans h1

/-- The base assignment preserves what `set` preserves. -/
theorem detail.property_base.operator_assign_preserves {σ : Type} {obs : κ → σ}
    {set : Res α → Act ε α κ} (hs : ∀ v, Eff.preserves obs (set v)) (value : Res α) :
    Eff.preserves obs (detail.property_base.operator_assign set value) := by
  intro w
  rw [detail.property_base.operator_assign_state]
  exact hs value w

/-- The converting base assignment preserves what `set` preserves. -/
theorem detail.property_base.operator_assign_converted_preserves {σ π : Type}
    {obs : κ → σ} {set : Res α → Act ε α κ} (hs : ∀ v, Eff.preserves obs (set v))
    (convert : π → α) (value : π) :
    Eff.preserves obs (detail.property_base.operator_assign_converted convert set value) := by
  intro w
  rw [detail.property_base.operator_assign_converted_state]
  exact hs _ w

/-- The global operator applied to a call result and an accessor preserves what the
accessor's read preserves. -/
theorem detail.operator_binary_rp_preserves {σ γ : Type} {obs : κ → σ}
    {t2 : Eff ε α κ (Res α)} (h2 : Eff.preserves obs t2) (plain : BinOp → α → α → γ)
    (o : BinOp) (t1_first : Bool) (t1 : Res α) :
    Eff.preserves obs (detail.operator_binary_rp plain o t1_first t1 t2) := by
  intro w
  have h := h2 w
  simp only [detail.operator_binary_rp, detail.property_base.operator_call]
  by_cases hb : detail.evaluates_left_first o t1_first = true <;>
    · simp only [hb, if_true, Bool.false_eq_true, if_false]
      rcases ht : t2 w with ⟨_ | r, w1⟩ <;>
        · rw [ht] at h
          exact h

/-- A read of a read-write accessor object preserves what its getter callable
preserves: the library itself writes nothing to the environment. -/
theorem property.get_in_preserves {ReturnType ArgumentType : CppType}
    {g : GetterArg ε α κ} {s : SetterArg ε α κ} {p : property ε α κ} {σ : Type}
    {obs : κ → σ} (members : κ → MutableMembers)
    (hp : property.construct ReturnType ArgumentType g s = some p)
    (hg : g.preserves obs) : Eff.preserves obs (p.get_in members) := by
  intro w
  cases g with
  | fn f =>
    have h1 := (property.construct_fn_getter hp).1
    have : p.get_in members w = std.function_of_getter ReturnType f w := by
      by_cases hc : is_const_lvalue_reference_v p.ReturnType <;>
        simp [property.get_in, std.function_call, h1, hc]
    rw [this, std.function_of_getter_state]
    exact hg w
  | auto d =>
    obtain ⟨h1, _, h3, h4⟩ := property.construct_auto_getter hp
    simp only [property.get_in, h3, h4, h1, if_true, get_auto.get]
    split <;> rfl

/-- A write of a read-write accessor object preserves what its setter callable
preserves. -/
theorem property.set_in_preserves {ReturnType ArgumentType : CppType}
    {g : GetterArg ε α κ} {s : SetterArg ε α κ} {p : property ε α κ} {σ : Type}
    {obs : κ → σ} (members : κ → MutableMembers)
    (hp : property.construct ReturnType ArgumentType g s = some p)
    (hs : s.preserves obs) (value : Res α) :
    Eff.preserves obs (p.set_in members value) := by
  intro w
  cases s with
  | fn f =>
    simp only [property.set_in, property.construct_fn_setter hp]
    exact hs _ w
  | auto d =>
    obtain ⟨h1, _⟩ := property.construct_auto_setter hp
    simp only [property.set_in, h1, set_auto.set]
    split <;> rfl

/-- A read of a get-only accessor object preserves what its getter callable preserves. -/
theorem property_get_only.get_only_get_in_preserves {ReturnType : CppType}
    {g : GetterArg ε α κ} {p : property_get_only ε α κ} {σ : Type}
    {obs : κ → σ} (members : κ → MutableMembers)
    (hp : property_get_only.construct ReturnType g = some p)
    (hg : g.preserves obs) : Eff.preserves obs (p.get_in members) := by
  intro w
  cases g with
  | fn f =>
    have h1 := (property_get_only.get_only_construct_fn_getter hp).1
    have : p.get_in members w = std.function_of_getter ReturnType f w := by
      by_cases hc : is_const_lvalue_reference_v p.ReturnType <;>
        simp [property_get_only.get_in, std.function_call, h1, hc]
    rw [this, std.function_of_getter_state]
    exact hg w
  | auto d =>
    obtain ⟨h1, _, h3, h4⟩ := property_get_only.get_only_construct_auto_getter hp
    simp only [property_get_only.get_in, h3, h4, h1, if_true, get_auto.get]
    split <;> rfl

/-- A write of a set-only accessor object preserves what its setter callable
preserves. -/
theorem property_set_only.set_only_set_in_preserves {ArgumentType : CppType}
    {s : SetterArg ε α κ} {p : property_set_only ε α κ} {σ : Type}
    {obs : κ → σ} (members : κ → MutableMembers)
    (hp : property_set_only.construct ArgumentType s = some p)
    (hs : s.preserves obs) (value : Res α) :
    Eff.preserves obs (p.set_in members value) := by
  intro w
  cases s with
  | fn f =>
    simp only [property_set_only.set_in,
      property_set_only.set_only_construct_fn_setter hp]
    exact hs _ w
  | auto d =>
    obtain ⟨h1, _⟩ := property_set_only.set_only_construct_auto_setter hp
    simp only [property_set_only.set_in, h1, set_auto.set]
    split <;> rfl

/-- The assignment from an accessor preserves what `set` and the read of the right-hand
accessor preserve. -/
theorem property.operator_assign_property_in_preserves {σ : Type} {obs : κ → σ}
    {set : Res α → Act ε α κ} (hs : ∀ v, Eff.preserves obs (set v))
    (right : Eff ε α κ (Res α)) (hr : Eff.preserves obs right) :
    Eff.preserves obs (property.operator_assign_property_in set right) := by
  refine Eff.preserves_seq (e := right)
    (k := fun r => detail.property_base.operator_assign set r) hr
    (fun r => detail.property_base.operator_assign_preserves hs r) ?_
  intro w
  simp only [property.operator_assign_property_in, detail.property_base.operator_call]
  rcases right w with ⟨_ | r, w1⟩ <;> rfl

/-- Every mutating operator of `property_base`, and the assignment from an accessor,
preserves what `get`, `set` and the read of the right-hand accessor preserve. -/
theorem detail.property_base.mutating_operators_preserve {σ : Type} {obs : κ → σ}
    {get : Eff ε α κ (Res α)} {set : Res α → Act ε α κ}
    (hg : Eff.preserves obs get) (hs : ∀ v, Eff.preserves obs (set v)) :
    (∀ right : Eff ε α κ (Res α), Eff.preserves obs right →
        Eff.preserves obs (property.operator_assign_property_in set right))
    ∧ (∀ (π : Type) (step : α → π) (convert : π → α),
        Eff.preserves obs (detail.property_base.operator_post_inc step convert get set)
        ∧ Eff.preserves obs (detail.property_base.operator_post_dec step convert get set)
        ∧ Eff.preserves obs (detail.property_base.operator_pre_inc step convert get set)
        ∧ Eff.preserves obs (detail.property_base.operator_pre_dec step convert get set))
    ∧ (∀ (β π : Type) (plain : BinOp → α → β → π) (convert : π → α) (c : CompoundOp)
          (k : β),
        Eff.preserves obs
          (detail.property_base.operator_compound plain convert c get set k))
    ∧ (∀ (π : Type) (plain : BinOp → α → α → π) (convert : π → α) (c : CompoundOp)
          (t1_first : Bool) (right : Eff ε α κ (Res α)), Eff.preserves obs right →
        Eff.preserves obs
          (detail.property_base.operator_compound_property plain convert c t1_first
            get set right)) := by
  have hac : ∀ (π : Type) (convert : π → α) (v : π), Eff.preserves obs
      (detail.property_base.operator_assign_converted convert set v) :=
    fun π convert v => detail.property_base.operator_assign_converted_preserves hs convert v
  refine ⟨fun right hr => property.operator_assign_property_in_preserves hs right hr,
    ?_, ?_, ?_⟩
  · intro π step convert
    refine ⟨?_, ?_, ?_, ?_⟩
    · refine Eff.preserves_seq (e := get)
        (k := fun r w1 =>
          detail.property_base.operator_assign_converted convert set
            (step (r.load w1)) w1) hg (fun r w1 => hac π convert _ w1) ?_
      intro w
      simp only [detail.property_base.operator_post_inc,
        detail.property_base.operator_call]
      rcases get w with ⟨_ | r, w1⟩
      · rfl
      · simp only
        rcases detail.property_base.operator_assign_converted convert set
          (step (r.load w1)) w1 with ⟨_ | _, w2⟩ <;> rfl
    · refine Eff.preserves_seq (e := get)
        (k := fun r w1 =>
          detail.property_base.operator_assign_converted convert set
            (step (r.load w1)) w1) hg (fun r w1 => hac π convert _ w1) ?_
      intro w
      simp only [detail.property_base.operator_post_dec,
        detail.property_base.operator_call]
      rcases get w with ⟨_ | r, w1⟩
      · rfl
      · simp only
        rcases detail.property_base.operator_assign_converted convert set
          (step (r.load w1)) w1 with ⟨_ | _, w2⟩ <;> rfl
    · refine Eff.preserves_seq (e := get)
        (k := fun r w1 =>
          detail.property_base.operator_assign_converted convert set
            (step (r.load w1)) w1) hg (fun r w1 => hac π convert _ w1) ?_
      intro w
      simp only [detail.property_base.operator_pre_inc,
        detail.property_base.operator_call]
      rcases get w with ⟨_ | r, w1⟩ <;> rfl
    · refine Eff.preserves_seq (e := get)
        (k := fun r w1 =>
          detail.property_base.operator_assign_converted convert set
            (step (r.load w1)) w1) hg (fun r w1 => hac π convert _ w1) ?_
      intro w
      simp only [detail.property_base.operator_pre_dec,
        detail.property_base.operator_call]
      rcases get w with ⟨_ | r, w1⟩ <;> rfl
  · intro β π plain convert c k
    refine Eff.preserves_seq (e := get)
      (k := fun r w1 =>
        detail.property_base.operator_assign_converted convert set
          (plain c.applied (r.load w1) k) w1) hg (fun r w1 => hac π convert _ w1) ?_
    intro w
    simp only [detail.property_base.operator_compound,
      detail.property_base.operator_call]
    rcases get w with ⟨_ | r, w1⟩ <;> rfl
  · intro π plain convert c t1_first right hr
    have hk : ∀ r : Res α, Eff.preserves obs (fun w1 =>
        match detail.operator_binary_rp plain c.applied t1_first r right w1 with
        | (.error f, w2) => ((.error f : Except (Fault ε) π), w2)
        | (.ok v, w2) => detail.property_base.operator_assign_converted convert set v w2) := by
      intro r
      refine Eff.preserves_seq
        (e := detail.operator_binary_rp plain c.applied t1_first r right)
        (k := fun v => detail.property_base.operator_assign_converted convert set v)
        (detail.operator_binary_rp_preserves hr plain c.applied t1_first r)
        (fun v => hac π convert v) ?_
      intro w1
      simp only
      rcases detail.operator_binary_rp plain c.applied t1_first r right w1
        with ⟨_ | v, w2⟩ <;> rfl
    refine Eff.preserves_seq (e := get) (k := _) hg hk ?_
    intro w
    simp only [detail.property_base.operator_compound_property,
      detail.property_base.operator_call]
    rcases get w with ⟨_ | r, w1⟩ <;> rfl

end lemmas

section claims

variable {ε α κ : Type}

/-- C1. Round trip: for a read-write accessor built by any of the four constructors from
a getter and a setter that both perform plain storage on the same cell `l`, writing a
value succeeds, and the read that follows returns that value and leaves the state as the
write left it. -/
theorem round_trip_write_read (ReturnType ArgumentType : CppType)
    (get_f : GetterArg ε α κ) (set_f : SetterArg ε α κ) (p : property ε α κ) (l : Loc)
    (hp : property.construct ReturnType ArgumentType get_f set_f = some p)
    (hg : get_f.plain_on l) (hs : set_f.plain_on l) (value : Res α) (w : World α κ) :
    ∃ w1, p.set value w = (.ok (), w1) ∧
      ∃ r, p.get w1 = (.ok r, w1) ∧ r.load w1 = value.load w := by
  refine ⟨w.store l (value.load w), property.set_of_plain hp hs value w, ?_⟩
  obtain ⟨r, hr, hl⟩ := property.get_of_plain hp hg (w.store l (value.load w))
  exact ⟨r, hr, by rw [hl, World.store_mem_same]⟩

theorem round_trip_write_read_witness :
    ∃ p : property Unit Int Unit,
      (bench.A.p_fn_auto ⟨3⟩ = some p) ∧
      ∃ w1, p.set (.prvalue 7) ⟨fun _ => 0, ()⟩ = (.ok (), w1) ∧
        ∃ r, p.get w1 = (.ok r, w1) ∧ r.load w1 = 7 :=
  ⟨_, rfl, round_trip_write_read test.const_double_ref (std.remove_cvref_t test.const_double_ref)
    (.fn (bench.A.get_cref ⟨3⟩)) (.auto (bench.A.set_auto_num ⟨3⟩)) _ 3 rfl
    (fun _ => ⟨.lvalue 3, rfl, rfl⟩) rfl (.prvalue 7) ⟨fun _ => 0, ()⟩⟩

/-- C2. Assignment semantics: for a read-write accessor built from a getter and a setter
that perform plain storage on `l` (function-backed or direct-backed), `a = value`
succeeds, its result is the right-hand operand and still denotes the value assigned, and
the read that follows returns that value. -/
theorem assignment_returns_and_stores (ReturnType ArgumentType : CppType)
    (get_f : GetterArg ε α κ) (set_f : SetterArg ε α κ) (p : property ε α κ) (l : Loc)
    (hp : property.construct ReturnType ArgumentType get_f set_f = some p)
    (hg : get_f.plain_on l) (hs : set_f.plain_on l) (value : Res α) (w : World α κ) :
    ∃ w1, p.operator_assign value w = (.ok value, w1) ∧
      value.load w1 = value.load w ∧
      ∃ r, p.get w1 = (.ok r, w1) ∧ r.load w1 = value.load w := by
  refine ⟨w.store l (value.load w), ?_, Res.load_store_self w l value, ?_⟩
  · simp [property.operator_assign, detail.property_base.operator_assign,
      property.set_of_plain hp hs value w]
  · obtain ⟨r, hr, hl⟩ := property.get_of_plain hp hg (w.store l (value.load w))
    exact ⟨r, hr, by rw [hl, World.store_mem_same]⟩

theorem assignment_returns_and_stores_witness :
    ∃ p : property Unit Int Unit,
      (bench.A.p_auto_fn ⟨3⟩ = some p) ∧
      ∃ w1, p.operator_assign (.lvalue 5) ⟨fun k => if k = 5 then 7 else 0, ()⟩
          = (.ok (.lvalue 5), w1) ∧
        (Res.lvalue 5 : Res Int).load w1 = 7 ∧
        ∃ r, p.get w1 = (.ok r, w1) ∧ r.load w1 = 7 :=
  ⟨_, rfl, assignment_returns_and_stores test.const_double_ref
    (std.remove_cvref_t test.const_double_ref)
    (.auto (bench.A.get_auto_num ⟨3⟩)) (.fn (bench.A.set_val ⟨3⟩)) _ 3 rfl
    rfl (fun _ _ => rfl) (.lvalue 5) ⟨fun k => if k = 5 then 7 else 0, ()⟩⟩

/-- C3. Capability matrix: for left and right operands drawn from the read-write,
get-only and set-only specialisations over compatible entity types, the
accessor-to-accessor assignment `left = right` is well-formed exactly when the right
side has a getter and the left side has a setter, both when the right operand is of
another accessor class and when it is of the left operand's own class. -/
theorem capability_matrix (lhs rhs : Variant)
    (ReturnType ArgumentType RightReturnType : CppType)
    (hR : ReturnType ≠ .void) (hA : ArgumentType ≠ .void) (hRR : RightReturnType ≠ .void) :
    is_assignable lhs ReturnType true (.accessor (rhs.base_ReturnType RightReturnType))
        = (detail.property_base.has_getter (rhs.base_ReturnType RightReturnType)
            && detail.property_base.has_setter (lhs.base_ArgumentType ArgumentType))
      ∧ is_assignable lhs ReturnType true .same_class
        = (detail.property_base.has_getter (lhs.base_ReturnType ReturnType)
            && detail.property_base.has_setter (lhs.base_ArgumentType ArgumentType)) := by
  cases ReturnType with
  | void => exact absurd rfl hR
  | obj b c r =>
    cases ArgumentType with
    | void => exact absurd rfl hA
    | obj b2 c2 r2 =>
      cases RightReturnType with
      | void => exact absurd rfl hRR
      | obj b3 c3 r3 =>
        cases lhs <;> cases rhs <;>
          simp [is_assignable, Variant.assign_overloads, AssignOverload.viable,
            AssignOverload.is_deleted, Variant.base_ReturnType, Variant.base_ArgumentType,
            detail.property_base.has_getter, detail.property_base.has_setter,
            std.same_as, List.filter]

theorem capability_matrix_witness :
    is_assignable .set_only test.const_double_ref true
        (.accessor (Variant.get_only.base_ReturnType test.const_double_ref))
        = (detail.property_base.has_getter
              (Variant.get_only.base_ReturnType test.const_double_ref)
            && detail.property_base.has_setter
              (Variant.set_only.base_ArgumentType test.double))
      ∧ is_assignable .set_only test.const_double_ref true .same_class
        = (detail.property_base.has_getter
              (Variant.set_only.base_ReturnType test.const_double_ref)
            && detail.property_base.has_setter
              (Variant.set_only.base_ArgumentType test.double)) :=
  capability_matrix .set_only .get_only test.const_double_ref test.double
    test.const_double_ref (by decide) (by decide) (by decide)

/-- C4. Operation availability follows the capability flags.  Assignment from a plain
value of a compatible type is well-formed exactly when the accessor has a setter: it is
for read-write and set-only and is not for get-only.  Every member operator other than
assignment, and every global binary operator, is available only if each accessor
operand has a getter; every mutating operator (`++`, `--`, compound assignment) is
available only if the accessor has both a getter and a setter. -/
theorem operation_availability (lhs : Variant) (ReturnType ArgumentType : CppType)
    (hA : ArgumentType ≠ .void) (R A : CppType) (valid : ValueExpr → Bool) :
    (is_assignable lhs ReturnType true .value
        = detail.property_base.has_setter (lhs.base_ArgumentType ArgumentType))
      ∧ is_assignable .read_write ReturnType true .value = true
      ∧ is_assignable .set_only ReturnType true .value = true
      ∧ is_assignable .get_only ReturnType true .value = false
      ∧ (∀ op : MemberOp, op.is_reading = true →
          detail.property_base.requires_clause R A valid op = true →
          detail.property_base.has_getter R = true)
      ∧ (∀ (e : ValueExpr) (t1 t2 : Operand),
          detail.global_requires_clause valid e t1 t2 = true →
          ∀ T ∈ Operand.accessors t1 t2, detail.property_base.has_getter T = true)
      ∧ (∀ op : MemberOp, op.is_mutating = true →
          detail.property_base.requires_clause R A valid op = true →
          detail.property_base.has_getter R = true
            ∧ detail.property_base.has_setter A = true) := by
  refine ⟨?_, ?_, ?_, ?_, ?_, ?_, ?_⟩
  · cases ArgumentType with
    | void => exact absurd rfl hA
    | obj b c r =>
      cases lhs <;>
        simp [is_assignable, Variant.assign_overloads, AssignOverload.viable,
          AssignOverload.is_deleted, Variant.base_ArgumentType,
          detail.property_base.has_setter, std.same_as, List.filter]
  · simp [is_assignable, Variant.assign_overloads, AssignOverload.viable,
      AssignOverload.is_deleted, List.filter]
  · simp [is_assignable, Variant.assign_overloads, AssignOverload.viable,
      AssignOverload.is_deleted, List.filter]
  · simp [is_assignable, Variant.assign_overloads, AssignOverload.viable,
      AssignOverload.is_deleted, List.filter]
  · intro op hop h
    cases op <;>
      simp_all [detail.property_base.requires_clause, MemberOp.is_reading]
  · intro e t1 t2 h T hT
    cases t1 <;> cases t2 <;>
      simp_all [detail.global_requires_clause, Operand.accessors]
    rcases hT with rfl | rfl
    · exact h.1.1
    · exact h.1.2
  · intro op hop h
    cases op <;>
      simp_all [detail.property_base.requires_clause, MemberOp.is_mutating]

theorem operation_availability_witness :
    is_assignable .get_only test.const_double_ref true .value
        = detail.property_base.has_setter (Variant.get_only.base_ArgumentType test.double)
      ∧ detail.property_base.has_getter test.const_double_ref = true
      ∧ detail.property_base.has_setter test.double = true :=
  ⟨(operation_availability .get_only test.const_double_ref test.double (by decide)
      test.const_double_ref test.double (fun _ => true)).1,
   ((operation_availability .get_only test.const_double_ref test.double (by decide)
      test.const_double_ref test.double (fun _ => true)).2.2.2.2.2.2
      (.compound .shr_assign) rfl rfl).1,
   ((operation_availability .get_only test.const_double_ref test.double (by decide)
      test.const_double_ref test.double (fun _ => true)).2.2.2.2.2.2
      (.compound .shr_assign) rfl rfl).2⟩

/-- C5. Rejecting setter, end to end, for `A::num` of the test class over any ordered
entity type: the accessor is constructible; assigning a non-negative `five` succeeds and
a read then returns `five`; assigning a negative `minus_one` afterwards fails with the
setter's own `invalid_argument`, leaves the state untouched, and a read still returns
`five`.  In general, from every state and for every right-hand operand whose value is
negative, the assignment fails with that error and the state (hence the stored value)
is unchanged. -/
theorem rejecting_setter_scenario {α κ : Type} [LT α] [Zero α]
    [∀ a b : α, Decidable (a < b)] (a : test.A) (five minus_one : α)
    (h5 : ¬ five < 0) (hneg : minus_one < 0) (w : World α κ) :
    ∃ num : property test.Exception α κ, test.A.num a = some num ∧
      (∃ w1, num.operator_assign (.prvalue five) w = (.ok (.prvalue five), w1) ∧
        (∃ r, num.get w1 = (.ok r, w1) ∧ r.load w1 = five) ∧
        ∃ w2, num.operator_assign (.prvalue minus_one) w1
            = (.error (.thrown (.invalid_argument "value must be >= 0")), w2) ∧
          w2 = w1 ∧
          ∃ r, num.get w2 = (.ok r, w2) ∧ r.load w2 = five) ∧
      (∀ (w0 : World α κ) (value : Res α), value.load w0 < 0 →
        num.operator_assign value w0
          = (.error (.thrown (.invalid_argument "value must be >= 0")), w0)) := by
  refine ⟨_, rfl, ⟨w.store a.num_ five, ?_, ?_, w.store a.num_ five, ?_, rfl, ?_⟩, ?_⟩
  · simp [property.operator_assign, detail.property_base.operator_assign, property.set,
      test.A.num_setter, h5, Res.load]
  · exact ⟨.lvalue a.num_, rfl, World.store_mem_same w a.num_ five⟩
  · simp [property.operator_assign, detail.property_base.operator_assign, property.set,
      test.A.num_setter, hneg, Res.load]
  · exact ⟨.lvalue a.num_, rfl, World.store_mem_same w a.num_ five⟩
  · intro w0 value hv
    simp [property.operator_assign, detail.property_base.operator_assign, property.set,
      test.A.num_setter, hv]

theorem rejecting_setter_scenario_witness :
    ∃ num : property test.Exception Int Unit, test.A.num ⟨0⟩ = some num ∧
      (∃ w1, num.operator_assign (.prvalue 5) ⟨fun _ => 0, ()⟩ = (.ok (.prvalue 5), w1) ∧
        (∃ r, num.get w1 = (.ok r, w1) ∧ r.load w1 = 5) ∧
        ∃ w2, num.operator_assign (.prvalue (-1)) w1
            = (.error (.thrown (.invalid_argument "value must be >= 0")), w2) ∧
          w2 = w1 ∧
          ∃ r, num.get w2 = (.ok r, w2) ∧ r.load w2 = 5) ∧
      (∀ (w0 : World Int Unit) (value : Res Int), value.load w0 < 0 →
        num.operator_assign value w0
          = (.error (.thrown (.invalid_argument "value must be >= 0")), w0)) :=
  rejecting_setter_scenario ⟨0⟩ 5 (-1) (by decide) (by decide) ⟨fun _ => 0, ()⟩

/-- C8. Write dispatch, for the read-write and the set-only specialisations.  Whenever
the function setter slot is populated, `set` is exactly a call of it with the value
written, and the outcome does not depend on the direct setter slot; for an accessor
built from a callable that call is the callable itself.  Otherwise, with a direct setter
bound to `l`, `set` assigns the value into `l` and does nothing else. -/
theorem write_dispatch (value : Res α) (w : World α κ) :
    (∀ (p : property ε α κ) (setter : α → Act ε α κ), p.setter_ = some setter →
        p.set value w = setter (value.load w) w
        ∧ ∀ other : set_auto, ({ p with auto_setter_ := other }).set value w = p.set value w)
    ∧ (∀ (p : property_set_only ε α κ) (setter : α → Act ε α κ), p.setter_ = some setter →
        p.set value w = setter (value.load w) w
        ∧ ∀ other : set_auto, ({ p with auto_setter_ := other }).set value w = p.set value w)
    ∧ (∀ (p : property ε α κ) (l : Loc), p.setter_ = none →
        p.auto_setter_.entity_ = some l →
        p.set value w = (.ok (), w.store l (value.load w)))
    ∧ (∀ (p : property_set_only ε α κ) (l : Loc), p.setter_ = none →
        p.auto_setter_.entity_ = some l →
        p.set value w = (.ok (), w.store l (value.load w)))
    ∧ (∀ (ReturnType ArgumentType : CppType) (get_f : GetterArg ε α κ) (s : Setter ε α κ)
          (p : property ε α κ),
        property.construct ReturnType ArgumentType get_f (.fn s) = some p →
        p.set value w = s.call (value.load w) w)
    ∧ (∀ (ArgumentType : CppType) (s : Setter ε α κ) (p : property_set_only ε α κ),
        property_set_only.construct ArgumentType (.fn s) = some p →
        p.set value w = s.call (value.load w) w)
    ∧ (∀ (ReturnType ArgumentType : CppType) (get_f : GetterArg ε α κ) (s : set_auto)
          (p : property ε α κ) (l : Loc),
        property.construct ReturnType ArgumentType get_f (.auto s) = some p →
        s.entity_ = some l →
        p.set value w = (.ok (), w.store l (value.load w)))
    ∧ (∀ (ArgumentType : CppType) (s : set_auto) (p : property_set_only ε α κ) (l : Loc),
        property_set_only.construct ArgumentType (.auto s) = some p →
        s.entity_ = some l →
        p.set value w = (.ok (), w.store l (value.load w))) := by
  refine ⟨?_, ?_, ?_, ?_, ?_, ?_, ?_, ?_⟩
  · intro p setter h
    exact ⟨by simp [property.set, h], fun other => by simp [property.set, h]⟩
  · intro p setter h
    exact ⟨by simp [property_set_only.set, h],
      fun other => by simp [property_set_only.set, h]⟩
  · intro p l h hl
    simp [property.set, set_auto.set, h, hl]
  · intro p l h hl
    simp [property_set_only.set, set_auto.set, h, hl]
  · intro ReturnType ArgumentType get_f s p hp
    simp [property.set, property.construct_fn_setter hp]
  · intro ArgumentType s p hp
    simp [property_set_only.set, property_set_only.set_only_construct_fn_setter hp]
  · intro ReturnType ArgumentType get_f s p l hp hl
    obtain ⟨h1, h2⟩ := property.construct_auto_setter hp
    simp [property.set, set_auto.set, h1, h2, hl]
  · intro ArgumentType s p l hp hl
    obtain ⟨h1, h2⟩ := property_set_only.set_only_construct_auto_setter hp
    simp [property_set_only.set, set_auto.set, h1, h2, hl]

theorem write_dispatch_witness :
    ∃ p : property Unit Int Unit, bench.A.p_fn_auto ⟨3⟩ = some p ∧
      p.set (.prvalue 9) ⟨fun _ => 0, ()⟩
        = (.ok (), (⟨fun _ => 0, ()⟩ : World Int Unit).store 3 9) :=
  ⟨_, rfl, (write_dispatch (.prvalue 9) ⟨fun _ => 0, ()⟩).2.2.2.2.2.2.1
      test.const_double_ref (std.remove_cvref_t test.const_double_ref)
      (.fn (bench.A.get_cref ⟨3⟩)) (bench.A.set_auto_num ⟨3⟩) _ 3 rfl rfl⟩

/-- C9. Binary operator equivalence.  Let accessor `t1` read `r1` (reaching state `w1`)
and accessor `t2` then read `r2` (reaching `w2`).  For each of the sixteen operators
`* / % + - << >> < > <= >= == != & ^ |`, with `plain o` the wrapped type's own
operator: `t1 op k` is `plain o x k` and `k op t1` is `plain o k x`, where `x` is the
value read from `t1`; between two accessors the result is `plain o` applied to the
value each read returned at the time of that read (`r1` in `w1`, `r2` in `w2`), the left
operand's value first, whichever of the two is called first (`t1 op t2` when the left
call comes first, `t2 op t1` when the right call comes first).  For the built-in `&&` and `||` the result is the conjunction,
respectively disjunction, of the truth values of the operands in the same order. -/
theorem binary_operator_equivalence (t1 t2 : Eff ε α κ (Res α)) (w w1 w2 : World α κ)
    (r1 r2 : Res α) (h1 : t1 w = (.ok r1, w1)) (h2 : t2 w1 = (.ok r2, w2)) :
    (∀ (β γ : Type) (plain : BinOp → α → β → γ) (o : BinOp) (k : β),
        detail.operator_binary_pv plain o t1 k w = (.ok (plain o (r1.load w1) k), w1))
    ∧ (∀ (β γ : Type) (plain : BinOp → β → α → γ) (o : BinOp) (k : β),
        detail.operator_binary_vp plain o k t1 w = (.ok (plain o k (r1.load w1)), w1))
    ∧ (∀ (γ : Type) (plain : BinOp → α → α → γ) (o : BinOp) (b : Bool),
        detail.evaluates_left_first o b = true →
        detail.operator_binary_pp plain o b t1 t2 w
          = (.ok (plain o (r1.load w1) (r2.load w2)), w2))
    ∧ (∀ (γ : Type) (plain : BinOp → α → α → γ) (o : BinOp) (b : Bool),
        detail.evaluates_left_first o b = false →
        detail.operator_binary_pp plain o b t2 t1 w
          = (.ok (plain o (r2.load w2) (r1.load w1)), w2))
    ∧ (∀ (β : Type) (truth : α → Bool) (truth2 : β → Bool) (k : β),
        detail.operator_and_pv truth truth2 t1 k w
          = (.ok (truth (r1.load w1) && truth2 k), w1)
        ∧ detail.operator_or_pv truth truth2 t1 k w
          = (.ok (truth (r1.load w1) || truth2 k), w1)
        ∧ (∃ w3, detail.operator_and_vp truth2 truth k t1 w
            = (.ok (truth2 k && truth (r1.load w1)), w3))
        ∧ (∃ w3, detail.operator_or_vp truth2 truth k t1 w
            = (.ok (truth2 k || truth (r1.load w1)), w3)))
    ∧ (∀ (truth : α → Bool),
        (∃ w3, detail.operator_and_pp truth t1 t2 w
            = (.ok (truth (r1.load w1) && truth (r2.load w2)), w3))
        ∧ (∃ w3, detail.operator_or_pp truth t1 t2 w
            = (.ok (truth (r1.load w1) || truth (r2.load w2)), w3))) := by
  refine ⟨?_, ?_, ?_, ?_, ?_, ?_⟩
  · intro β γ plain o k
    simp [detail.operator_binary_pv, detail.property_base.operator_call, h1]
  · intro β γ plain o k
    simp [detail.operator_binary_vp, detail.property_base.operator_call, h1]
  · intro γ plain o b hb
    simp [detail.operator_binary_pp, detail.property_base.operator_call, h1, h2, hb]
  · intro γ plain o b hb
    simp [detail.operator_binary_pp, detail.property_base.operator_call, h1, h2, hb]
  · intro β truth truth2 k
    refine ⟨?_, ?_, ?_, ?_⟩
    · simp [detail.operator_and_pv, detail.property_base.operator_call, h1]
    · simp [detail.operator_or_pv, detail.property_base.operator_call, h1]
    · by_cases hk : truth2 k = true
      · exact ⟨w1, by
          simp [detail.operator_and_vp, detail.property_base.operator_call, h1, hk]⟩
      · exact ⟨w, by
          simp [detail.operator_and_vp, detail.property_base.operator_call, hk]⟩
    · by_cases hk : truth2 k = true
      · exact ⟨w, by
          simp [detail.operator_or_vp, detail.property_base.operator_call, hk]⟩
      · exact ⟨w1, by
          simp [detail.operator_or_vp, detail.property_base.operator_call, h1, hk]⟩
  · intro truth
    constructor
    · by_cases hx : truth (r1.load w1) = true
      · exact ⟨w2, by
          simp [detail.operator_and_pp, detail.property_base.operator_call, h1, h2, hx]⟩
      · exact ⟨w1, by
          simp [detail.operator_and_pp, detail.property_base.operator_call, h1, hx]⟩
    · by_cases hx : truth (r1.load w1) = true
      · exact ⟨w1, by
          simp [detail.operator_or_pp, detail.property_base.operator_call, h1, hx]⟩
      · exact ⟨w2, by
          simp [detail.operator_or_pp, detail.property_base.operator_call, h1, h2, hx]⟩

theorem binary_operator_equivalence_witness :
    detail.operator_binary_pv test.arithmetic .add
        (fun w => (.ok (.lvalue 0), w)) 3 (⟨fun _ => 1, ()⟩ : World Int Unit)
      = ((.ok (1 + 3), ⟨fun _ => 1, ()⟩) : Except (Fault Unit) Int × World Int Unit)
    ∧ detail.operator_binary_vp test.arithmetic .sub 3
        (fun w => (.ok (.lvalue 0), w)) (⟨fun _ => 1, ()⟩ : World Int Unit)
      = ((.ok (3 - 1), ⟨fun _ => 1, ()⟩) : Except (Fault Unit) Int × World Int Unit)
    ∧ detail.operator_binary_pp test.arithmetic .add true
        (fun w => (.ok (.lvalue 0), w)) (fun w => (.ok (.prvalue 1), w.store 0 100))
        (⟨fun _ => 1, ()⟩ : World Int Unit)
      = ((.ok (1 + 1), (⟨fun _ => 1, ()⟩ : World Int Unit).store 0 100) :
          Except (Fault Unit) Int × World Int Unit) :=
  ⟨(binary_operator_equivalence (fun w => (.ok (.lvalue 0), w))
      (fun w => (.ok (.prvalue 4), w)) ⟨fun _ => 1, ()⟩ ⟨fun _ => 1, ()⟩ ⟨fun _ => 1, ()⟩
      (.lvalue 0) (.prvalue 4) rfl rfl).1 Int Int test.arithmetic .add 3,
   (binary_operator_equivalence (fun w => (.ok (.lvalue 0), w))
      (fun w => (.ok (.prvalue 4), w)) ⟨fun _ => 1, ()⟩ ⟨fun _ => 1, ()⟩ ⟨fun _ => 1, ()⟩
      (.lvalue 0) (.prvalue 4) rfl rfl).2.1 Int Int test.arithmetic .sub 3,
   (binary_operator_equivalence (fun w => (.ok (.lvalue 0), w))
      (fun w => (.ok (.prvalue 1), w.store 0 100)) ⟨fun _ => 1, ()⟩ ⟨fun _ => 1, ()⟩
      ((⟨fun _ => 1, ()⟩ : World Int Unit).store 0 100)
      (.lvalue 0) (.prvalue 1) rfl rfl).2.2.1 Int test.arithmetic .add true rfl⟩

/-- C10, as stated, fails: for the `unsigned char` accessor with plain storage on the
cell `0`, holding 200, `a += 100` computes `200 + 100` in `int`, returns 300 and hands
300 to the write path, and the read that follows reports 44, not `x op k`. -/
theorem compound_read_is_converted :
    ¬ (∀ (num : Loc) (p : property Unit (Fin 256) Unit) (c : CompoundOp) (k v : Int)
        (w w1 : World (Fin 256) Unit),
        sample.byte num = some p →
        detail.property_base.operator_compound sample.promoted_arithmetic
          sample.to_unsigned_char c p.get p.set k w = (.ok v, w1) →
        ∃ r, p.get w1 = (.ok r, w1) ∧
          sample.promote (r.load w1)
            = sample.promoted_arithmetic c.applied (w.mem num) k) := by
  intro h
  obtain ⟨r1, hr1, hl⟩ := h 0 _ .add_assign 100 300 ⟨fun _ => 200, ()⟩
    ((⟨fun _ => 200, ()⟩ : World (Fin 256) Unit).store 0 44) rfl rfl
  have h2 : r1 = .lvalue 0 := by
    have := congrArg Prod.fst hr1
    simpa [property.get, get_auto.get, sample.const_unsigned_char_ref,
      is_const_lvalue_reference_v, std.is_const_v, std.remove_reference_t,
      std.is_lvalue_reference_v] using this.symm
  subst h2
  revert hl
  decide

/-- C10, amended.  The body of each of the ten forms applies the operator of the same
name.  For any accessor whose read yields `x` in state `w1`, `a op= k` is the write path
called with exactly `x op k`, a value of the type `π` of that expression, which `set`
converts to the entity type: it fails as the setter fails, and otherwise returns
`x op k`.  When `k` is an accessor whose read yields `y`, the value is `x op y`, with `x`
fetched before or after the read of `k` according to the order of evaluation.  With plain
storage on `l` (any of the four constructors), `a op= k` succeeds and returns `x op k`
for `x` the content of `l`, and the read that follows returns `x op k` converted to the
entity type; the same holds for an accessor `k` with plain storage on `m`, with `y` the
content of `m`. -/
theorem compound_assignment (ReturnType ArgumentType : CppType)
    (get_f : GetterArg ε α κ) (set_f : SetterArg ε α κ) (p : property ε α κ) (l : Loc)
    (hp : property.construct ReturnType ArgumentType get_f set_f = some p)
    (hg : get_f.plain_on l) (hs : set_f.plain_on l)
    (β π : Type) (plain : BinOp → α → β → π) (plain2 : BinOp → α → α → π)
    (convert : π → α) (c : CompoundOp) (k : β) (w : World α κ) :
    (CompoundOp.mul_assign.applied = .mul ∧ CompoundOp.div_assign.applied = .div
      ∧ CompoundOp.mod_assign.applied = .mod ∧ CompoundOp.add_assign.applied = .add
      ∧ CompoundOp.sub_assign.applied = .sub ∧ CompoundOp.shl_assign.applied = .shl
      ∧ CompoundOp.shr_assign.applied = .shr ∧ CompoundOp.and_assign.applied = .bit_and
      ∧ CompoundOp.or_assign.applied = .bit_or ∧ CompoundOp.xor_assign.applied = .bit_xor)
    ∧ (∀ (get : Eff ε α κ (Res α)) (set : Res α → Act ε α κ) (r : Res α)
          (w0 w1 : World α κ), get w0 = (.ok r, w1) →
        detail.property_base.operator_compound plain convert c get set k w0
          = (match set (.prvalue (convert (plain c.applied (r.load w1) k))) w1 with
             | (.error f, w2) => (.error f, w2)
             | (.ok _, w2) => (.ok (plain c.applied (r.load w1) k), w2)))
    ∧ (∀ (t1_first : Bool) (get right : Eff ε α κ (Res α)) (set : Res α → Act ε α κ)
          (r r2 : Res α) (w0 w1 w2 : World α κ),
        get w0 = (.ok r, w1) → right w1 = (.ok r2, w2) →
        detail.property_base.operator_compound_property plain2 convert c t1_first
            get set right w0
          = (match set (.prvalue (convert (plain2 c.applied
                (if detail.evaluates_left_first c.applied t1_first then r.load w1
                  else r.load w2) (r2.load w2)))) w2 with
             | (.error f, w3) => (.error f, w3)
             | (.ok _, w3) =>
               (.ok (plain2 c.applied
                (if detail.evaluates_left_first c.applied t1_first then r.load w1
                  else r.load w2) (r2.load w2)), w3)))
    ∧ (∃ w2, detail.property_base.operator_compound plain convert c p.get p.set k w
          = (.ok (plain c.applied (w.mem l) k), w2)
        ∧ ∃ r, p.get w2 = (.ok r, w2)
          ∧ r.load w2 = convert (plain c.applied (w.mem l) k))
    ∧ (∀ (R A : CppType) (get_q : GetterArg ε α κ) (set_q : SetterArg ε α κ)
          (q : property ε α κ) (m : Loc) (t1_first : Bool),
        property.construct R A get_q set_q = some q → get_q.plain_on m →
        ∃ w2, detail.property_base.operator_compound_property plain2 convert c t1_first
              p.get p.set (detail.property_base.operator_call q.get) w
            = (.ok (plain2 c.applied (w.mem l) (w.mem m)), w2)
          ∧ ∃ r, p.get w2 = (.ok r, w2)
            ∧ r.load w2 = convert (plain2 c.applied (w.mem l) (w.mem m))) := by
  have back : ∀ v : α, ∃ r2, p.get (w.store l v) = (.ok r2, w.store l v) ∧
      r2.load (w.store l v) = v := by
    intro v
    obtain ⟨r2, hr2, hl2⟩ := property.get_of_plain hp hg (w.store l v)
    exact ⟨r2, hr2, by rw [hl2, World.store_mem_same]⟩
  obtain ⟨r, hr, hl⟩ := property.get_of_plain hp hg w
  refine ⟨⟨rfl, rfl, rfl, rfl, rfl, rfl, rfl, rfl, rfl, rfl⟩, ?_, ?_, ?_, ?_⟩
  · intro get set r w0 w1 h
    simp only [detail.property_base.operator_compound, detail.property_base.operator_call,
      detail.property_base.operator_assign_converted, h]
  · intro t1_first get right set r r2 w0 w1 w2 h h2
    by_cases hb : detail.evaluates_left_first c.applied t1_first = true
    · simp [detail.property_base.operator_compound_property, detail.operator_binary_rp,
        detail.property_base.operator_call,
        detail.property_base.operator_assign_converted, h, h2, hb]
    · simp [detail.property_base.operator_compound_property, detail.operator_binary_rp,
        detail.property_base.operator_call,
        detail.property_base.operator_assign_converted, h, h2, hb]
  · refine ⟨w.store l (convert (plain c.applied (w.mem l) k)), ?_, back _⟩
    simp [detail.property_base.operator_compound, detail.property_base.operator_call,
      detail.property_base.operator_assign_converted, hr, hl,
      property.set_of_plain hp hs, Res.load_prvalue]
  · intro R A get_q set_q q m t1_first hq hgq
    obtain ⟨rq, hrq, hlq⟩ := property.get_of_plain hq hgq w
    refine ⟨w.store l (convert (plain2 c.applied (w.mem l) (w.mem m))), ?_, back _⟩
    by_cases hb : detail.evaluates_left_first c.applied t1_first = true
    · simp [detail.property_base.operator_compound_property, detail.operator_binary_rp,
        detail.property_base.operator_call,
        detail.property_base.operator_assign_converted, hr, hl, hrq, hlq, hb,
        property.set_of_plain hp hs, Res.load_prvalue]
    · simp [detail.property_base.operator_compound_property, detail.operator_binary_rp,
        detail.property_base.operator_call,
        detail.property_base.operator_assign_converted, hr, hl, hrq, hlq, hb,
        property.set_of_plain hp hs, Res.load_prvalue]

theorem compound_assignment_witness :
    ∃ p : property Unit Int Unit, bench.A.p_fn_fn ⟨0⟩ = some p ∧
      ∃ w2, detail.property_base.operator_compound test.arithmetic id .add_assign
          p.get p.set 3 ⟨fun _ => 1, ()⟩
          = (.ok (1 + 3), w2)
        ∧ ∃ r, p.get w2 = (.ok r, w2) ∧ r.load w2 = 1 + 3 :=
  ⟨_, rfl, (compound_assignment test.const_double_ref
      (std.remove_cvref_t test.const_double_ref)
      (.fn (bench.A.get_cref ⟨0⟩)) (.fn (bench.A.set_val ⟨0⟩)) _ 0 rfl
      (fun _ => ⟨.lvalue 0, rfl, rfl⟩) (fun _ _ => rfl)
      Int Int test.arithmetic test.arithmetic id .add_assign 3
      ⟨fun _ => 1, ()⟩).2.2.2.1⟩

/-- C11, as stated, fails: for the `unsigned char` accessor with plain storage on the
cell `0`, holding 255, `++a` computes `255 + 1` in `int` and returns 256, and the read
that follows reports 0, not `x + 1`. -/
theorem increment_read_is_converted :
    ¬ (∀ (num : Loc) (p : property Unit (Fin 256) Unit) (v : Int)
        (w w1 : World (Fin 256) Unit),
        sample.byte num = some p →
        detail.property_base.operator_pre_inc sample.plus_one sample.to_unsigned_char
          p.get p.set w = (.ok v, w1) →
        v = sample.plus_one (w.mem num)
        ∧ ∃ r, p.get w1 = (.ok r, w1) ∧
          sample.promote (r.load w1) = sample.plus_one (w.mem num)) := by
  intro h
  obtain ⟨_, r1, hr1, hl⟩ := h 0 _ 256 ⟨fun _ => 255, ()⟩
    ((⟨fun _ => 255, ()⟩ : World (Fin 256) Unit).store 0 0) rfl rfl
  have h2 : r1 = .lvalue 0 := by
    have := congrArg Prod.fst hr1
    simpa [property.get, get_auto.get, sample.const_unsigned_char_ref,
      is_const_lvalue_reference_v, std.is_const_v, std.remove_reference_t,
      std.is_lvalue_reference_v] using this.symm
  subst h2
  revert hl
  decide

/-- C11, amended.  Increment and decrement: for a read-write accessor built by any of the
four constructors with plain storage on `l`, holding `x` there: `a++` returns `x` and
`++a` returns `x + 1`, a value of the type `π` of that expression, and after either a
read returns `x + 1` converted to the entity type; `a--` returns `x` and `--a` returns
`x - 1`, and after either a read returns `x - 1` converted to the entity type.  Here
`plus_one` and `minus_one` are the wrapped type's `v + 1` and `v - 1` and `convert` is
the conversion of their type to the entity type; when that type is the entity type
itself (`convert` the identity), the read returns `x + 1`, respectively `x - 1`. -/
theorem increment_decrement (ReturnType ArgumentType : CppType)
    (get_f : GetterArg ε α κ) (set_f : SetterArg ε α κ) (p : property ε α κ) (l : Loc)
    (hp : property.construct ReturnType ArgumentType get_f set_f = some p)
    (hg : get_f.plain_on l) (hs : set_f.plain_on l)
    (π : Type) (plus_one minus_one : α → π) (convert : π → α) (w : World α κ) :
    ((∃ w1, detail.property_base.operator_post_inc plus_one convert p.get p.set w
          = (.ok (w.mem l), w1)
        ∧ ∃ r, p.get w1 = (.ok r, w1) ∧ r.load w1 = convert (plus_one (w.mem l)))
    ∧ (∃ w1, detail.property_base.operator_pre_inc plus_one convert p.get p.set w
          = (.ok (plus_one (w.mem l)), w1)
        ∧ ∃ r, p.get w1 = (.ok r, w1) ∧ r.load w1 = convert (plus_one (w.mem l)))
    ∧ (∃ w1, detail.property_base.operator_post_dec minus_one convert p.get p.set w
          = (.ok (w.mem l), w1)
        ∧ ∃ r, p.get w1 = (.ok r, w1) ∧ r.load w1 = convert (minus_one (w.mem l)))
    ∧ (∃ w1, detail.property_base.operator_pre_dec minus_one convert p.get p.set w
          = (.ok (minus_one (w.mem l)), w1)
        ∧ ∃ r, p.get w1 = (.ok r, w1) ∧ r.load w1 = convert (minus_one (w.mem l))))
    ∧ (∀ step : α → α,
        (∃ w1, detail.property_base.operator_post_inc step id p.get p.set w
            = (.ok (w.mem l), w1)
          ∧ ∃ r, p.get w1 = (.ok r, w1) ∧ r.load w1 = step (w.mem l))
        ∧ (∃ w1, detail.property_base.operator_pre_inc step id p.get p.set w
            = (.ok (step (w.mem l)), w1)
          ∧ ∃ r, p.get w1 = (.ok r, w1) ∧ r.load w1 = step (w.mem l))
        ∧ (∃ w1, detail.property_base.operator_post_dec step id p.get p.set w
            = (.ok (w.mem l), w1)
          ∧ ∃ r, p.get w1 = (.ok r, w1) ∧ r.load w1 = step (w.mem l))
        ∧ (∃ w1, detail.property_base.operator_pre_dec step id p.get p.set w
            = (.ok (step (w.mem l)), w1)
          ∧ ∃ r, p.get w1 = (.ok r, w1) ∧ r.load w1 = step (w.mem l))) := by
  obtain ⟨r, hr, hl⟩ := property.get_of_plain hp hg w
  have back : ∀ v : α, ∃ r2, p.get (w.store l v) = (.ok r2, w.store l v) ∧
      r2.load (w.store l v) = v := by
    intro v
    obtain ⟨r2, hr2, hl2⟩ := property.get_of_plain hp hg (w.store l v)
    exact ⟨r2, hr2, by rw [hl2, World.store_mem_same]⟩
  have key : ∀ (ρ : Type) (up down : α → ρ) (conv : ρ → α),
      (∃ w1, detail.property_base.operator_post_inc up conv p.get p.set w
          = (.ok (w.mem l), w1)
        ∧ ∃ r, p.get w1 = (.ok r, w1) ∧ r.load w1 = conv (up (w.mem l)))
      ∧ (∃ w1, detail.property_base.operator_pre_inc up conv p.get p.set w
          = (.ok (up (w.mem l)), w1)
        ∧ ∃ r, p.get w1 = (.ok r, w1) ∧ r.load w1 = conv (up (w.mem l)))
      ∧ (∃ w1, detail.property_base.operator_post_dec down conv p.get p.set w
          = (.ok (w.mem l), w1)
        ∧ ∃ r, p.get w1 = (.ok r, w1) ∧ r.load w1 = conv (down (w.mem l)))
      ∧ (∃ w1, detail.property_base.operator_pre_dec down conv p.get p.set w
          = (.ok (down (w.mem l)), w1)
        ∧ ∃ r, p.get w1 = (.ok r, w1) ∧ r.load w1 = conv (down (w.mem l))) := by
    intro ρ up down conv
    refine ⟨⟨w.store l (conv (up (w.mem l))), ?_, back _⟩,
      ⟨w.store l (conv (up (w.mem l))), ?_, back _⟩,
      ⟨w.store l (conv (down (w.mem l))), ?_, back _⟩,
      ⟨w.store l (conv (down (w.mem l))), ?_, back _⟩⟩
    · simp [detail.property_base.operator_post_inc, detail.property_base.operator_call,
        detail.property_base.operator_assign_converted, hr, hl,
        property.set_of_plain hp hs, Res.load_prvalue]
    · simp [detail.property_base.operator_pre_inc, detail.property_base.operator_call,
        detail.property_base.operator_assign_converted, hr, hl,
        property.set_of_plain hp hs, Res.load_prvalue]
    · simp [detail.property_base.operator_post_dec, detail.property_base.operator_call,
        detail.property_base.operator_assign_converted, hr, hl,
        property.set_of_plain hp hs, Res.load_prvalue]
    · simp [detail.property_base.operator_pre_dec, detail.property_base.operator_call,
        detail.property_base.operator_assign_converted, hr, hl,
        property.set_of_plain hp hs, Res.load_prvalue]
  exact ⟨key π plus_one minus_one convert, fun step => key α step step id⟩

theorem increment_decrement_witness :
    ∃ p : property Unit Int Unit, bench.A.p_auto_auto ⟨0⟩ = some p ∧
      ∃ w1, detail.property_base.operator_post_inc (fun v : Int => v + 1) id p.get p.set
            ⟨fun _ => 4, ()⟩
          = (.ok 4, w1)
        ∧ ∃ r, p.get w1 = (.ok r, w1) ∧ r.load w1 = 4 + 1 :=
  ⟨_, rfl, (increment_decrement test.const_double_ref
      (std.remove_cvref_t test.const_double_ref)
      (.auto (bench.A.get_auto_num ⟨0⟩)) (.auto (bench.A.set_auto_num ⟨0⟩)) _ 0 rfl
      rfl rfl Int (fun v => v + 1) (fun v => v - 1) id ⟨fun _ => 4, ()⟩).1.1⟩

/-- C12, as stated, fails: the accessor whose getter returns the cell and whose setter
stores twice its argument is a read-write accessor for which `++a`, from a stored 1,
returns 2 while the read that follows reports 4. -/
theorem pre_increment_result_is_not_reread :
    ¬ (∀ (ReturnType ArgumentType : CppType) (get_f : GetterArg Unit Int Unit)
        (set_f : SetterArg Unit Int Unit) (p : property Unit Int Unit)
        (w w1 : World Int Unit) (v : Int),
        property.construct ReturnType ArgumentType get_f set_f = some p →
        detail.property_base.operator_pre_inc (fun x : Int => x + 1) id p.get p.set w
          = (.ok v, w1) →
        ∃ r1, p.get w1 = (.ok r1, w1) ∧ r1.load w1 = v) := by
  intro h
  obtain ⟨r1, hr1, hl⟩ := h test.const_double_ref (std.remove_cvref_t test.const_double_ref)
    (.fn (bench.A.get_cref ⟨0⟩)) (.fn (sample.doubling_setter 0)) _
    ⟨fun _ => 1, ()⟩ ((⟨fun _ => 1, ()⟩ : World Int Unit).store 0 4) 2 rfl rfl
  have h2 : r1 = .lvalue 0 := by
    have := congrArg Prod.fst hr1
    simpa [property.get, std.function_of_getter, bench.A.get_cref, test.const_double_ref,
      is_const_lvalue_reference_v, std.is_const_v, std.remove_reference_t,
      std.is_lvalue_reference_v, std.is_reference_v] using this.symm
  subst h2
  simp [Res.load, World.store] at hl

/-- C12, amended.  Pre-increment, pre-decrement and every compound assignment return the
value they computed from the read and handed to the write path (`x + 1`, `x - 1`,
`x op k`), a prvalue of the type `π` of that expression, whatever the setter does with
it.  When the accessor performs plain storage on `l` (any of the four constructors), a
read immediately afterwards reports that value converted to the entity type, which is
the value itself when the expression has the entity type. -/
theorem pre_ops_return_written_value (ReturnType ArgumentType : CppType)
    (get_f : GetterArg ε α κ) (set_f : SetterArg ε α κ) (p : property ε α κ) (l : Loc)
    (hp : property.construct ReturnType ArgumentType get_f set_f = some p)
    (hg : get_f.plain_on l) (hs : set_f.plain_on l) (w : World α κ) :
    (∀ (π : Type) (convert : π → α) (get : Eff ε α κ (Res α)) (set : Res α → Act ε α κ)
        (r : Res α) (w0 w1 w2 : World α κ), get w0 = (.ok r, w1) →
        (∀ step : α → π, set (.prvalue (convert (step (r.load w1)))) w1 = (.ok (), w2) →
          detail.property_base.operator_pre_inc step convert get set w0
            = (.ok (step (r.load w1)), w2)
          ∧ detail.property_base.operator_pre_dec step convert get set w0
            = (.ok (step (r.load w1)), w2))
        ∧ (∀ (β : Type) (plain : BinOp → α → β → π) (c : CompoundOp) (k : β),
          set (.prvalue (convert (plain c.applied (r.load w1) k))) w1 = (.ok (), w2) →
          detail.property_base.operator_compound plain convert c get set k w0
            = (.ok (plain c.applied (r.load w1) k), w2)))
    ∧ (∀ (π : Type) (convert : π → α) (step : α → π),
        (∃ v w1, detail.property_base.operator_pre_inc step convert p.get p.set w
            = (.ok v, w1)
          ∧ ∃ r1, p.get w1 = (.ok r1, w1) ∧ r1.load w1 = convert v)
        ∧ (∃ v w1, detail.property_base.operator_pre_dec step convert p.get p.set w
            = (.ok v, w1)
          ∧ ∃ r1, p.get w1 = (.ok r1, w1) ∧ r1.load w1 = convert v))
    ∧ (∀ (π β : Type) (convert : π → α) (plain : BinOp → α → β → π) (c : CompoundOp)
          (k : β),
        ∃ v w1, detail.property_base.operator_compound plain convert c p.get p.set k w
            = (.ok v, w1)
          ∧ ∃ r1, p.get w1 = (.ok r1, w1) ∧ r1.load w1 = convert v)
    ∧ (∀ (β : Type) (plain : BinOp → α → β → α) (step : α → α) (c : CompoundOp) (k : β),
        (∃ v w1, detail.property_base.operator_pre_inc step id p.get p.set w
            = (.ok v, w1)
          ∧ ∃ r1, p.get w1 = (.ok r1, w1) ∧ r1.load w1 = v)
        ∧ (∃ v w1, detail.property_base.operator_pre_dec step id p.get p.set w
            = (.ok v, w1)
          ∧ ∃ r1, p.get w1 = (.ok r1, w1) ∧ r1.load w1 = v)
        ∧ (∃ v w1, detail.property_base.operator_compound plain id c p.get p.set k w
            = (.ok v, w1)
          ∧ ∃ r1, p.get w1 = (.ok r1, w1) ∧ r1.load w1 = v)) := by
  obtain ⟨r, hr, hl⟩ := property.get_of_plain hp hg w
  have back : ∀ v : α, ∃ r2, p.get (w.store l v) = (.ok r2, w.store l v) ∧
      r2.load (w.store l v) = v := by
    intro v
    obtain ⟨r2, hr2, hl2⟩ := property.get_of_plain hp hg (w.store l v)
    exact ⟨r2, hr2, by rw [hl2, World.store_mem_same]⟩
  have pre : ∀ (π : Type) (convert : π → α) (step : α → π),
      (∃ v w1, detail.property_base.operator_pre_inc step convert p.get p.set w
          = (.ok v, w1)
        ∧ ∃ r1, p.get w1 = (.ok r1, w1) ∧ r1.load w1 = convert v)
      ∧ (∃ v w1, detail.property_base.operator_pre_dec step convert p.get p.set w
          = (.ok v, w1)
        ∧ ∃ r1, p.get w1 = (.ok r1, w1) ∧ r1.load w1 = convert v) := by
    intro π convert step
    constructor
    · refine ⟨step (w.mem l), w.store l (convert (step (w.mem l))), ?_, back _⟩
      simp [detail.property_base.operator_pre_inc, detail.property_base.operator_call,
        detail.property_base.operator_assign_converted, hr, hl,
        property.set_of_plain hp hs, Res.load_prvalue]
    · refine ⟨step (w.mem l), w.store l (convert (step (w.mem l))), ?_, back _⟩
      simp [detail.property_base.operator_pre_dec, detail.property_base.operator_call,
        detail.property_base.operator_assign_converted, hr, hl,
        property.set_of_plain hp hs, Res.load_prvalue]
  have comp : ∀ (π β : Type) (convert : π → α) (plain : BinOp → α → β → π)
      (c : CompoundOp) (k : β),
      ∃ v w1, detail.property_base.operator_compound plain convert c p.get p.set k w
          = (.ok v, w1)
        ∧ ∃ r1, p.get w1 = (.ok r1, w1) ∧ r1.load w1 = convert v := by
    intro π β convert plain c k
    refine ⟨plain c.applied (w.mem l) k,
      w.store l (convert (plain c.applied (w.mem l) k)), ?_, back _⟩
    simp [detail.property_base.operator_compound, detail.property_base.operator_call,
      detail.property_base.operator_assign_converted, hr, hl,
      property.set_of_plain hp hs, Res.load_prvalue]
  refine ⟨?_, pre, comp, ?_⟩
  · intro π convert get set r0 w0 w1 w2 h
    constructor
    · intro step hset
      simp [detail.property_base.operator_pre_inc, detail.property_base.operator_pre_dec,
        detail.property_base.operator_call,
        detail.property_base.operator_assign_converted, h, hset]
    · intro β plain c k hset
      simp [detail.property_base.operator_compound, detail.property_base.operator_call,
        detail.property_base.operator_assign_converted, h, hset]
  · intro β plain step c k
    exact ⟨(pre α id step).1, (pre α id step).2, comp α β id plain c k⟩

theorem pre_ops_return_written_value_witness :
    ∃ p : property Unit Int Unit, bench.A.p_fn_fn ⟨0⟩ = some p ∧
      ∃ v w1, detail.property_base.operator_compound test.arithmetic id .mul_assign
            p.get p.set 3 ⟨fun _ => 2, ()⟩ = (.ok v, w1)
        ∧ ∃ r1, p.get w1 = (.ok r1, w1) ∧ r1.load w1 = v :=
  ⟨_, rfl, ((pre_ops_return_written_value test.const_double_ref
      (std.remove_cvref_t test.const_double_ref)
      (.fn (bench.A.get_cref ⟨0⟩)) (.fn (bench.A.set_val ⟨0⟩)) _ 0 rfl
      (fun _ => ⟨.lvalue 0, rfl, rfl⟩) (fun _ _ => rfl) ⟨fun _ => 2, ()⟩).2.2.2
      Int test.arithmetic (fun x => x + 1) .mul_assign 3).2.2⟩

/-- C13, as stated, fails: for the accessor whose setter stores twice its argument in
the cell `0`, assigning the named variable that lives in cell `0` (holding 5) returns a
reference to that cell, which holds 10 after the write, not the 5 the right-hand side
denoted before it. -/
theorem assignment_result_is_not_a_copy :
    ¬ (∀ (ReturnType ArgumentType : CppType) (get_f : GetterArg Unit Int Unit)
        (set_f : SetterArg Unit Int Unit) (p : property Unit Int Unit)
        (value r : Res Int) (w w1 : World Int Unit),
        property.construct ReturnType ArgumentType get_f set_f = some p →
        p.operator_assign value w = (.ok r, w1) →
        r.load w1 = value.load w) := by
  intro h
  have h5 := h test.const_double_ref (std.remove_cvref_t test.const_double_ref)
    (.fn (bench.A.get_cref ⟨0⟩)) (.fn (sample.doubling_setter 0)) _
    (.lvalue 0) (.lvalue 0) ⟨fun _ => 5, ()⟩
    ((⟨fun _ => 5, ()⟩ : World Int Unit).store 0 10) rfl rfl
  simp [Res.load, World.store] at h5

/-- C13, amended.  The result of an assignment is the right-hand operand itself.  For a
prvalue operand it is a copy taken before the write: it equals the right-hand value
whatever the setter does and in whatever state it is read.  For an lvalue operand (a
named variable, or another accessor whose getter returns a reference) it is a reference
to the operand's cell: it equals the right-hand value as it was before the write exactly
when the write leaves that cell's value unchanged.  An accessor on the right is read
once through its getter and its result is assigned in the same way. -/
theorem assignment_returns_right_operand (set : Res α → Act ε α κ) (w w1 : World α κ) :
    (∀ v : α, set (.prvalue v) w = (.ok (), w1) →
        detail.property_base.operator_assign set (.prvalue v) w = (.ok (.prvalue v), w1)
        ∧ ∀ w2 : World α κ, (Res.prvalue v).load w2 = v)
    ∧ (∀ l : Loc, set (.lvalue l) w = (.ok (), w1) →
        detail.property_base.operator_assign set (.lvalue l) w = (.ok (.lvalue l), w1)
        ∧ ((Res.lvalue l : Res α).load w1 = (Res.lvalue l : Res α).load w
            ↔ w1.mem l = w.mem l))
    ∧ (∀ (p : property ε α κ) (prop : Eff ε α κ (Res α)) (r : Res α) (w0 : World α κ),
        prop w0 = (.ok r, w) →
        p.operator_assign_property prop w0 = p.operator_assign r w)
    ∧ (∀ (p : property_set_only ε α κ) (prop : Eff ε α κ (Res α)) (r : Res α)
          (w0 : World α κ), prop w0 = (.ok r, w) →
        p.operator_assign_property prop w0 = p.operator_assign r w) := by
  refine ⟨?_, ?_, ?_, ?_⟩
  · intro v h
    exact ⟨by simp [detail.property_base.operator_assign, h], fun _ => rfl⟩
  · intro l h
    exact ⟨by simp [detail.property_base.operator_assign, h], Iff.rfl⟩
  · intro p prop r w0 h
    simp [property.operator_assign_property, property.operator_assign,
      detail.property_base.operator_call, h]
  · intro p prop r w0 h
    simp [property_set_only.operator_assign_property, property_set_only.operator_assign,
      detail.property_base.operator_call, h]

theorem assignment_returns_right_operand_witness :
    detail.property_base.operator_assign
        (fun value w => (sample.doubling_setter 0).call (value.load w) w) (.prvalue 5)
        (⟨fun _ => 5, ()⟩ : World Int Unit)
      = ((.ok (.prvalue 5), (⟨fun _ => 5, ()⟩ : World Int Unit).store 0 10) :
          Except (Fault Unit) (Res Int) × World Int Unit)
    ∧ ∀ w2 : World Int Unit, (Res.prvalue 5 : Res Int).load w2 = 5 :=
  (assignment_returns_right_operand
    (fun value w => (sample.doubling_setter 0).call (value.load w) w)
    ⟨fun _ => 5, ()⟩ ((⟨fun _ => 5, ()⟩ : World Int Unit).store 0 10)).1 5 rfl

/-- C16, as stated, fails: with declared return type `double&` and a callable returning
`const double&`, construction is rejected (no `std::function<double&()>` can wrap the
callable) although the callable's result type is a reference. -/
theorem rejection_without_dangling :
    ¬ (∀ (R ArgumentType : CppType) (g : Getter Unit Int Unit)
        (set_f : SetterArg Unit Int Unit),
        property.construct R ArgumentType (.fn g) set_f = none ↔
          (std.is_reference_v R = true ∧ std.is_reference_v g.return_type = false)) := by
  intro h
  have h1 := (h test.double_ref test.double
    { return_type := test.const_double_ref, call := fun w => (.ok (.lvalue 0), w) }
    (.fn (bench.A.set_val ⟨0⟩))).mp rfl
  exact absurd h1.2 (by decide)

/-- C16, amended.  For each constructor that takes a function getter (read-write with a
function setter, read-write with a direct setter, get-only), construction is rejected
whenever the declared return type `R` is a reference and the callable's result type `G`
is not.  When the other requirements of the constructor hold (the callable converts to
`std::function<R()>`, the function setter converts to `std::function<void(A)>`, the
direct setter is bound to the entity type), construction is rejected exactly in that
case. -/
theorem dangling_reference_rule (R ArgumentType : CppType) (g : Getter ε α κ) :
    (std.is_reference_v R = true → std.is_reference_v g.return_type = false →
        (∀ s : Setter ε α κ,
          property.construct R ArgumentType (.fn g) (.fn s) = none)
        ∧ (∀ s : set_auto,
          property.construct R ArgumentType (.fn g) (.auto s) = none)
        ∧ property_get_only.construct R (.fn g) = none)
    ∧ (std.function_from_getter R g.return_type = true →
        (∀ s : Setter ε α κ,
          std.function_from_setter ArgumentType s.argument_type = true →
          (property.construct R ArgumentType (.fn g) (.fn s) = none ↔
            (std.is_reference_v R = true ∧ std.is_reference_v g.return_type = false)))
        ∧ (∀ s : set_auto, s.T = std.remove_cvref_t R →
          (property.construct R ArgumentType (.fn g) (.auto s) = none ↔
            (std.is_reference_v R = true ∧ std.is_reference_v g.return_type = false)))
        ∧ (property_get_only.construct R (.fn g) = none ↔
            (std.is_reference_v R = true ∧ std.is_reference_v g.return_type = false))) := by
  constructor
  · intro hR hG
    refine ⟨fun s => ?_, fun s => ?_, ?_⟩ <;>
      simp [property.construct, property_get_only.construct,
        detail.is_dangling_reference, hR, hG]
  · intro hf
    refine ⟨fun s hs => ?_, fun s hs => ?_, ?_⟩
    · simp [property.construct, detail.is_dangling_reference, hf, hs]
    · simp [property.construct, detail.is_dangling_reference, hf, hs]
    · simp [property_get_only.construct, detail.is_dangling_reference, hf]

theorem dangling_reference_rule_witness :
    property_get_only.construct test.const_double_ref
        (.fn ({ return_type := test.double, call := fun w => (.ok (.prvalue 1), w) } :
          Getter Unit Int Unit))
      = (none : Option (property_get_only Unit Int Unit)) :=
  ((dangling_reference_rule test.const_double_ref test.double
      ({ return_type := test.double, call := fun w => (.ok (.prvalue 1), w) } :
        Getter Unit Int Unit)).1 (by decide) (by decide)).2.2

/-- C17, as stated, fails: `property<double, int>` built from a callable returning
`double` and a callable taking `int` is accepted, although the getter's entity type is
`double` and the setter's is `int`. -/
theorem mismatched_entity_types_accepted :
    ¬ (∀ (ReturnType ArgumentType : CppType) (get_f : GetterArg Unit Int Unit)
        (set_f : SetterArg Unit Int Unit) (p : property Unit Int Unit),
        property.construct ReturnType ArgumentType get_f set_f = some p →
        get_f.entity_type = set_f.entity_type) := by
  intro h
  have h1 := h test.double test.int
    (.fn { return_type := test.double, call := fun w => (.ok (.prvalue (w.mem 0)), w) })
    (.fn { argument_type := test.int, call := fun a w => (.ok (), w.store 0 a) }) _ rfl
  exact absurd h1 (by decide)

/-- C17, amended.  With a direct getter and a direct setter, construction is accepted
only if both are bound to `std::remove_cvref_t<ReturnType>`, so their entity types are
equal.  In the three combinations with a callable nothing compares the two strategies:
a function getter must convert to `std::function<ReturnType()>` and pass the dangling
check, a function setter must convert to `std::function<void(ArgumentType)>`, a direct
strategy must be bound to `std::remove_cvref_t<ReturnType>`, and `ReturnType` and
`ArgumentType` are independent, so construction is accepted exactly when each strategy
meets its own requirement.  In particular, for arithmetic types `G`, `P`, `R`, `A`
chosen freely, a callable returning `G` and a callable taking `P` build a
`property<R, A>` and a `property<R>`, a callable returning `G` and a `set_auto<R>` build
a `property<R, A>`, and a `get_auto<R>` and a callable taking `P` build a
`property<const R&, A>`: the entity types of the two strategies need not be equal. -/
theorem entity_type_requirements (ReturnType ArgumentType : CppType)
    (get_a : get_auto) (set_a : set_auto) (p : property ε α κ)
    (hp : property.construct ReturnType ArgumentType (.auto get_a) (.auto set_a) = some p) :
    ((GetterArg.auto get_a : GetterArg ε α κ).entity_type
        = (SetterArg.auto set_a : SetterArg ε α κ).entity_type
      ∧ get_a.T = std.remove_cvref_t ReturnType ∧ set_a.T = std.remove_cvref_t ReturnType)
    ∧ (∀ (R A : CppType) (g : Getter ε α κ) (s : Setter ε α κ),
        (property.construct R A (.fn g) (.fn s)).isSome
          = (std.function_from_getter R g.return_type
              && std.function_from_setter A s.argument_type
              && !detail.is_dangling_reference R g.return_type))
    ∧ (∀ (R A : CppType) (g : Getter ε α κ) (s : set_auto),
        (property.construct R A (.fn g) (.auto s)).isSome
          = (decide (s.T = std.remove_cvref_t R)
              && std.function_from_getter R g.return_type
              && !detail.is_dangling_reference R g.return_type))
    ∧ (∀ (R A : CppType) (g : get_auto) (s : Setter ε α κ),
        (property.construct R A (.auto g) (.fn s) : Option (property ε α κ)).isSome
          = (decide (g.T = std.remove_cvref_t R)
              && is_const_lvalue_reference_v R
              && std.function_from_setter A s.argument_type))
    ∧ (∀ (gb pb rb ab : Nat) (g : Getter ε α κ) (s : Setter ε α κ) (e : Option Loc),
        std.is_arithmetic_base gb = true → std.is_arithmetic_base pb = true →
        std.is_arithmetic_base rb = true → std.is_arithmetic_base ab = true →
        g.return_type = .obj gb false .none → s.argument_type = .obj pb false .none →
        (property.construct (.obj rb false .none) (.obj ab false .none)
            (.fn g) (.fn s)).isSome = true
        ∧ (property.construct_same (.obj rb false .none) (.fn g) (.fn s)).isSome = true
        ∧ (property.construct (.obj rb false .none) (.obj ab false .none)
            (.fn g) (.auto ⟨.obj rb false .none, e⟩) : Option (property ε α κ)).isSome = true
        ∧ (property.construct (.obj rb true .lvalue) (.obj ab false .none)
            (.auto ⟨.obj rb false .none, e⟩) (.fn s) : Option (property ε α κ)).isSome
              = true
        ∧ (GetterArg.fn g : GetterArg ε α κ).entity_type = .obj gb false .none
        ∧ (SetterArg.fn s : SetterArg ε α κ).entity_type = .obj pb false .none) := by
  refine ⟨?_, ?_, ?_, ?_, ?_⟩
  · simp only [property.construct] at hp
    split at hp
    · rename_i hc
      simp only [Bool.and_eq_true, decide_eq_true_eq] at hc
      exact ⟨by simp [GetterArg.entity_type, SetterArg.entity_type, hc.1.1, hc.1.2],
        hc.1.1, hc.1.2⟩
    · cases hp
  · intro R A g s
    simp only [property.construct]
    split <;> simp_all
  · intro R A g s
    simp only [property.construct]
    split <;> simp_all
  · intro R A g s
    simp only [property.construct]
    split <;> simp_all
  · intro gb pb rb ab g s e hg hp1 hr ha hG hP
    have cg : std.function_from_getter (.obj rb false .none) (.obj gb false .none)
        = true := by
      by_cases h : rb = gb <;> simp [std.function_from_getter, std.is_convertible_base, h, hg, hr]
    have cs : ∀ a, std.is_arithmetic_base a = true →
        std.function_from_setter (.obj a false .none) (.obj pb false .none) = true := by
      intro a ha1
      by_cases h : a = pb <;>
        simp [std.function_from_setter, std.is_convertible_base, h, ha1, hp1]
    have nd : detail.is_dangling_reference (.obj rb false .none) (.obj gb false .none)
        = false := by
      simp [detail.is_dangling_reference, std.is_reference_v, std.is_lvalue_reference_v,
        std.is_rvalue_reference_v]
    refine ⟨?_, ?_, ?_, ?_, ?_, ?_⟩
    · simp [property.construct, hG, hP, cg, cs ab ha, nd]
    · simp [property.construct_same, property.construct, hG, hP, cg, nd,
        std.remove_cvref_t, cs rb hr]
    · simp [property.construct, hG, cg, nd, std.remove_cvref_t]
    · simp [property.construct, hP, cs ab ha, std.remove_cvref_t,
        is_const_lvalue_reference_v, std.is_const_v, std.remove_reference_t,
        std.is_lvalue_reference_v]
    · simp [GetterArg.entity_type, hG, std.remove_cvref_t]
    · simp [SetterArg.entity_type, hP, std.remove_cvref_t]

theorem entity_type_requirements_witness :
    (∃ p : property Unit Int Unit, bench.A.p_auto_auto ⟨0⟩ = some p ∧
      (GetterArg.auto (bench.A.get_auto_num ⟨0⟩) : GetterArg Unit Int Unit).entity_type
        = (SetterArg.auto (bench.A.set_auto_num ⟨0⟩) : SetterArg Unit Int Unit).entity_type)
    ∧ (property.construct_same test.double
        (.fn ({ return_type := test.double
                call := fun w => (.ok (.prvalue (w.mem 0)), w) } : Getter Unit Int Unit))
        (.fn { argument_type := test.int
               call := fun a w => (.ok (), w.store 0 a) })).isSome = true :=
  ⟨⟨_, rfl, (entity_type_requirements test.const_double_ref
      (std.remove_cvref_t test.const_double_ref) (bench.A.get_auto_num ⟨0⟩)
      (bench.A.set_auto_num ⟨0⟩) _ rfl).1.1⟩,
    ((@entity_type_requirements Unit Int Unit test.const_double_ref
      (std.remove_cvref_t test.const_double_ref) (bench.A.get_auto_num ⟨0⟩)
      (bench.A.set_auto_num ⟨0⟩) _ rfl).2.2.2.2 test.double_id test.int_id test.double_id
      test.double_id _ _ none (by decide) (by decide) (by decide) (by decide) rfl rfl).2.1⟩

/-- C18. Direct getter restriction: each constructor that takes a `get_auto` (read-write
with a direct or a function setter, get-only) accepts it only if the declared return
type is a const lvalue reference to the entity type the `get_auto` is bound to; a
by-value, mutable lvalue reference or rvalue reference return type is rejected. -/
theorem direct_getter_restriction (ReturnType ArgumentType : CppType) (g : get_auto) :
    (∀ (set_f : SetterArg ε α κ) (p : property ε α κ),
        property.construct ReturnType ArgumentType (.auto g) set_f = some p →
        is_const_lvalue_reference_v ReturnType = true
        ∧ ∃ b, ReturnType = .obj b true .lvalue ∧ g.T = .obj b false .none)
    ∧ (∀ p : property_get_only ε α κ,
        property_get_only.construct ReturnType (.auto g) = some p →
        is_const_lvalue_reference_v ReturnType = true
        ∧ ∃ b, ReturnType = .obj b true .lvalue ∧ g.T = .obj b false .none)
    ∧ (∀ (b : Nat) (c : Bool) (k : RefKind),
        ReturnType = .obj b c k → (k = .none ∨ k = .rvalue ∨ (k = .lvalue ∧ c = false)) →
        (∀ set_f : SetterArg ε α κ,
          property.construct ReturnType ArgumentType (.auto g) set_f = none)
        ∧ (property_get_only.construct ReturnType (.auto g)
            = (none : Option (property_get_only ε α κ)))) := by
  have shape : ∀ T : CppType, is_const_lvalue_reference_v T = true →
      g.T = std.remove_cvref_t T →
      ∃ b, T = .obj b true .lvalue ∧ g.T = .obj b false .none := by
    intro T hc hT
    cases T with
    | void => simp [is_const_lvalue_reference_v, std.is_lvalue_reference_v] at hc
    | obj b c k =>
      cases k <;> cases c <;>
        simp [is_const_lvalue_reference_v, std.is_lvalue_reference_v, std.is_const_v,
          std.remove_reference_t] at hc
      exact ⟨b, rfl, by simpa [std.remove_cvref_t] using hT⟩
  refine ⟨?_, ?_, ?_⟩
  · intro set_f p hp
    obtain ⟨_, h2, _, h4⟩ := property.construct_auto_getter hp
    refine ⟨h4, shape ReturnType h4 ?_⟩
    cases set_f <;>
    · simp only [property.construct] at hp
      split at hp
      · rename_i hc
        simp only [Bool.and_eq_true, decide_eq_true_eq] at hc
        simp [hc]
      · cases hp
  · intro p hp
    obtain ⟨_, h2, _, h4⟩ := property_get_only.get_only_construct_auto_getter hp
    refine ⟨h4, shape ReturnType h4 ?_⟩
    simp only [property_get_only.construct] at hp
    split at hp
    · rename_i hc
      simp only [Bool.and_eq_true, decide_eq_true_eq] at hc
      simp [hc]
    · cases hp
  · intro b c k hR hk
    subst hR
    have hn : is_const_lvalue_reference_v (.obj b c k) = false := by
      rcases hk with rfl | rfl | ⟨rfl, rfl⟩ <;>
        simp [is_const_lvalue_reference_v, std.is_lvalue_reference_v, std.is_const_v,
          std.remove_reference_t]
    refine ⟨fun set_f => ?_, ?_⟩
    · cases set_f <;> simp [property.construct, hn]
    · simp [property_get_only.construct, hn]

theorem direct_getter_restriction_witness :
    is_const_lvalue_reference_v test.const_double_ref = true
      ∧ ∃ b, test.const_double_ref = .obj b true .lvalue
        ∧ (bench.A.get_auto_num ⟨0⟩).T = .obj b false .none :=
  (@direct_getter_restriction Unit Int Unit test.const_double_ref
      (std.remove_cvref_t test.const_double_ref) (bench.A.get_auto_num ⟨0⟩)).1
    (.fn (bench.A.set_val ⟨0⟩)) _ rfl

/-- C19. Shape deduction: for a callable getter returning `R`, a callable setter taking
`A`, and `get_auto<T>` / `set_auto<T>` temporaries, `property{...}` deduces
`property<R, A>` from getter and setter, `property<const T&>` from direct getter and
direct setter, `property<R, T>` from getter and direct setter, `property<const T&, A>`
from direct getter and setter, `property<R, get_only>` from a getter alone,
`property<const T&, get_only>` from a direct getter alone, `property<A, set_only>` from a
setter alone and `property<T, set_only>` from a direct setter alone; the deduced types of
the test's declarations are the explicitly named ones. -/
theorem shape_deduction (rb : Nat) (rc : Bool) (rk : RefKind) (ab : Nat) (ac : Bool)
    (ak : RefKind) (tb : Nat) (tc : Bool) :
    deduce_property [.getter (.obj rb rc rk), .setter (.obj ab ac ak)]
        = some (.two (.obj rb rc rk) (.obj ab ac ak))
    ∧ deduce_property [.get_auto (.obj tb tc .none) true, .set_auto (.obj tb tc .none) true]
        = some (.one (.obj tb true .lvalue))
    ∧ deduce_property [.getter (.obj rb rc rk), .set_auto (.obj tb tc .none) true]
        = some (.two (.obj rb rc rk) (.obj tb tc .none))
    ∧ deduce_property [.get_auto (.obj tb tc .none) true, .setter (.obj ab ac ak)]
        = some (.two (.obj tb true .lvalue) (.obj ab ac ak))
    ∧ deduce_property [.getter (.obj rb rc rk)] = some (.get_only (.obj rb rc rk))
    ∧ deduce_property [.get_auto (.obj tb tc .none) true]
        = some (.get_only (.obj tb true .lvalue))
    ∧ deduce_property [.setter (.obj ab ac ak)] = some (.set_only (.obj ab ac ak))
    ∧ deduce_property [.set_auto (.obj tb tc .none) true]
        = some (.set_only (.obj tb tc .none))
    ∧ deduce_property [.getter test.const_double_ref, .setter test.double]
        = some (.two test.const_double_ref test.double)
    ∧ deduce_property [.getter test.double_ref, .setter test.const_double_ref]
        = some (.two test.double_ref test.const_double_ref)
    ∧ deduce_property [.getter test.const_double_ref]
        = some (.get_only test.const_double_ref)
    ∧ deduce_property [.setter test.const_double_ref]
        = some (.set_only test.const_double_ref)
    ∧ deduce_property [.get_auto test.double true, .setter test.double]
        = some (.two test.const_double_ref test.double)
    ∧ deduce_property [.get_auto test.double true, .set_auto test.double true]
        = some (.one test.const_double_ref)
    ∧ deduce_property [.getter test.const_double_ref, .set_auto test.double true]
        = some (.two test.const_double_ref test.double)
    ∧ deduce_property [.get_auto test.double true]
        = some (.get_only test.const_double_ref)
    ∧ deduce_property [.set_auto test.double true] = some (.set_only test.double) := by
  refine ⟨?_, ?_, ?_, ?_, ?_, ?_, ?_, ?_, ?_, ?_, ?_, ?_, ?_, ?_, ?_, ?_, ?_⟩ <;>
    simp [deduce_property, deduction_candidates, Guide.all, Guide.deduce,
      Initializer.getter, Initializer.setter, detail.getter_return_type,
      detail.setter_argument_type, detail.getter_function, detail.setter_function,
      std.same_as, const_lvalue_reference_to, test.const_double_ref, test.double,
      test.double_ref, List.filterMap]

/-- C20. Self-storage read and write: for a self-storage accessor constructed with an
initial value, a read returns that value; every assignment the class accepts succeeds,
its result is the right-hand operand and denotes the value assigned, and the read that
follows returns that value.  For a value (non-reference) entity type that is not `const`
the assignment is accepted for every right-hand operand. -/
theorem self_storage_read_write (EntityType : CppType) (self : Loc) (init : Res α)
    (w w0 : World α κ) (a : auto_property)
    (h : auto_property.construct EntityType self init w = some (a, w0)) :
    (∃ r, detail.property_base.operator_call (a.get : Eff ε α κ (Res α)) w0 = (.ok r, w0)
        ∧ r.load w0 = init.load w)
    ∧ (∀ (value : Res α) (w1 : World α κ), a.assign_requires value = true →
        ∃ w2, (a.operator_assign value : Eff ε α κ (Res α)) w1 = (.ok value, w2)
          ∧ value.load w2 = value.load w1
          ∧ ∃ r, detail.property_base.operator_call (a.get : Eff ε α κ (Res α)) w2
              = (.ok r, w2)
            ∧ r.load w2 = value.load w1)
    ∧ (std.is_reference_v EntityType = false → std.is_const_v EntityType = false →
        ∀ value : Res α, a.assign_requires value = true) := by
  refine ⟨?_, ?_, ?_⟩
  · refine ⟨.lvalue a.entity_, rfl, ?_⟩
    simp only [auto_property.construct] at h
    split at h
    · cases h
    · split at h
      · cases h
      · split at h
        · cases init with
          | prvalue v => cases h
          | lvalue l =>
            simp only [Option.some.injEq, Prod.mk.injEq] at h
            obtain ⟨rfl, rfl⟩ := h
            rfl
        · simp only [Option.some.injEq, Prod.mk.injEq] at h
          obtain ⟨rfl, rfl⟩ := h
          simp [Res.load_lvalue, World.store_mem_same]
  · intro value w1 _
    refine ⟨w1.store a.entity_ (value.load w1), rfl,
      Res.load_store_self w1 a.entity_ value, .lvalue a.entity_, rfl, ?_⟩
    simp [Res.load_lvalue, World.store_mem_same]
  · intro hE hC value
    obtain ⟨_, het, _⟩ := auto_property.construct_value hE h
    exact auto_property.assign_requires_value (het ▸ hE) (het ▸ hC) value

theorem self_storage_read_write_witness :
    ∃ (a : auto_property) (w0 : World Int Unit),
      auto_property.construct test.double 7 (.prvalue 10) ⟨fun _ => 0, ()⟩ = some (a, w0) ∧
      (∃ r, detail.property_base.operator_call (a.get : Eff Unit Int Unit (Res Int)) w0
          = (.ok r, w0) ∧ r.load w0 = 10) ∧
      ∃ w2, (a.operator_assign (.prvalue 3) : Eff Unit Int Unit (Res Int)) w0
          = (.ok (.prvalue 3), w2)
        ∧ (Res.prvalue 3 : Res Int).load w2 = 3
        ∧ ∃ r, detail.property_base.operator_call (a.get : Eff Unit Int Unit (Res Int)) w2
            = (.ok r, w2)
          ∧ r.load w2 = 3 :=
  ⟨_, _, rfl, (self_storage_read_write test.double 7 (.prvalue 10) ⟨fun _ => 0, ()⟩
      _ _ rfl).1,
    (self_storage_read_write test.double 7 (.prvalue 10) ⟨fun _ => 0, ()⟩
      _ _ rfl).2.1 (.prvalue 3) _ rfl⟩

/-- C21. Self-storage independence: let two self-storage accessors that own their value
(value entity types that are not `const`) be constructed at distinct addresses from the same initial value.
Then both read that value, and an assignment of any value to either one succeeds and
leaves a read of the other equal to the initial value. -/
theorem self_storage_independence (E1 E2 : CppType) (self1 self2 : Loc)
    (init1 init2 : Res α) (w w1 w2 : World α κ) (a b : auto_property)
    (h1 : std.is_reference_v E1 = false) (h2 : std.is_reference_v E2 = false)
    (c1 : std.is_const_v E1 = false) (c2 : std.is_const_v E2 = false)
    (hself : self1 ≠ self2)
    (ha : auto_property.construct E1 self1 init1 w = some (a, w1))
    (hb : auto_property.construct E2 self2 init2 w1 = some (b, w2))
    (hinit : init2.load w1 = init1.load w) :
    (∃ r, (a.get : Eff ε α κ (Res α)) w2 = (.ok r, w2) ∧ r.load w2 = init1.load w)
    ∧ (∃ r, (b.get : Eff ε α κ (Res α)) w2 = (.ok r, w2) ∧ r.load w2 = init1.load w)
    ∧ (∀ value : Res α, a.assign_requires value = true ∧
        ∃ w3, (a.operator_assign value : Eff ε α κ (Res α)) w2 = (.ok value, w3)
          ∧ ∃ r, (b.get : Eff ε α κ (Res α)) w3 = (.ok r, w3) ∧ r.load w3 = init1.load w)
    ∧ (∀ value : Res α, b.assign_requires value = true ∧
        ∃ w3, (b.operator_assign value : Eff ε α κ (Res α)) w2 = (.ok value, w3)
          ∧ ∃ r, (a.get : Eff ε α κ (Res α)) w3 = (.ok r, w3)
            ∧ r.load w3 = init1.load w) := by
  obtain ⟨ea, eta, rfl⟩ := auto_property.construct_value h1 ha
  obtain ⟨eb, etb, rfl⟩ := auto_property.construct_value h2 hb
  have hne : self2 ≠ self1 := fun h => hself h.symm
  refine ⟨⟨.lvalue a.entity_, rfl, ?_⟩, ⟨.lvalue b.entity_, rfl, ?_⟩, ?_, ?_⟩
  · rw [Res.load_lvalue, ea, World.store_mem_other _ _ _ _ hself, World.store_mem_same]
  · rw [Res.load_lvalue, eb, World.store_mem_same, hinit]
  · intro value
    refine ⟨auto_property.assign_requires_value (eta ▸ h1) (eta ▸ c1) value,
      _, rfl, .lvalue b.entity_, rfl, ?_⟩
    rw [Res.load_lvalue, ea, eb, World.store_mem_other _ _ _ _ hne, World.store_mem_same,
      hinit]
  · intro value
    refine ⟨auto_property.assign_requires_value (etb ▸ h2) (etb ▸ c2) value,
      _, rfl, .lvalue a.entity_, rfl, ?_⟩
    rw [Res.load_lvalue, ea, eb, World.store_mem_other _ _ _ _ hself,
      World.store_mem_other _ _ _ _ hself, World.store_mem_same]

theorem self_storage_independence_witness :
    ∃ (a b : auto_property) (w1 w2 : World Int Unit),
      auto_property.construct test.double 1 (.prvalue 10) ⟨fun _ => 0, ()⟩ = some (a, w1)
      ∧ auto_property.construct test.double 2 (.prvalue 10) w1 = some (b, w2)
      ∧ ∃ w3, (a.operator_assign (.prvalue 5) : Eff Unit Int Unit (Res Int)) w2
          = (.ok (.prvalue 5), w3)
        ∧ ∃ r, (b.get : Eff Unit Int Unit (Res Int)) w3 = (.ok r, w3) ∧ r.load w3 = 10 :=
  ⟨_, _, _, _, rfl, rfl,
    ((self_storage_independence test.double test.double 1 2 (.prvalue 10) (.prvalue 10)
      ⟨fun _ => 0, ()⟩ _ _ _ _ (by decide) (by decide) (by decide) (by decide) (by decide)
      rfl rfl rfl).2.2.1
      (.prvalue 5)).2⟩

/-- C22, evaluated on `auto_property<EntityType>`.  The read-write self-storage class
passes a non-void return type and argument type to `property_base`, so both capability
flags are set and the `requires` clause of every operator holds as soon as the wrapped
expression it tests is valid.  The bodies of the reading operators compile for it; the
bodies of `++`, `--` (both forms) and of every compound assignment do not, because they
are `const` members that reach `derived().set(...)` through `operator=(U&&) const` while
`auto_property::set` is not `const`.  Plain assignment compiles through the non-const
overload.  For `property`, whose `set` is `const`, every body compiles. -/
theorem self_storage_mutating_operators_ill_formed (b : Nat) (c : Bool) (k : RefKind)
    (valid : ValueExpr → Bool) (op : MemberOp) :
    detail.property_base.has_getter (SelfStorage.read_write.base_ReturnType (.obj b c k))
        = true
    ∧ detail.property_base.has_setter
        (SelfStorage.read_write.base_ArgumentType (.obj b c k)) = true
    ∧ detail.property_base.requires_clause
          (SelfStorage.read_write.base_ReturnType (.obj b c k))
          (SelfStorage.read_write.base_ArgumentType (.obj b c k)) valid op
        = (match op.tested_expression with
           | some e => valid e
           | none => true)
    ∧ detail.property_base.body_well_formed SelfStorage.read_write.derived.get_member
          SelfStorage.read_write.derived.set_member op
        = (op.is_reading && !op.is_mutating)
    ∧ detail.property_base.mutable_assign_well_formed
        SelfStorage.read_write.derived.set_member = true
    ∧ detail.property_base.body_well_formed Variant.read_write.derived.get_member
          Variant.read_write.derived.set_member op = true
    ∧ detail.property_base.requires_clause
          (SelfStorage.read_write.base_ReturnType test.double)
          (SelfStorage.read_write.base_ArgumentType test.double) (fun _ => true) .pre_inc
        = true
    ∧ detail.property_base.body_well_formed DerivedClass.auto_property.get_member
          DerivedClass.auto_property.set_member .pre_inc = false := by
  have hg : detail.property_base.has_getter
      (SelfStorage.read_write.base_ReturnType (.obj b c k)) = true := by
    cases k <;>
      simp [detail.property_base.has_getter, SelfStorage.base_ReturnType,
        const_lvalue_reference, const_lvalue_reference_to, std.remove_cvref_t, std.same_as]
  have hs : detail.property_base.has_setter
      (SelfStorage.read_write.base_ArgumentType (.obj b c k)) = true := by
    simp [detail.property_base.has_setter, SelfStorage.base_ArgumentType,
      std.remove_cvref_t, std.same_as]
  refine ⟨hg, hs, ?_, ?_, rfl, ?_, by decide, by decide⟩
  · cases op <;>
      simp [detail.property_base.requires_clause, MemberOp.tested_expression, hg, hs]
  · cases op <;> rfl
  · cases op <;> rfl

/-- C23, evaluated on `auto_property<EntityType>`.  Copy-initialisation
`auto_property<E> y = x;` and direct-initialisation from a const object select the copy
constructor, which is deleted: there is no copy.  Direct-initialisation from a non-const
lvalue selects the forwarding constructor, and copy assignment is user-provided; for
accessors `a` and `b` that own their values (value entity types that are not `const`) in
distinct cells these two make the target read `b`'s value, leave `b` reading its value,
and a later assignment of any value to either one leaves a read of the other
unchanged. -/
theorem self_storage_copy (self : Loc) (a b : auto_property) (w : World α κ)
    (ha : std.is_reference_v a.EntityType = false)
    (hb : std.is_reference_v b.EntityType = false)
    (hca : std.is_const_v a.EntityType = false)
    (hcb : std.is_const_v b.EntityType = false)
    (hv : b.EntityType ≠ .void)
    (hself : self ≠ b.entity_) (hab : a.entity_ ≠ b.entity_) :
    (∀ source_is_const : Bool,
        auto_property.copy_construct .copy source_is_const self b w = none)
    ∧ auto_property.copy_construct .direct true self b w = none
    ∧ auto_property.copy_candidate .copy false = .deleted_copy_constructor
    ∧ auto_property.copy_candidate .copy true = .deleted_copy_constructor
    ∧ auto_property.copy_candidate .direct true = .deleted_copy_constructor
    ∧ auto_property.copy_candidate .direct false = .forwarding_constructor
    ∧ (∃ (c : auto_property) (w1 : World α κ),
        auto_property.copy_construct .direct false self b w = some (c, w1)
        ∧ c.EntityType = b.EntityType
        ∧ (∃ r, (c.get : Eff ε α κ (Res α)) w1 = (.ok r, w1)
            ∧ r.load w1 = w.mem b.entity_)
        ∧ (∃ r, (b.get : Eff ε α κ (Res α)) w1 = (.ok r, w1)
            ∧ r.load w1 = w.mem b.entity_)
        ∧ (∀ value : Res α, c.assign_requires value = true ∧
            ∃ w2, (c.operator_assign value : Eff ε α κ (Res α)) w1 = (.ok value, w2)
              ∧ ∃ r, (b.get : Eff ε α κ (Res α)) w2 = (.ok r, w2)
                ∧ r.load w2 = w.mem b.entity_)
        ∧ (∀ value : Res α, b.assign_requires value = true ∧
            ∃ w2, (b.operator_assign value : Eff ε α κ (Res α)) w1 = (.ok value, w2)
              ∧ ∃ r, (c.get : Eff ε α κ (Res α)) w2 = (.ok r, w2)
                ∧ r.load w2 = w.mem b.entity_))
    ∧ (∃ w1 : World α κ,
        (a.copy_assign b : Eff ε α κ auto_property) w = (.ok a, w1)
        ∧ (∃ r, (a.get : Eff ε α κ (Res α)) w1 = (.ok r, w1)
            ∧ r.load w1 = w.mem b.entity_)
        ∧ (∃ r, (b.get : Eff ε α κ (Res α)) w1 = (.ok r, w1)
            ∧ r.load w1 = w.mem b.entity_)
        ∧ (∀ value : Res α, a.assign_requires value = true ∧
            ∃ w2, (a.operator_assign value : Eff ε α κ (Res α)) w1 = (.ok value, w2)
              ∧ ∃ r, (b.get : Eff ε α κ (Res α)) w2 = (.ok r, w2)
                ∧ r.load w2 = w.mem b.entity_)
        ∧ (∀ value : Res α, b.assign_requires value = true ∧
            ∃ w2, (b.operator_assign value : Eff ε α κ (Res α)) w1 = (.ok value, w2)
              ∧ ∃ r, (a.get : Eff ε α κ (Res α)) w2 = (.ok r, w2)
                ∧ r.load w2 = w.mem b.entity_)) := by
  have hbs : b.entity_ ≠ self := fun h => hself h.symm
  have hba : b.entity_ ≠ a.entity_ := fun h => hab h.symm
  have hra : ∀ value : Res α, a.assign_requires value = true :=
    auto_property.assign_requires_value ha hca
  have hrb : ∀ value : Res α, b.assign_requires value = true :=
    auto_property.assign_requires_value hb hcb
  refine ⟨fun c => by cases c <;> rfl, rfl, rfl, rfl, rfl, rfl, ?_, ?_⟩
  · have hl : std.is_lvalue_reference_v b.EntityType = false := by
      simp only [std.is_reference_v, Bool.or_eq_false_iff] at hb
      exact hb.1
    have hr : std.is_rvalue_reference_v b.EntityType = false := by
      simp only [std.is_reference_v, Bool.or_eq_false_iff] at hb
      exact hb.2
    have hs : std.same_as .void b.EntityType = false := by
      simp only [std.same_as, decide_eq_false_iff_not]
      exact fun h => hv h.symm
    have hc : auto_property.copy_construct .direct false self b w
        = some (⟨b.EntityType, self⟩, w.store self (w.mem b.entity_)) := by
      simp [auto_property.copy_construct, auto_property.copy_candidate,
        detail.property_base.operator_ReturnType,
        auto_property.get, auto_property.construct, auto_property.forward_requires,
        hl, hr, hs, hb, Res.load_lvalue]
    refine ⟨_, _, hc, rfl, ⟨.lvalue self, rfl, ?_⟩, ⟨.lvalue b.entity_, rfl, ?_⟩, ?_, ?_⟩
    · rw [Res.load_lvalue, World.store_mem_same]
    · rw [Res.load_lvalue, World.store_mem_other _ _ _ _ hbs]
    · intro value
      refine ⟨@auto_property.assign_requires_value α ⟨b.EntityType, self⟩ hb hcb value,
        _, rfl, .lvalue b.entity_, rfl, ?_⟩
      rw [Res.load_lvalue]
      show (World.store _ self _).mem b.entity_ = _
      rw [World.store_mem_other _ _ _ _ hbs, World.store_mem_other _ _ _ _ hbs]
    · intro value
      refine ⟨hrb value, _, rfl, .lvalue self, rfl, ?_⟩
      rw [Res.load_lvalue]
      show (World.store _ b.entity_ _).mem self = _
      rw [World.store_mem_other _ _ _ _ hself, World.store_mem_same]
  · refine ⟨_, rfl, ⟨.lvalue a.entity_, rfl, ?_⟩, ⟨.lvalue b.entity_, rfl, ?_⟩, ?_, ?_⟩
    · rw [Res.load_lvalue, World.store_mem_same]
    · rw [Res.load_lvalue, World.store_mem_other _ _ _ _ hba]
    · intro value
      refine ⟨hra value, _, rfl, .lvalue b.entity_, rfl, ?_⟩
      rw [Res.load_lvalue]
      show (World.store _ a.entity_ _).mem b.entity_ = _
      rw [World.store_mem_other _ _ _ _ hba, World.store_mem_other _ _ _ _ hba]
    · intro value
      refine ⟨hrb value, _, rfl, .lvalue a.entity_, rfl, ?_⟩
      rw [Res.load_lvalue]
      show (World.store _ b.entity_ _).mem a.entity_ = _
      rw [World.store_mem_other _ _ _ _ hab, World.store_mem_same]

theorem self_storage_copy_witness :
    auto_property.copy_construct .copy false 3 ⟨test.double, 2⟩
        (⟨fun l => if l = 2 then 7 else 0, ()⟩ : World Int Unit) = none
    ∧ auto_property.copy_construct .direct true 3 ⟨test.double, 2⟩
        (⟨fun l => if l = 2 then 7 else 0, ()⟩ : World Int Unit) = none
    ∧ ∃ (c : auto_property) (w1 : World Int Unit),
      auto_property.copy_construct .direct false 3 ⟨test.double, 2⟩
          ⟨fun l => if l = 2 then 7 else 0, ()⟩
        = some (c, w1)
      ∧ c.EntityType = test.double
      ∧ ∃ r, (c.get : Eff Unit Int Unit (Res Int)) w1 = (.ok r, w1) ∧ r.load w1 = 7 :=
  have h := @self_storage_copy Unit Int Unit 3 ⟨test.double, 1⟩ ⟨test.double, 2⟩
    ⟨fun l => if l = 2 then 7 else 0, ()⟩ (by decide) (by decide) (by decide) (by decide)
    (by decide) (by decide) (by decide)
  let ⟨c, w1, hc, he, hr, _⟩ := h.2.2.2.2.2.2.1
  ⟨h.1 false, h.2.1, c, w1, hc, he, hr⟩

/-- C24. Slot invariant.  Every accessor produced by a constructor of `property`
(one- and two-parameter forms), `property<ReturnType, get_only>` or
`property<ArgumentType, set_only>` has at most one of `getter_`, `auto_getter_`
populated and at most one of `setter_`, `auto_setter_` populated; the populated one is
the one named by the shape of the constructor argument.  Afterwards, with the `mutable`
members `auto_getter_` and `auto_setter_` kept in the program state (`members` reads
them; the user's callables cannot reach these private members, so they preserve them),
every operation preserves them: read, write, assignment from a value or from an
accessor, `++` and `--` in both forms, and compound assignment with a value or an
accessor as right operand.  The populated slots after any of these operations are
therefore the populated slots before it, and as long as the state holds the members the
constructor stored, the members read from the state are those of the object. -/
theorem slot_invariant (ReturnType ArgumentType : CppType) (g : GetterArg ε α κ)
    (s : SetterArg ε α κ) (members : κ → MutableMembers)
    (hg : g.preserves members) (hs : s.preserves members) :
    (∀ p, property.construct ReturnType ArgumentType g s = some p →
        ((p.populated p.mutable_members).getter_
            && (p.populated p.mutable_members).auto_getter_) = false
        ∧ ((p.populated p.mutable_members).setter_
            && (p.populated p.mutable_members).auto_setter_) = false
        ∧ (∀ f, g = .fn f → p.getter_.isSome = true ∧ p.auto_getter_.entity_ = none)
        ∧ (∀ d, g = .auto d → p.getter_.isSome = false ∧ p.auto_getter_ = d)
        ∧ (∀ f, s = .fn f → p.setter_.isSome = true ∧ p.auto_setter_.entity_ = none)
        ∧ (∀ d, s = .auto d → p.setter_.isSome = false ∧ p.auto_setter_ = d)
        ∧ (∀ w, members w.env = p.mutable_members →
            p.get_in members w = p.get w ∧ ∀ v, p.set_in members v w = p.set v w)
        ∧ Eff.preserves members (p.get_in members)
        ∧ (∀ v, Eff.preserves members (p.set_in members v))
        ∧ (∀ v, Eff.preserves members
            (detail.property_base.operator_assign (p.set_in members) v))
        ∧ (∀ right : Eff ε α κ (Res α), Eff.preserves members right →
            Eff.preserves members
              (property.operator_assign_property_in (p.set_in members) right))
        ∧ (∀ (π : Type) (step : α → π) (convert : π → α),
            Eff.preserves members (detail.property_base.operator_post_inc step convert
              (p.get_in members) (p.set_in members))
            ∧ Eff.preserves members (detail.property_base.operator_post_dec step convert
              (p.get_in members) (p.set_in members))
            ∧ Eff.preserves members (detail.property_base.operator_pre_inc step convert
              (p.get_in members) (p.set_in members))
            ∧ Eff.preserves members (detail.property_base.operator_pre_dec step convert
              (p.get_in members) (p.set_in members)))
        ∧ (∀ (β π : Type) (plain : BinOp → α → β → π) (convert : π → α)
              (c : CompoundOp) (k : β),
            Eff.preserves members (detail.property_base.operator_compound plain convert c
              (p.get_in members) (p.set_in members) k))
        ∧ (∀ (π : Type) (plain : BinOp → α → α → π) (convert : π → α) (c : CompoundOp)
              (t1_first : Bool) (right : Eff ε α κ (Res α)),
            Eff.preserves members right →
            Eff.preserves members (detail.property_base.operator_compound_property plain
              convert c t1_first (p.get_in members) (p.set_in members) right))
        ∧ (∀ (ρ : Type) (e : Eff ε α κ ρ), Eff.preserves members e →
            ∀ w, p.populated (members (e w).2.env) = p.populated (members w.env)))
    ∧ (∀ p, property.construct_same ReturnType g s = some p →
        ((p.populated p.mutable_members).getter_
            && (p.populated p.mutable_members).auto_getter_) = false
        ∧ ((p.populated p.mutable_members).setter_
            && (p.populated p.mutable_members).auto_setter_) = false)
    ∧ (∀ p, property_get_only.construct ReturnType g = some p →
        ((p.populated p.mutable_members).getter_
            && (p.populated p.mutable_members).auto_getter_) = false
        ∧ (∀ f, g = .fn f → p.getter_.isSome = true ∧ p.auto_getter_.entity_ = none)
        ∧ (∀ d, g = .auto d → p.getter_.isSome = false ∧ p.auto_getter_ = d)
        ∧ (∀ w, members w.env = p.mutable_members → p.get_in members w = p.get w)
        ∧ Eff.preserves members (p.get_in members)
        ∧ (∀ (ρ : Type) (e : Eff ε α κ ρ), Eff.preserves members e →
            ∀ w, p.populated (members (e w).2.env) = p.populated (members w.env)))
    ∧ (∀ p, property_set_only.construct ArgumentType s = some p →
        ((p.populated p.mutable_members).setter_
            && (p.populated p.mutable_members).auto_setter_) = false
        ∧ (∀ f, s = .fn f → p.setter_.isSome = true ∧ p.auto_setter_.entity_ = none)
        ∧ (∀ d, s = .auto d → p.setter_.isSome = false ∧ p.auto_setter_ = d)
        ∧ (∀ w, members w.env = p.mutable_members →
            ∀ v, p.set_in members v w = p.set v w)
        ∧ (∀ v, Eff.preserves members (p.set_in members v))
        ∧ (∀ v, Eff.preserves members
            (detail.property_base.operator_assign (p.set_in members) v))
        ∧ (∀ right : Eff ε α κ (Res α), Eff.preserves members right →
            Eff.preserves members
              (property.operator_assign_property_in (p.set_in members) right))
        ∧ (∀ (ρ : Type) (e : Eff ε α κ ρ), Eff.preserves members e →
            ∀ w, p.populated (members (e w).2.env) = p.populated (members w.env))) := by
  have key : ∀ (R A : CppType) (p : property ε α κ),
      property.construct R A g s = some p →
        ((p.populated p.mutable_members).getter_
            && (p.populated p.mutable_members).auto_getter_) = false
        ∧ ((p.populated p.mutable_members).setter_
            && (p.populated p.mutable_members).auto_setter_) = false
        ∧ (∀ f, g = .fn f → p.getter_.isSome = true ∧ p.auto_getter_.entity_ = none)
        ∧ (∀ d, g = .auto d → p.getter_.isSome = false ∧ p.auto_getter_ = d)
        ∧ (∀ f, s = .fn f → p.setter_.isSome = true ∧ p.auto_setter_.entity_ = none)
        ∧ (∀ d, s = .auto d → p.setter_.isSome = false ∧ p.auto_setter_ = d) := by
    intro R A p h
    cases g <;> cases s <;>
      · simp only [property.construct] at h
        split at h
        · simp only [Option.some.injEq] at h
          subst h
          simp [property.populated, property.mutable_members]
        · cases h
  refine ⟨fun p h => ?_, fun p h => ?_, fun p h => ?_, fun p h => ?_⟩
  · obtain ⟨k1, k2, k3, k4, k5, k6⟩ := key _ _ p h
    have pg := property.get_in_preserves members h hg
    have ps := property.set_in_preserves members h hs
    obtain ⟨m1, m2, m3, m4⟩ := detail.property_base.mutating_operators_preserve pg ps
    refine ⟨k1, k2, k3, k4, k5, k6, ?_, pg, ps,
      fun v => detail.property_base.operator_assign_preserves ps v, m1, m2, m3, m4, ?_⟩
    · intro w hw
      constructor
      · simp only [property.get_in, property.get, hw, property.mutable_members]
      · intro v
        simp only [property.set_in, property.set, hw, property.mutable_members]
    · intro ρ e he w
      rw [he w]
  · have hk := key _ _ p h
    exact ⟨hk.1, hk.2.1⟩
  · have pg := property_get_only.get_only_get_in_preserves members h hg
    refine ⟨?_, ?_, ?_, ?_, pg, ?_⟩
    · cases g <;>
        · simp only [property_get_only.construct] at h
          split at h
          · simp only [Option.some.injEq] at h
            subst h
            simp [property_get_only.populated, property_get_only.mutable_members]
          · cases h
    · intro f hf
      subst hf
      simp only [property_get_only.construct] at h
      split at h
      · simp only [Option.some.injEq] at h
        subst h
        simp
      · cases h
    · intro d hd
      subst hd
      simp only [property_get_only.construct] at h
      split at h
      · simp only [Option.some.injEq] at h
        subst h
        simp
      · cases h
    · intro w hw
      simp only [property_get_only.get_in, property_get_only.get, hw,
        property_get_only.mutable_members]
    · intro ρ e he w
      rw [he w]
  · have ps := property_set_only.set_only_set_in_preserves members h hs
    refine ⟨?_, ?_, ?_, ?_, ps,
      fun v => detail.property_base.operator_assign_preserves ps v,
      fun right hr => property.operator_assign_property_in_preserves ps right hr, ?_⟩
    · cases s <;>
        · simp only [property_set_only.construct] at h
          split at h
          · simp only [Option.some.injEq] at h
            subst h
            simp [property_set_only.populated, property_set_only.mutable_members]
          · cases h
    · intro f hf
      subst hf
      simp only [property_set_only.construct] at h
      split at h
      · simp only [Option.some.injEq] at h
        subst h
        simp
      · cases h
    · intro d hd
      subst hd
      simp only [property_set_only.construct] at h
      split at h
      · simp only [Option.some.injEq] at h
        subst h
        simp
      · cases h
    · intro w hw v
      simp only [property_set_only.set_in, property_set_only.set, hw,
        property_set_only.mutable_members]
    · intro ρ e he w
      rw [he w]

theorem slot_invariant_witness :
    ∃ p : property Unit Int MutableMembers, bench.A.p_auto_fn ⟨0⟩ = some p
      ∧ ((p.populated p.mutable_members).getter_
          && (p.populated p.mutable_members).auto_getter_) = false
      ∧ ((p.populated p.mutable_members).setter_
          && (p.populated p.mutable_members).auto_setter_) = false
      ∧ ∀ w : World Int MutableMembers,
          (detail.property_base.operator_pre_inc (fun x : Int => x + 1) id
            (p.get_in id) (p.set_in id) w).2.env = w.env :=
  have h := (slot_invariant test.const_double_ref test.double
      (.auto (bench.A.get_auto_num ⟨0⟩))
      (.fn (bench.A.set_val ⟨0⟩ : Setter Unit Int MutableMembers)) id trivial
      (fun _ _ => rfl)).1 _ rfl
  ⟨_, rfl, h.1, h.2.1,
    (h.2.2.2.2.2.2.2.2.2.2.2.1 Int (fun x : Int => x + 1) id).2.2.1⟩

/-- C25. Strategy call counts for assignment.  Let `a` (read-write) and `aw` (write-only)
be built from a setter strategy that logs `setter j`, and `b` (read-write) and `br`
(read-only) from a getter strategy that logs `getter k`.  An assignment from `b` or `br`
to `a` or `aw` appends to the log one invocation of the right operand's getter and then,
when that getter returned, one invocation of the left operand's setter, and nothing
else; when the getter failed the setter is not invoked.  An assignment from a plain value
appends one invocation of the setter only.  No getter other than the right operand's is
logged, so the left operand's own getter is not invoked. -/
theorem assignment_call_counts (log : κ → List Event)
    (RTa ATa RTb ATb : CppType) (ga gb : GetterArg ε α κ) (sa sb : SetterArg ε α κ)
    (j k : Nat) (a b : property ε α κ) (aw : property_set_only ε α κ)
    (br : property_get_only ε α κ)
    (ha : property.construct RTa ATa ga sa = some a)
    (haw : property_set_only.construct ATa sa = some aw)
    (hb : property.construct RTb ATb gb sb = some b)
    (hbr : property_get_only.construct RTb gb = some br)
    (hsa : sa.instrumented log j) (hgb : gb.instrumented log k) (w : World α κ) :
    log (a.operator_assign_property (detail.property_base.operator_call b.get) w).2.env
        = log w.env ++ gb.invocation k ++
          (match (b.get w).1 with
           | .ok _ => sa.invocation j
           | .error _ => [])
    ∧ log (a.operator_assign_property (detail.property_base.operator_call br.get) w).2.env
        = log w.env ++ gb.invocation k ++
          (match (br.get w).1 with
           | .ok _ => sa.invocation j
           | .error _ => [])
    ∧ log (aw.operator_assign_property (detail.property_base.operator_call b.get) w).2.env
        = log w.env ++ gb.invocation k ++
          (match (b.get w).1 with
           | .ok _ => sa.invocation j
           | .error _ => [])
    ∧ log (aw.operator_assign_property
          (detail.property_base.operator_call br.get) w).2.env
        = log w.env ++ gb.invocation k ++
          (match (br.get w).1 with
           | .ok _ => sa.invocation j
           | .error _ => [])
    ∧ (∀ value : Res α,
        log (a.operator_assign value w).2.env = log w.env ++ sa.invocation j)
    ∧ (∀ value : Res α,
        log (aw.operator_assign value w).2.env = log w.env ++ sa.invocation j)
    ∧ (∀ i, i ≠ k → Event.getter i ∉ gb.invocation k ++ sa.invocation j) := by
  have key : ∀ (get : Eff ε α κ (Res α)) (set : Res α → Act ε α κ) (w2 : World α κ),
      Eff.records log (gb.invocation k) get →
      (∀ v, Eff.records log (sa.invocation j) (set v)) →
      w2 = (match detail.property_base.operator_call get w with
            | (.error f, w1) => ((.error f : Except (Fault ε) (Res α)), w1)
            | (.ok r, w1) => detail.property_base.operator_assign set r w1).2 →
      log w2.env = log w.env ++ gb.invocation k ++
          (match (get w).1 with
           | .ok _ => sa.invocation j
           | .error _ => []) := by
    intro get set w2 hg hs h
    refine Eff.records_get_then_set hg hs w w2 ?_
    simp only [detail.property_base.operator_call] at h
    rcases hgw : get w with ⟨_ | r, w1⟩
    · rw [hgw] at h
      exact h
    · rw [hgw] at h
      exact ⟨r, h.trans (detail.property_base.operator_assign_state set r w1)⟩
  refine ⟨key b.get a.set _ (property.get_records hb hgb) (property.set_records ha hsa) rfl,
    key br.get a.set _ (property_get_only.get_only_get_records hbr hgb)
      (property.set_records ha hsa) rfl,
    key b.get aw.set _ (property.get_records hb hgb)
      (property_set_only.set_only_set_records haw hsa) rfl,
    key br.get aw.set _ (property_get_only.get_only_get_records hbr hgb)
      (property_set_only.set_only_set_records haw hsa) rfl, ?_, ?_, ?_⟩
  · intro value
    simp only [property.operator_assign]
    rw [detail.property_base.operator_assign_state]
    exact property.set_records ha hsa value w
  · intro value
    simp only [property_set_only.operator_assign]
    rw [detail.property_base.operator_assign_state]
    exact property_set_only.set_only_set_records haw hsa value w
  · intro i hi
    cases gb <;> cases sa <;> simp [GetterArg.invocation, SetterArg.invocation, hi]

theorem assignment_call_counts_witness :
    ∃ a b : property Unit Int (List Event),
      sample.logging 1 10 = some a ∧ sample.logging 2 20 = some b
      ∧ (a.operator_assign_property (detail.property_base.operator_call b.get)
          ⟨fun _ => 0, []⟩).2.env = [.getter 2, .setter 1] :=
  ⟨_, _, rfl, rfl,
    (assignment_call_counts id test.const_double_ref test.double test.const_double_ref
      test.double (.fn (sample.logging_getter 1 10)) (.fn (sample.logging_getter 2 20))
      (.fn (sample.logging_setter 1 10)) (.fn (sample.logging_setter 2 20)) 1 2 _ _
      ⟨test.double, some (sample.logging_setter 1 10).call, ⟨test.double, none⟩⟩
      ⟨test.const_double_ref,
        some (std.function_of_getter test.const_double_ref (sample.logging_getter 2 20)),
        ⟨test.double, none⟩⟩
      rfl rfl rfl rfl (fun _ _ => rfl) (fun _ => rfl) ⟨fun _ => 0, []⟩).1⟩

/-- C26, as stated, fails: for the accessor built from the logging getter and setter
number 1, the compound assignment `a += a` invokes the getter twice (once for the left
operand, once for the right operand) before it invokes the setter. -/
theorem compound_with_itself_reads_twice :
    ¬ (∀ (a : property Unit Int (List Event)) (w : World Int (List Event)),
        sample.logging 1 10 = some a →
        (detail.property_base.operator_compound_property test.arithmetic id .add_assign
            true a.get a.set (detail.property_base.operator_call a.get) w).2.env
          = w.env ++ [.getter 1, .setter 1]) := by
  intro h
  have h1 := h _ ⟨fun _ => 0, []⟩ rfl
  revert h1
  decide

/-- C26, amended.  Let the read-write accessor `a` be built from a getter strategy that
logs `getter i` and a setter strategy that logs `setter j`.  Each of `a++`, `a--`,
`++a`, `--a` and every compound assignment `a op= k` with a right operand that is not an
accessor appends to the log one invocation of the getter and then, when the getter
returned, one invocation of the setter, and nothing else; when the getter failed the
operator fails with the same failure and the setter is not invoked.  When the right
operand is an accessor whose read logs `evb`, the compound assignment appends the
invocation of `a`'s getter, then, when it returned, `evb`, then, when that read returned
too, the invocation of the setter; for `a op= a` the getter is therefore invoked twice. -/
theorem mutating_operator_call_counts {β π : Type} (log : κ → List Event)
    (ReturnType ArgumentType : CppType) (ga : GetterArg ε α κ) (sa : SetterArg ε α κ)
    (i j : Nat) (a : property ε α κ)
    (ha : property.construct ReturnType ArgumentType ga sa = some a)
    (hga : ga.instrumented log i) (hsa : sa.instrumented log j)
    (plus_one minus_one : α → π) (plain : BinOp → α → β → π)
    (plain2 : BinOp → α → α → π) (convert : π → α) (w : World α κ) :
    log (detail.property_base.operator_post_inc plus_one convert a.get a.set w).2.env
        = log w.env ++ ga.invocation i ++
          (match (a.get w).1 with
           | .ok _ => sa.invocation j
           | .error _ => [])
    ∧ log (detail.property_base.operator_post_dec minus_one convert a.get a.set w).2.env
        = log w.env ++ ga.invocation i ++
          (match (a.get w).1 with
           | .ok _ => sa.invocation j
           | .error _ => [])
    ∧ log (detail.property_base.operator_pre_inc plus_one convert a.get a.set w).2.env
        = log w.env ++ ga.invocation i ++
          (match (a.get w).1 with
           | .ok _ => sa.invocation j
           | .error _ => [])
    ∧ log (detail.property_base.operator_pre_dec minus_one convert a.get a.set w).2.env
        = log w.env ++ ga.invocation i ++
          (match (a.get w).1 with
           | .ok _ => sa.invocation j
           | .error _ => [])
    ∧ (∀ (c : CompoundOp) (right : β),
        log (detail.property_base.operator_compound plain convert c a.get a.set
            right w).2.env
          = log w.env ++ ga.invocation i ++
            (match (a.get w).1 with
             | .ok _ => sa.invocation j
             | .error _ => []))
    ∧ (∀ f w1, a.get w = (.error f, w1) →
        detail.property_base.operator_post_inc plus_one convert a.get a.set w
          = (.error f, w1)
        ∧ detail.property_base.operator_post_dec minus_one convert a.get a.set w
          = (.error f, w1)
        ∧ detail.property_base.operator_pre_inc plus_one convert a.get a.set w
          = (.error f, w1)
        ∧ detail.property_base.operator_pre_dec minus_one convert a.get a.set w
          = (.error f, w1)
        ∧ (∀ (c : CompoundOp) (right : β),
            detail.property_base.operator_compound plain convert c a.get a.set right w
              = (.error f, w1))
        ∧ log w1.env = log w.env ++ ga.invocation i)
    ∧ (∀ (right : Eff ε α κ (Res α)) (evb : List Event) (c : CompoundOp)
          (t1_first : Bool), Eff.records log evb right →
        log (detail.property_base.operator_compound_property plain2 convert c t1_first
            a.get a.set right w).2.env
          = log w.env ++ ga.invocation i ++
            (match a.get w with
             | (.ok _, w1) =>
               evb ++ (match (right w1).1 with
                       | .ok _ => sa.invocation j
                       | .error _ => [])
             | (.error _, _) => []))
    ∧ (∀ (c : CompoundOp) (t1_first : Bool),
        log (detail.property_base.operator_compound_property plain2 convert c t1_first
            a.get a.set (detail.property_base.operator_call a.get) w).2.env
          = log w.env ++ ga.invocation i ++
            (match a.get w with
             | (.ok _, w1) =>
               ga.invocation i ++ (match (a.get w1).1 with
                                   | .ok _ => sa.invocation j
                                   | .error _ => [])
             | (.error _, _) => [])) := by
  have hg := property.get_records ha hga
  have hs := property.set_records ha hsa
  have post : ∀ (v : π) (prev : α) (w1 : World α κ),
      (match detail.property_base.operator_assign_converted convert a.set v w1 with
        | (.error f, w2) => ((.error f : Except (Fault ε) α), w2)
        | (.ok _, w2) => (.ok prev, w2)).2 = (a.set (.prvalue (convert v)) w1).2 := by
    intro v prev w1
    rw [← detail.property_base.operator_assign_converted_state]
    rcases detail.property_base.operator_assign_converted convert a.set v w1
      with ⟨_ | _, w2⟩ <;> rfl
  have withacc : ∀ (right : Eff ε α κ (Res α)) (evb : List Event) (c : CompoundOp)
      (t1_first : Bool), Eff.records log evb right →
      log (detail.property_base.operator_compound_property plain2 convert c t1_first
          a.get a.set right w).2.env
        = log w.env ++ ga.invocation i ++
          (match a.get w with
           | (.ok _, w1) =>
             evb ++ (match (right w1).1 with
                     | .ok _ => sa.invocation j
                     | .error _ => [])
           | (.error _, _) => []) := by
    intro right evb c t1_first hr
    have h1 := hg w
    simp only [detail.property_base.operator_compound_property,
      detail.property_base.operator_call, detail.operator_binary_rp]
    rcases hgw : a.get w with ⟨_ | r, w1⟩
    · rw [hgw] at h1
      simpa using h1
    · rw [hgw] at h1
      have h2 := hr w1
      simp only at h1 ⊢
      by_cases hb : detail.evaluates_left_first c.applied t1_first = true <;>
        · simp only [hb, if_true, Bool.false_eq_true, if_false]
          rcases hrw : right w1 with ⟨_ | r2, w2⟩
          · rw [hrw] at h2
            simp only at h2 ⊢
            rw [h2, h1]
            simp
          · rw [hrw] at h2
            simp only at h2 ⊢
            rw [detail.property_base.operator_assign_converted_state, hs _ w2, h2, h1]
            simp
  refine ⟨?_, ?_, ?_, ?_, ?_, ?_, withacc, ?_⟩
  · refine Eff.records_get_then_set hg hs w _ ?_
    simp only [detail.property_base.operator_post_inc, detail.property_base.operator_call]
    rcases a.get w with ⟨_ | r, w1⟩
    · rfl
    · exact ⟨_, post _ _ _⟩
  · refine Eff.records_get_then_set hg hs w _ ?_
    simp only [detail.property_base.operator_post_dec, detail.property_base.operator_call]
    rcases a.get w with ⟨_ | r, w1⟩
    · rfl
    · exact ⟨_, post _ _ _⟩
  · refine Eff.records_get_then_set hg hs w _ ?_
    simp only [detail.property_base.operator_pre_inc, detail.property_base.operator_call]
    rcases a.get w with ⟨_ | r, w1⟩
    · rfl
    · exact ⟨_, detail.property_base.operator_assign_converted_state _ _ _ _⟩
  · refine Eff.records_get_then_set hg hs w _ ?_
    simp only [detail.property_base.operator_pre_dec, detail.property_base.operator_call]
    rcases a.get w with ⟨_ | r, w1⟩
    · rfl
    · exact ⟨_, detail.property_base.operator_assign_converted_state _ _ _ _⟩
  · intro c right
    refine Eff.records_get_then_set hg hs w _ ?_
    simp only [detail.property_base.operator_compound, detail.property_base.operator_call]
    rcases a.get w with ⟨_ | r, w1⟩
    · rfl
    · exact ⟨_, detail.property_base.operator_assign_converted_state _ _ _ _⟩
  · intro f w1 hf
    have hl := hg w
    rw [hf] at hl
    refine ⟨?_, ?_, ?_, ?_, ?_, hl⟩
    · simp [detail.property_base.operator_post_inc, detail.property_base.operator_call, hf]
    · simp [detail.property_base.operator_post_dec, detail.property_base.operator_call, hf]
    · simp [detail.property_base.operator_pre_inc, detail.property_base.operator_call, hf]
    · simp [detail.property_base.operator_pre_dec, detail.property_base.operator_call, hf]
    · intro c right
      simp [detail.property_base.operator_compound, detail.property_base.operator_call, hf]
  · intro c t1_first
    exact withacc (detail.property_base.operator_call a.get) (ga.invocation i) c t1_first
      (fun w0 => hg w0)

theorem mutating_operator_call_counts_witness :
    ∃ a : property Unit Int (List Event),
      sample.logging 1 10 = some a
      ∧ (detail.property_base.operator_compound test.arithmetic id .add_assign a.get a.set
          (3 : Int) ⟨fun _ => 0, []⟩).2.env = [.getter 1, .setter 1]
      ∧ (detail.property_base.operator_compound_property test.arithmetic id .add_assign
          true a.get a.set (detail.property_base.operator_call a.get)
          ⟨fun _ => 0, []⟩).2.env = [.getter 1, .getter 1, .setter 1] :=
  ⟨_, rfl,
    ((mutating_operator_call_counts id test.const_double_ref test.double
      (.fn (sample.logging_getter 1 10)) (.fn (sample.logging_setter 1 10)) 1 1 _
      rfl (fun _ => rfl) (fun _ _ => rfl) (fun x => x + 1) (fun x => x - 1)
      test.arithmetic test.arithmetic id ⟨fun _ => 0, []⟩).2.2.2.2.1 .add_assign 3),
    ((mutating_operator_call_counts id test.const_double_ref test.double
      (.fn (sample.logging_getter 1 10)) (.fn (sample.logging_setter 1 10)) 1 1 _
      rfl (fun _ => rfl) (fun _ _ => rfl) (fun x => x + 1) (fun x => x - 1)
      (test.arithmetic : BinOp → Int → Int → Int) test.arithmetic id
      ⟨fun _ => 0, []⟩).2.2.2.2.2.2.2 .add_assign true)⟩

/-- C27, evaluated on the ten compound assignments.  Nine of them are constrained on the
operator their body applies; `operator>>=` is constrained on `v + r` while its body
applies `>>`.  For a `property<const double&>` and a `double` right operand the
constraint of `>>=` therefore holds although `x >> k` is not valid (and that of the
sibling `<<=` does not hold); for a wrapped type with `>>` but without `+` the
constraint fails although `x >> k` is valid. -/
theorem shift_right_assign_constraint (ReturnType ArgumentType : CppType)
    (valid : ValueExpr → Bool) :
    (∀ c : CompoundOp, c.constrained = if c = .shr_assign then .add else c.applied)
    ∧ CompoundOp.shr_assign.applied = .shr
    ∧ CompoundOp.shr_assign.constrained = .add
    ∧ detail.property_base.requires_clause ReturnType ArgumentType valid
          (.compound .shr_assign)
        = (detail.property_base.has_getter ReturnType
            && detail.property_base.has_setter ArgumentType && valid (.binary .add))
    ∧ detail.property_base.requires_clause test.const_double_ref test.double
          test.double_expression (.compound .shr_assign) = true
    ∧ test.double_expression (.binary .shr) = false
    ∧ detail.property_base.requires_clause test.const_double_ref test.double
          test.double_expression (.compound .shl_assign) = false
    ∧ detail.property_base.requires_clause test.const_double_ref test.double
          (fun e => decide (e = .binary .shr)) (.compound .shr_assign) = false := by
  refine ⟨?_, rfl, rfl, rfl, by decide, rfl, by decide, by decide⟩
  intro c
  cases c <;> rfl

/-- C28. Short-circuit between two accessors.  Let `a` and `b` be accessors with getters
(read-write or read-only), `a` built from a getter strategy that logs `getter i` and `b`
from one that logs `getter k`, and let `truth` be the contextual conversion to `bool` of
the wrapped value, combined by the built-in `&&` and `||`.  Then `a && b` appends one
invocation of `a`'s getter and, exactly when `a` returned a value that reads as true, one
invocation of `b`'s getter after it; `a || b` does the same with `b`'s getter invoked
exactly when `a` returned a value that reads as false. -/
theorem short_circuit_call_counts (log : κ → List Event) (truth : α → Bool)
    (get_a get_b : Eff ε α κ (Res α)) (ga gb : GetterArg ε α κ) (i k : Nat)
    (ha : (∃ RT AT s p, property.construct RT AT ga s = some p ∧ get_a = p.get)
      ∨ (∃ RT p, property_get_only.construct RT ga = some p ∧ get_a = p.get))
    (hb : (∃ RT AT s p, property.construct RT AT gb s = some p ∧ get_b = p.get)
      ∨ (∃ RT p, property_get_only.construct RT gb = some p ∧ get_b = p.get))
    (hga : ga.instrumented log i) (hgb : gb.instrumented log k) (w : World α κ) :
    log (detail.operator_and_pp truth get_a get_b w).2.env
        = log w.env ++ ga.invocation i ++
          (match get_a w with
           | (.ok r, w1) => if truth (r.load w1) then gb.invocation k else []
           | (.error _, _) => [])
    ∧ log (detail.operator_or_pp truth get_a get_b w).2.env
        = log w.env ++ ga.invocation i ++
          (match get_a w with
           | (.ok r, w1) => if truth (r.load w1) then [] else gb.invocation k
           | (.error _, _) => []) := by
  have hra : Eff.records log (ga.invocation i) get_a := by
    rcases ha with ⟨RT, AT, s, p, hp, rfl⟩ | ⟨RT, p, hp, rfl⟩
    · exact property.get_records hp hga
    · exact property_get_only.get_only_get_records hp hga
  have hrb : Eff.records log (gb.invocation k) get_b := by
    rcases hb with ⟨RT, AT, s, p, hp, rfl⟩ | ⟨RT, p, hp, rfl⟩
    · exact property.get_records hp hgb
    · exact property_get_only.get_only_get_records hp hgb
  have h1 := hra w
  constructor
  · simp only [detail.operator_and_pp, detail.property_base.operator_call]
    rcases hgw : get_a w with ⟨_ | r, w1⟩
    · rw [hgw] at h1
      simpa using h1
    · rw [hgw] at h1
      by_cases ht : truth (r.load w1) = true
      · have h2 := hrb w1
        simp only [ht, if_true]
        rcases hgb2 : get_b w1 with ⟨_ | r2, w2⟩ <;>
          · rw [hgb2] at h2
            simp only at h2 ⊢
            rw [h2, h1]
      · simp only [ht]
        simpa using h1
  · simp only [detail.operator_or_pp, detail.property_base.operator_call]
    rcases hgw : get_a w with ⟨_ | r, w1⟩
    · rw [hgw] at h1
      simpa using h1
    · rw [hgw] at h1
      by_cases ht : truth (r.load w1) = true
      · simp only [ht, if_true]
        simpa using h1
      · have h2 := hrb w1
        have hf : truth (r.load w1) = false := by simpa using ht
        simp only [hf, Bool.false_eq_true, if_false]
        rcases hgb2 : get_b w1 with ⟨_ | r2, w2⟩ <;>
          · rw [hgb2] at h2
            simp only at h2 ⊢
            rw [h2, h1]

theorem short_circuit_call_counts_witness :
    ∃ a b : property Unit Int (List Event),
      sample.logging 1 10 = some a ∧ sample.logging 2 20 = some b
      ∧ (detail.operator_and_pp (fun x : Int => decide (x ≠ 0)) a.get b.get
          ⟨fun _ => 0, []⟩).2.env = [.getter 1]
      ∧ (detail.operator_or_pp (fun x : Int => decide (x ≠ 0)) a.get b.get
          ⟨fun _ => 0, []⟩).2.env = [.getter 1, .getter 2] :=
  ⟨_, _, rfl, rfl,
    short_circuit_call_counts id (fun x : Int => decide (x ≠ 0)) _ _
      (.fn (sample.logging_getter 1 10)) (.fn (sample.logging_getter 2 20)) 1 2
      (Or.inl ⟨test.const_double_ref, test.double, .fn (sample.logging_setter 1 10), _,
        rfl, rfl⟩)
      (Or.inl ⟨test.const_double_ref, test.double, .fn (sample.logging_setter 2 20), _,
        rfl, rfl⟩)
      (fun _ => rfl) (fun _ => rfl) ⟨fun _ => 0, []⟩⟩

/-- C29, evaluated on the restricted self-storage classes.  `auto_property<E, get_only>`
and `auto_property<E, set_only>` pass `const std::remove_cvref_t<E>&` and
`std::remove_cvref_t<E>` to `property_base`, as the read-write class does, so both
capability flags are set on each of them, where `property<R, get_only>` and
`property<A, set_only>` pass `void` and have the missing flag cleared.  The `requires`
clauses of the setter-dependent operators therefore hold on the read-only self-storage
class, and those of the getter-dependent operators on the write-only one, although the
bodies cannot compile for lack of the member `set` or `get`. -/
theorem restricted_self_storage_flags (b : Nat) (c : Bool) (k : RefKind)
    (ReturnType ArgumentType : CppType) (valid : ValueExpr → Bool) :
    detail.property_base.has_getter (SelfStorage.get_only.base_ReturnType (.obj b c k))
        = true
    ∧ detail.property_base.has_setter
        (SelfStorage.get_only.base_ArgumentType (.obj b c k)) = true
    ∧ detail.property_base.has_setter
        (SelfStorage.set_only.base_ArgumentType (.obj b c k)) = true
    ∧ detail.property_base.has_getter (SelfStorage.set_only.base_ReturnType (.obj b c k))
        = true
    ∧ detail.property_base.has_setter (Variant.get_only.base_ArgumentType ArgumentType)
        = false
    ∧ detail.property_base.has_getter (Variant.set_only.base_ReturnType ReturnType)
        = false
    ∧ detail.property_base.requires_clause
          (SelfStorage.get_only.base_ReturnType (.obj b c k))
          (SelfStorage.get_only.base_ArgumentType (.obj b c k)) valid .assign = true
    ∧ detail.property_base.requires_clause
          (SelfStorage.get_only.base_ReturnType (.obj b c k))
          (SelfStorage.get_only.base_ArgumentType (.obj b c k)) valid .pre_inc
        = valid .plus_one
    ∧ detail.property_base.requires_clause
          (SelfStorage.set_only.base_ReturnType (.obj b c k))
          (SelfStorage.set_only.base_ArgumentType (.obj b c k)) valid .call = true
    ∧ detail.property_base.body_well_formed SelfStorage.get_only.derived.get_member
          SelfStorage.get_only.derived.set_member .pre_inc = false
    ∧ detail.property_base.body_well_formed SelfStorage.set_only.derived.get_member
          SelfStorage.set_only.derived.set_member .call = false
    ∧ detail.property_base.requires_clause
          (Variant.get_only.base_ReturnType ReturnType)
          (Variant.get_only.base_ArgumentType ArgumentType) valid .pre_inc = false
    ∧ detail.property_base.requires_clause
          (Variant.set_only.base_ReturnType ReturnType)
          (Variant.set_only.base_ArgumentType ArgumentType) valid .call = false := by
  have hg : ∀ s : SelfStorage,
      detail.property_base.has_getter (s.base_ReturnType (.obj b c k)) = true := by
    intro s
    cases s <;> cases k <;>
      simp [detail.property_base.has_getter, SelfStorage.base_ReturnType,
        const_lvalue_reference, const_lvalue_reference_to, std.remove_cvref_t, std.same_as]
  have hs : ∀ s : SelfStorage,
      detail.property_base.has_setter (s.base_ArgumentType (.obj b c k)) = true := by
    intro s
    cases s <;>
      simp [detail.property_base.has_setter, SelfStorage.base_ArgumentType,
        std.remove_cvref_t, std.same_as]
  refine ⟨hg _, hs _, hs _, hg _, ?_, ?_, ?_, ?_, ?_, rfl, rfl, ?_, ?_⟩
  · simp [detail.property_base.has_setter, Variant.base_ArgumentType, std.same_as]
  · simp [detail.property_base.has_getter, Variant.base_ReturnType, std.same_as]
  · simp [detail.property_base.requires_clause, hs]
  · simp [detail.property_base.requires_clause, hs, hg]
  · simp [detail.property_base.requires_clause, hg]
  · simp [detail.property_base.requires_clause, detail.property_base.has_setter,
      Variant.base_ArgumentType, std.same_as]
  · simp [detail.property_base.requires_clause, detail.property_base.has_getter,
      Variant.base_ReturnType, std.same_as]

/-- C30. Reference-entity self-storage writes through.  Let `s` be a variable of a
non-const type.  A write-only self-storage accessor `auto_property<T&, set_only>` can be
bound to `s`, and assigning any value to it returns that value and stores it in `s` and
nowhere else.  A read-write `auto_property<T&>` and a read-only
`auto_property<const T&, get_only>` can be bound to `s` as well, without changing the
state; they read the value written through the write-only accessor, and an assignment
of an lvalue to the read-write accessor stores its value in `s`, where a second
read-write accessor bound to `s` and the read-only one read it. -/
theorem reference_entity_writes_through (b : Nat) (s self1 self2 self3 : Loc)
    (w : World α κ) (v : Res α) :
    ∃ (a : auto_property_set_only) (c1 c2 : auto_property) (g : auto_property_get_only),
      auto_property_set_only.construct (.obj b false .lvalue) (.lvalue s : Res α) = some a
      ∧ auto_property.construct (.obj b false .lvalue) self1 (.lvalue s : Res α) w
          = some (c1, w)
      ∧ auto_property.construct (.obj b false .lvalue) self2 (.lvalue s : Res α) w
          = some (c2, w)
      ∧ auto_property_get_only.construct (.obj b true .lvalue) self3 (.lvalue s : Res α) w
          = some (g, w)
      ∧ a.assign_requires = true
      ∧ (∃ w1, (a.operator_assign v : Eff ε α κ (Res α)) w = (.ok v, w1)
          ∧ w1 = w.store s (v.load w) ∧ w1.mem s = v.load w
          ∧ (∃ r, (c1.get : Eff ε α κ (Res α)) w1 = (.ok r, w1) ∧ r.load w1 = v.load w)
          ∧ (∃ r, (g.get : Eff ε α κ (Res α)) w1 = (.ok r, w1) ∧ r.load w1 = v.load w))
      ∧ (∀ l : Loc, c1.assign_requires (.lvalue l : Res α) = true
          ∧ ∃ w1, (c1.operator_assign (.lvalue l) : Eff ε α κ (Res α)) w
              = (.ok (.lvalue l), w1)
            ∧ w1.mem s = w.mem l
            ∧ (∃ r, (c2.get : Eff ε α κ (Res α)) w1 = (.ok r, w1)
                ∧ r.load w1 = w.mem l)
            ∧ (∃ r, (g.get : Eff ε α κ (Res α)) w1 = (.ok r, w1)
                ∧ r.load w1 = w.mem l))
      ∧ (∀ x : α, c1.assign_requires (.prvalue x) = false) := by
  refine ⟨⟨.obj b false .lvalue, s⟩, ⟨.obj b false .lvalue, s⟩, ⟨.obj b false .lvalue, s⟩,
    ⟨.obj b true .lvalue, s⟩, rfl, rfl, rfl, rfl, rfl, ?_, ?_, ?_⟩
  · refine ⟨w.store s (v.load w), rfl, rfl, World.store_mem_same _ _ _,
      ⟨.lvalue s, rfl, ?_⟩, ⟨.lvalue s, rfl, ?_⟩⟩
    · rw [Res.load_lvalue, World.store_mem_same]
    · rw [Res.load_lvalue, World.store_mem_same]
  · intro l
    refine ⟨rfl, w.store s (w.mem l), rfl, World.store_mem_same _ _ _,
      ⟨.lvalue s, rfl, ?_⟩, ⟨.lvalue s, rfl, ?_⟩⟩
    · rw [Res.load_lvalue, World.store_mem_same]
    · rw [Res.load_lvalue, World.store_mem_same]
  · intro x
    rfl

end claims

end cpp_property
